import Mathlib

/-!
# Stack App: runtime adapter, lifecycle orchestrator, definition store and validators

A shallow embedding of `src/lib/docker/index.js` (class `DockerManager`), of
`src/lib/db/index.js` (class `DatabaseManager`), of the routes of `src/lib/api/stacks.js`
and `src/lib/api/services.js` that the statements are about, and of
`src/lib/api/validators.js`.

* A JavaScript string is the list of its UTF-16 code units, so that `List.length`
  is the JavaScript `.length` the source compares with 63.
* A thrown JavaScript `Error` is a `JsError` (message and optional `statusCode`);
  every `async` method of the class is a function
  `World σ → Except JsError α × World σ`: `Except.error` is a rejected promise.
* The container runtime behind `dockerode` is a parameter (`Runtime σ`): an
  arbitrary state machine answering each call; the `World` also records the calls
  issued to it, in order.
-/

namespace StackApp

/-! ## JavaScript strings and errors -/

/-- A JavaScript string, as the list of its UTF-16 code units. -/
abbrev JsString := List Nat

/-- The UTF-16 code units of one Unicode scalar value. -/
def utf16Units (c : Char) : List Nat :=
  if c.toNat < 0x10000 then [c.toNat]
  else [0xD800 + (c.toNat - 0x10000) / 0x400, 0xDC00 + (c.toNat - 0x10000) % 0x400]

/-- The JavaScript string written by a source literal. -/
def js (s : String) : JsString :=
  s.toList.foldr (fun c acc => utf16Units c ++ acc) []

/-- The string `c.repeat(n)` for a one-character string `c`. -/
def repeatChar (c : Char) (n : Nat) : JsString := js (String.mk (List.replicate n c))

/-- A thrown JavaScript `Error`: `statusCode` is `none` when the property is undefined
(as for `new Error(...)`), and the HTTP status for an error raised by `dockerode`. -/
structure JsError where
  message : JsString
  statusCode : Option Nat
deriving DecidableEq

/-! ## Naming scheme (`generateContainerName`) -/

/-- The error of `generateContainerName`:
`new Error("Container name '" + name + "' exceeds 63 character limit")`. -/
def nameTooLongError (name : JsString) : JsError :=
  { message := js "Container name '" ++ name ++ js "' exceeds 63 character limit",
    statusCode := none }

/-- The method `DockerManager.generateContainerName` (docker/index.js, lines 10-16). -/
def generateContainerName (stackId serviceId : JsString) : Except JsError JsString :=
  let name := stackId ++ js "-" ++ serviceId
  if name.length > 63 then
    Except.error (nameTooLongError name)
  else
    Except.ok name

/-! ## Data model: services and their container configuration -/

/-- A JavaScript object with string keys: its own properties in insertion order. -/
abbrev JsObject (V : Type) := List (JsString × V)

/-- The assignment `o[k] = v`: an existing key keeps its place, a new key is appended. -/
def JsObject.set {V : Type} : JsObject V → JsString → V → JsObject V
  | [], k, v => [(k, v)]
  | (k0, v0) :: rest, k, v =>
    if k0 = k then (k, v) :: rest else (k0, v0) :: JsObject.set rest k v

/-- The property read `o[k]`: `none` is `undefined`. -/
def JsObject.get? {V : Type} : JsObject V → JsString → Option V
  | [], _ => none
  | (k0, v0) :: rest, k => if k0 = k then some v0 else JsObject.get? rest k

/-- One entry of `containerConfig.ports`, the port numbers being non-negative integers
(an integer that is not a number value, which can only be one of 2^53 or more, stands for
the number value nearest to it). `hostPort` is `none` when the property is absent. -/
structure Port where
  containerPort : Nat
  hostPort : Option Nat
deriving DecidableEq

/-- One entry of `containerConfig.volumes`. -/
structure Volume where
  hostPath : JsString
  containerPath : JsString
deriving DecidableEq

/-- The `containerConfig` of a service. Each property is `none` when absent.
`environment` is the object as `Object.entries` enumerates it. -/
structure ContainerConfig where
  environment : Option (List (JsString × JsString))
  ports : Option (List Port)
  volumes : Option (List Volume)
deriving DecidableEq

/-- A service, as the orchestrator receives it from the definition store. -/
structure Service where
  id : JsString
  name : JsString
  image : JsString
  containerConfig : ContainerConfig
deriving DecidableEq

/-- The position of the highest bit of `n`, found in at most `fuel` halvings. -/
def highBitWithin : Nat → Nat → Nat
  | 0, _ => 0
  | fuel + 1, n => if n < 2 then 0 else highBitWithin fuel (n / 2) + 1

/-- The position of the highest bit of `n` (the exponent of the largest power of two that
is at most `n`), counted up to 1100: a number value has fewer than 1024 bits. -/
def highBit (n : Nat) : Nat := highBitWithin 1100 n

/-- The number value nearest to a non-negative integer, rounding a tie to the even
mantissa of 53 bits; `none` is `Infinity`, which is reached when the rounded value has
1025 bits, that is from 2^1024 - 2^970 on. Every integer below 2^53 is a number value. -/
def nearestNumber (n : Nat) : Option Nat :=
  if n < 2 ^ 53 then some n
  else if 2 * (n % 2 ^ (highBit n - 52)) > 2 ^ (highBit n - 52) ∨
      (2 * (n % 2 ^ (highBit n - 52)) = 2 ^ (highBit n - 52) ∧
        n / 2 ^ (highBit n - 52) % 2 = 1) then
    (if highBit ((n / 2 ^ (highBit n - 52) + 1) * 2 ^ (highBit n - 52)) < 1024 then
      some ((n / 2 ^ (highBit n - 52) + 1) * 2 ^ (highBit n - 52))
    else none)
  else if highBit n < 1024 then some (n / 2 ^ (highBit n - 52) * 2 ^ (highBit n - 52))
  else none

/-- Whether the decimal value `v` is read back as the number value `m` (an integer of at
least 2^53): `v` lies between the midpoints from `m` to its two neighbours, the
midpoints included when the mantissa of `m` is even. All values are taken four times, so
that the midpoints are integers. -/
def readsBackAs (m v : Nat) : Bool :=
  if m / 2 ^ (highBit m - 52) % 2 = 0 then
    decide (4 * m - (if m / 2 ^ (highBit m - 52) = 2 ^ 52 then 1 else 2) * 2 ^ (highBit m - 52)
        ≤ 4 * v) &&
      decide (4 * v ≤ 4 * m + 2 * 2 ^ (highBit m - 52))
  else
    decide (4 * m - 2 * 2 ^ (highBit m - 52) < 4 * v) &&
      decide (4 * v < 4 * m + 2 * 2 ^ (highBit m - 52))

/-- The candidates with `k` digits for the shortest decimal of `m`, which has `d` digits:
`m` cut after `k` digits, and that plus one, when they are read back as `m`. The result
is the closer one to `m`, the even one of two equally close. -/
def shortestWith (m d k : Nat) : Option Nat :=
  let p := 10 ^ (d - k)
  let a := m / p
  let low := readsBackAs m (a * p)
  let high := readsBackAs m ((a + 1) * p)
  if low && high then
    (if m - a * p < (a + 1) * p - m then some a
     else if (a + 1) * p - m < m - a * p then some (a + 1)
     else if a % 2 = 0 then some a else some (a + 1))
  else if low then some a
  else if high then some (a + 1)
  else none

/-- The digits `s` and the position `n` of `Number::toString` for a number value `m` of
at least 2^53: the shortest `s` such that `s` followed by zeros up to `n` digits is read
back as `m`. -/
def shortestDecimal (m : Nat) : Nat × Nat :=
  let d := (toString m).length
  if readsBackAs m (10 ^ d) then (1, d + 1)
  else
    match (List.range d).findSome? (fun i => shortestWith m d (i + 1)) with
    | some s => (s, d)
    | none => (m, d)

/-- The text of `Number::toString` for digits `s` at position `n`: the digits followed by
zeros when `n` is at most 21, and the exponent form otherwise. -/
def decimalText (s n : Nat) : JsString :=
  if n ≤ 21 then js (toString s) ++ List.replicate (n - (toString s).length) 48
  else
    (match js (toString s) with
     | [] => []
     | [c] => [c]
     | c :: rest => c :: 46 :: rest) ++ js "e+" ++ js (toString (n - 1))

/-- The text of a non-negative integer number value, as a template literal, `toString()`
or `String` renders it: plain decimal below 2^53, the shortest decimal that is read back
as the number above, with the exponent form from 10^21 on. An integer that is not a
number value has the text of the nearest one. -/
def numberToString (n : Nat) : JsString :=
  if n < 2 ^ 53 then js (toString n)
  else
    match nearestNumber n with
    | none => js "Infinity"
    | some m => decimalText (shortestDecimal m).1 (shortestDecimal m).2

/-- JavaScript truthiness of `port.hostPort`: absent and `0` are falsy. -/
def hostPortTruthy : Option Nat → Bool
  | none => false
  | some n => n != 0

/-! ## The container runtime behind `dockerode` -/

/-- The handle `dockerode` returns for a container (`new Container(modem, id)`). -/
structure Container where
  id : JsString
deriving DecidableEq

/-- One element of a `PortBindings` entry. -/
structure PortBinding where
  HostPort : JsString
deriving DecidableEq

/-- The `HostConfig` object of the create options. -/
structure HostConfig where
  PortBindings : Option (JsObject (List PortBinding))
  Binds : Option (List JsString)
deriving DecidableEq

/-- The options object handed to `docker.createContainer`. -/
structure ContainerOptions where
  name : JsString
  Image : JsString
  AttachStdout : Bool
  AttachStderr : Bool
  Env : Option (List JsString)
  ExposedPorts : Option (JsObject Unit)
  HostConfig : Option HostConfig
deriving DecidableEq

/-- A JavaScript number that is an integer, or `NaN`, as `options.tail` can hold it. An
integer that is not a number value, which can only be one of magnitude 2^53 or more,
stands for the number value nearest to it where its text is taken. -/
inductive JsNumber where
  | int (i : Int)
  | nan
deriving DecidableEq

/-- JavaScript truthiness of a number: `0` and `NaN` are falsy. -/
def JsNumber.truthy : JsNumber → Bool
  | JsNumber.int i => i != 0
  | JsNumber.nan => false

/-- The `options` argument of `getContainerLogs`; `tail` is `none` when undefined. -/
structure LogOptions where
  tail : Option JsNumber
deriving DecidableEq

/-- The options object handed to `container.logs`. -/
structure RuntimeLogOptions where
  stdout : Bool
  stderr : Bool
  tail : JsNumber
  timestamps : Bool
  follow : Bool
deriving DecidableEq

/-- The options object handed to `container.remove`. -/
structure RemoveOptions where
  force : Bool
deriving DecidableEq

/-- The `State` object of the data `container.inspect()` resolves to. -/
structure InspectState where
  Status : JsString
  Running : Bool
  StartedAt : JsString
  FinishedAt : JsString
  ExitCode : Int
deriving DecidableEq

/-- The data `container.inspect()` resolves to. -/
structure InspectData where
  State : InspectState
deriving DecidableEq

/-- A request sent to the container runtime. -/
inductive Call where
  | createContainer (options : ContainerOptions)
  | start (id : JsString)
  | stop (id : JsString)
  | remove (id : JsString) (options : RemoveOptions)
  | inspect (id : JsString)
  | logs (id : JsString) (options : RuntimeLogOptions)
deriving DecidableEq

/-- The container runtime: an arbitrary state machine over `σ` that answers each
request with a result or an error and moves to a next state. -/
structure Runtime (σ : Type) where
  createContainer : ContainerOptions → σ → Except JsError Container × σ
  start : JsString → σ → Except JsError Unit × σ
  stop : JsString → σ → Except JsError Unit × σ
  remove : JsString → RemoveOptions → σ → Except JsError Unit × σ
  inspect : JsString → σ → Except JsError InspectData × σ
  logs : JsString → RuntimeLogOptions → σ → Except JsError JsString × σ

/-- The runtime state together with the requests issued so far, oldest first. -/
structure World (σ : Type) where
  state : σ
  trace : List Call

/-- The outcome of an `async` method: a resolved value or a rejection, and the world after. -/
abbrev Js (σ α : Type) := World σ → Except JsError α × World σ

/-- Sends one request: it is appended to the trace and answered by the runtime. -/
def request {σ α : Type} (c : Call) (answer : σ → Except JsError α × σ) : Js σ α :=
  fun w => ((answer w.state).1, { state := (answer w.state).2, trace := w.trace ++ [c] })

/-- The call `docker.getContainer(id)`: builds a handle, sends nothing. -/
def getContainer (id : JsString) : Container := { id := id }

/-- The call `docker.createContainer(options)`. -/
def Runtime.create {σ : Type} (rt : Runtime σ) (options : ContainerOptions) : Js σ Container :=
  request (Call.createContainer options) (rt.createContainer options)

/-- The call `container.start()`. -/
def Container.start {σ : Type} (rt : Runtime σ) (c : Container) : Js σ Unit :=
  request (Call.start c.id) (rt.start c.id)

/-- The call `container.stop()`. -/
def Container.stop {σ : Type} (rt : Runtime σ) (c : Container) : Js σ Unit :=
  request (Call.stop c.id) (rt.stop c.id)

/-- The call `container.remove(options)`. -/
def Container.remove {σ : Type} (rt : Runtime σ) (c : Container) (options : RemoveOptions) :
    Js σ Unit :=
  request (Call.remove c.id options) (rt.remove c.id options)

/-- The call `container.inspect()`. -/
def Container.inspect {σ : Type} (rt : Runtime σ) (c : Container) : Js σ InspectData :=
  request (Call.inspect c.id) (rt.inspect c.id)

/-- The call `container.logs(options)`, with the stream already rendered by `toString()`. -/
def Container.logs {σ : Type} (rt : Runtime σ) (c : Container) (options : RuntimeLogOptions) :
    Js σ JsString :=
  request (Call.logs c.id options) (rt.logs c.id options)

/-! ## Runtime adapter (`DockerManager`) -/

/-- The key `${port.containerPort}/tcp` (docker/index.js, line 44). -/
def portKey (port : Port) : JsString := numberToString port.containerPort ++ js "/tcp"

/-- The body of the loop over `containerConfig.ports` (docker/index.js, lines 43-52):
the pair is (`ExposedPorts`, `HostConfig.PortBindings`). -/
def addPort (acc : JsObject Unit × JsObject (List PortBinding)) (port : Port) :
    JsObject Unit × JsObject (List PortBinding) :=
  let containerPort := portKey port
  let exposedPorts := JsObject.set acc.1 containerPort ()
  match port.hostPort with
  | some hostPort =>
    if hostPortTruthy (some hostPort) then
      (exposedPorts, JsObject.set acc.2 containerPort [{ HostPort := numberToString hostPort }])
    else (exposedPorts, acc.2)
  | none => (exposedPorts, acc.2)

/-- The `containerOptions` object that `createContainer` builds (docker/index.js, lines 21-61). -/
def buildContainerOptions (containerName : JsString) (service : Service) : ContainerOptions :=
  let containerConfig := service.containerConfig
  let env : Option (List JsString) :=
    match containerConfig.environment with
    | some entries => some (entries.map (fun kv => kv.1 ++ js "=" ++ kv.2))
    | none => none
  let portMaps : Option (JsObject Unit × JsObject (List PortBinding)) :=
    match containerConfig.ports with
    | some ports => if ports.length > 0 then some (ports.foldl addPort ([], [])) else none
    | none => none
  let binds : Option (List JsString) :=
    match containerConfig.volumes with
    | some volumes =>
      if volumes.length > 0 then
        some (volumes.map (fun volume => volume.hostPath ++ js ":" ++ volume.containerPath))
      else none
    | none => none
  let hostConfig : Option HostConfig :=
    match portMaps, binds with
    | none, none => none
    | some maps, _ => some { PortBindings := some maps.2, Binds := binds }
    | none, some _ => some { PortBindings := none, Binds := binds }
  { name := containerName,
    Image := service.image,
    AttachStdout := true,
    AttachStderr := true,
    Env := env,
    ExposedPorts := portMaps.map (fun maps => maps.1),
    HostConfig := hostConfig }

/-- The method `DockerManager.createContainer` (docker/index.js, lines 19-73). -/
def createContainer {σ : Type} (rt : Runtime σ) (stackId : JsString) (service : Service) :
    Js σ Container :=
  fun w =>
    match generateContainerName stackId service.id with
    | Except.error e => (Except.error e, w)
    | Except.ok containerName =>
      match Runtime.create rt (buildContainerOptions containerName service) w with
      | (Except.ok container, w1) => (Except.ok container, w1)
      | (Except.error error, w1) =>
        if error.statusCode = some 409 then (Except.ok (getContainer containerName), w1)
        else (Except.error error, w1)

/-- The method `DockerManager.startContainer` (docker/index.js, lines 76-90). -/
def startContainer {σ : Type} (rt : Runtime σ) (stackId serviceId : JsString) : Js σ Bool :=
  fun w =>
    match generateContainerName stackId serviceId with
    | Except.error e => (Except.error e, w)
    | Except.ok containerName =>
      match Container.start rt (getContainer containerName) w with
      | (Except.ok _, w1) => (Except.ok true, w1)
      | (Except.error error, w1) =>
        if error.statusCode = some 304 then (Except.ok true, w1)
        else (Except.error error, w1)

/-- The method `DockerManager.stopContainer` (docker/index.js, lines 93-107). -/
def stopContainer {σ : Type} (rt : Runtime σ) (stackId serviceId : JsString) : Js σ Bool :=
  fun w =>
    match generateContainerName stackId serviceId with
    | Except.error e => (Except.error e, w)
    | Except.ok containerName =>
      match Container.stop rt (getContainer containerName) w with
      | (Except.ok _, w1) => (Except.ok true, w1)
      | (Except.error error, w1) =>
        if error.statusCode = some 304 ∨ error.statusCode = some 404 then (Except.ok true, w1)
        else (Except.error error, w1)

/-- The method `DockerManager.removeContainer` (docker/index.js, lines 110-124). -/
def removeContainer {σ : Type} (rt : Runtime σ) (stackId serviceId : JsString) : Js σ Bool :=
  fun w =>
    match generateContainerName stackId serviceId with
    | Except.error e => (Except.error e, w)
    | Except.ok containerName =>
      match Container.remove rt (getContainer containerName) { force := true } w with
      | (Except.ok _, w1) => (Except.ok true, w1)
      | (Except.error error, w1) =>
        if error.statusCode = some 404 then (Except.ok true, w1)
        else (Except.error error, w1)

/-- The object `getContainerStatus` returns; `none` is `null`. -/
structure ContainerStatus where
  status : JsString
  running : Bool
  startedAt : Option JsString
  finishedAt : Option JsString
  exitCode : Option Int
deriving DecidableEq

/-- The method `DockerManager.getContainerStatus` (docker/index.js, lines 127-153). -/
def getContainerStatus {σ : Type} (rt : Runtime σ) (stackId serviceId : JsString) :
    Js σ ContainerStatus :=
  fun w =>
    match generateContainerName stackId serviceId with
    | Except.error e => (Except.error e, w)
    | Except.ok containerName =>
      match Container.inspect rt (getContainer containerName) w with
      | (Except.ok data, w1) =>
        (Except.ok
          { status := data.State.Status,
            running := data.State.Running,
            startedAt := some data.State.StartedAt,
            finishedAt := some data.State.FinishedAt,
            exitCode := some data.State.ExitCode }, w1)
      | (Except.error error, w1) =>
        if error.statusCode = some 404 then
          (Except.ok
            { status := js "not-created",
              running := false,
              startedAt := none,
              finishedAt := none,
              exitCode := none }, w1)
        else (Except.error error, w1)

/-- The expression `options.tail || 100`. -/
def tailOrDefault (tail : Option JsNumber) : JsNumber :=
  match tail with
  | some n => if n.truthy then n else JsNumber.int 100
  | none => JsNumber.int 100

/-- The method `DockerManager.getContainerLogs` (docker/index.js, lines 156-176). -/
def getContainerLogs {σ : Type} (rt : Runtime σ) (stackId serviceId : JsString)
    (options : LogOptions) : Js σ JsString :=
  fun w =>
    match generateContainerName stackId serviceId with
    | Except.error e => (Except.error e, w)
    | Except.ok containerName =>
      match Container.logs rt (getContainer containerName)
          { stdout := true,
            stderr := true,
            tail := tailOrDefault options.tail,
            timestamps := true,
            follow := false } w with
      | (Except.ok logStream, w1) => (Except.ok logStream, w1)
      | (Except.error error, w1) =>
        if error.statusCode = some 404 then (Except.ok (js "Container not found"), w1)
        else (Except.error error, w1)

/-! ## Lifecycle orchestrator (`startStack`, `stopStack`, the restart route) -/

/-- One element of the `results` array of a stack-wide operation:
`status` is present on success, `error` on failure. -/
structure OperationResult where
  serviceId : JsString
  success : Bool
  status : Option JsString
  error : Option JsString
deriving DecidableEq

/-- The loop of `startStack` (docker/index.js, lines 182-202), `results` being the
array built so far. -/
def startStackLoop {σ : Type} (rt : Runtime σ) (stackId : JsString) :
    List Service → List OperationResult → World σ → List OperationResult × World σ
  | [], results, w => (results, w)
  | service :: rest, results, w =>
    match createContainer rt stackId service w with
    | (Except.error error, w1) =>
      startStackLoop rt stackId rest
        (results ++ [{ serviceId := service.id, success := false, status := none,
                       error := some error.message }]) w1
    | (Except.ok _, w1) =>
      match startContainer rt stackId service.id w1 with
      | (Except.error error, w2) =>
        startStackLoop rt stackId rest
          (results ++ [{ serviceId := service.id, success := false, status := none,
                         error := some error.message }]) w2
      | (Except.ok _, w2) =>
        startStackLoop rt stackId rest
          (results ++ [{ serviceId := service.id, success := true,
                         status := some (js "started"), error := none }]) w2

/-- The method `DockerManager.startStack` (docker/index.js, lines 179-205). -/
def startStack {σ : Type} (rt : Runtime σ) (stackId : JsString) (services : List Service) :
    Js σ (List OperationResult) :=
  fun w =>
    (Except.ok (startStackLoop rt stackId services [] w).1,
      (startStackLoop rt stackId services [] w).2)

/-- The loop of `stopStack` (docker/index.js, lines 211-227). -/
def stopStackLoop {σ : Type} (rt : Runtime σ) (stackId : JsString) :
    List Service → List OperationResult → World σ → List OperationResult × World σ
  | [], results, w => (results, w)
  | service :: rest, results, w =>
    match stopContainer rt stackId service.id w with
    | (Except.ok _, w1) =>
      stopStackLoop rt stackId rest
        (results ++ [{ serviceId := service.id, success := true,
                       status := some (js "stopped"), error := none }]) w1
    | (Except.error error, w1) =>
      stopStackLoop rt stackId rest
        (results ++ [{ serviceId := service.id, success := false, status := none,
                       error := some error.message }]) w1

/-- The method `DockerManager.stopStack` (docker/index.js, lines 208-230). -/
def stopStack {σ : Type} (rt : Runtime σ) (stackId : JsString) (services : List Service) :
    Js σ (List OperationResult) :=
  fun w =>
    (Except.ok (stopStackLoop rt stackId services [] w).1,
      (stopStackLoop rt stackId services [] w).2)

/-- A stack as `dbManager.getStack` resolves it. -/
structure Stack where
  id : JsString
  name : JsString
  services : List Service
  createdAt : JsString
  updatedAt : JsString
deriving DecidableEq

/-- What the restart route does with the request: a JSON body, or `next(error)`. -/
inductive RestartResponse where
  | notFound (status : Nat) (code : JsString) (message : JsString)
  | restarted (stackId : JsString) (action : JsString)
      (stopResults : List OperationResult) (startResults : List OperationResult)
  | next (error : JsError)
deriving DecidableEq

/-- The route `POST /:stackId/restart` (api/stacks.js, lines 191-218). `getStack` is the
answer of the definition store to `dbManager.getStack` (`none` for no such stack). -/
def restartStackRoute {σ : Type} (rt : Runtime σ)
    (getStack : JsString → Except JsError (Option Stack)) (stackId : JsString) :
    World σ → RestartResponse × World σ :=
  fun w =>
    match getStack stackId with
    | Except.error error => (RestartResponse.next error, w)
    | Except.ok none =>
      (RestartResponse.notFound 404 (js "STACK_NOT_FOUND")
        (js "Stack '" ++ stackId ++ js "' not found"), w)
    | Except.ok (some stack) =>
      match stopStack rt stackId stack.services w with
      | (Except.error error, w1) => (RestartResponse.next error, w1)
      | (Except.ok stopResults, w1) =>
        match startStack rt stackId stack.services w1 with
        | (Except.error error, w2) => (RestartResponse.next error, w2)
        | (Except.ok startResults, w2) =>
          (RestartResponse.restarted stackId (js "restart") stopResults startResults, w2)

/-! ## Reading the trace and the create options -/

/-- A request is a `stop`. -/
def Call.isStop : Call → Bool
  | Call.stop _ => true
  | _ => false

/-- A request is a `createContainer` or a `start`. -/
def Call.isCreateOrStart : Call → Bool
  | Call.createContainer _ => true
  | Call.start _ => true
  | _ => false

/-- The read `options.HostConfig.PortBindings[key]`, `none` when any part is absent. -/
def ContainerOptions.portBinding (options : ContainerOptions) (key : JsString) :
    Option (List PortBinding) :=
  match options.HostConfig with
  | some hostConfig =>
    match hostConfig.PortBindings with
    | some bindings => JsObject.get? bindings key
    | none => none
  | none => none

/-- The read `options.ExposedPorts[key]`, `none` when any part is absent. -/
def ContainerOptions.exposedPort (options : ContainerOptions) (key : JsString) : Option Unit :=
  match options.ExposedPorts with
  | some exposed => JsObject.get? exposed key
  | none => none

/-- The list `options.HostConfig.Binds`, empty when absent. -/
def ContainerOptions.binds (options : ContainerOptions) : List JsString :=
  match options.HostConfig with
  | some hostConfig => hostConfig.Binds.getD []
  | none => []

/-! ## A reference container runtime

A small runtime with the status codes of the Docker Engine API (404 no such
container or image, 409 name conflict, 304 already started or stopped). It is one
instance of `Runtime`, used to run the adapter on concrete inputs. -/

/-- A container of the reference runtime. -/
structure RefContainer where
  name : JsString
  running : Bool
deriving DecidableEq

/-- The state of the reference runtime: the images present and the containers created. -/
structure RefState where
  images : List JsString
  containers : List RefContainer
deriving DecidableEq

/-- An error of the reference runtime. -/
def refError (statusCode : Nat) (message : String) : JsError :=
  { message := js message, statusCode := some statusCode }

/-- The reference runtime has a container of that name. -/
def RefState.has (s : RefState) (name : JsString) : Bool :=
  s.containers.any (fun c => decide (c.name = name))

/-- The reference runtime has a running container of that name. -/
def RefState.isRunning (s : RefState) (name : JsString) : Bool :=
  s.containers.any (fun c => decide (c.name = name) && c.running)

/-- Sets the running flag of the container of that name. -/
def RefState.setRunning (s : RefState) (name : JsString) (running : Bool) : RefState :=
  { s with containers :=
      s.containers.map (fun c => if c.name = name then { c with running := running } else c) }

/-- The reference runtime. -/
def refRuntime : Runtime RefState where
  createContainer := fun options s =>
    if ¬ options.Image ∈ s.images then (Except.error (refError 404 "No such image"), s)
    else if s.has options.name then (Except.error (refError 409 "Conflict"), s)
    else (Except.ok { id := options.name },
      { s with containers := s.containers ++ [{ name := options.name, running := false }] })
  start := fun id s =>
    if ¬ s.has id then (Except.error (refError 404 "No such container"), s)
    else if s.isRunning id then (Except.error (refError 304 "container already started"), s)
    else (Except.ok (), s.setRunning id true)
  stop := fun id s =>
    if ¬ s.has id then (Except.error (refError 404 "No such container"), s)
    else if ¬ s.isRunning id then (Except.error (refError 304 "container already stopped"), s)
    else (Except.ok (), s.setRunning id false)
  remove := fun id options s =>
    if ¬ s.has id then (Except.error (refError 404 "No such container"), s)
    else if s.isRunning id ∧ options.force = false then
      (Except.error (refError 409 "container is running"), s)
    else (Except.ok (), { s with containers := s.containers.filter (fun c => c.name != id) })
  inspect := fun id s =>
    if ¬ s.has id then (Except.error (refError 404 "No such container"), s)
    else (Except.ok { State :=
        { Status := if s.isRunning id then js "running" else js "exited",
          Running := s.isRunning id,
          StartedAt := js "",
          FinishedAt := js "",
          ExitCode := 0 } }, s)
  logs := fun id _ s =>
    if ¬ s.has id then (Except.error (refError 404 "No such container"), s)
    else (Except.ok (js ""), s)

/-- A world of the reference runtime in which nothing has been requested yet. -/
def refWorld (images : List JsString) (containers : List RefContainer) : World RefState :=
  { state := { images := images, containers := containers }, trace := [] }

/-- A service with an empty container configuration. -/
def plainService (id image : String) : Service :=
  { id := js id, name := js id, image := js image,
    containerConfig := { environment := none, ports := none, volumes := none } }

/-- A stored stack of two plain services, for running the routes on a concrete input. -/
def demoStack : Stack :=
  { id := js "web", name := js "web",
    services := [plainService "api" "nginx", plainService "db" "redis"],
    createdAt := js "", updatedAt := js "" }

/-- A definition store that holds only `demoStack`. -/
def demoStore (stackId : JsString) : Except JsError (Option Stack) :=
  if stackId = demoStack.id then Except.ok (some demoStack) else Except.ok none

/-- A service `api` with image `nginx` and the given port list as its only configuration. -/
def portsService (ports : List Port) : Service :=
  { id := js "api", name := js "api", image := js "nginx",
    containerConfig := { environment := none, ports := some ports, volumes := none } }

/-- A service `api` with one environment entry, one port and one volume. -/
def fullService : Service :=
  { id := js "api", name := js "api", image := js "nginx",
    containerConfig :=
      { environment := some [(js "FOO", js "bar")],
        ports := some [{ containerPort := 80, hostPort := some 8080 }],
        volumes := some [{ hostPath := js "/data", containerPath := js "/app/data" }] } }

/-! ## Single-service routes (`api/services.js`) -/

/-- What a route does with the request: `res.status(status).json(body)` (`res.json(body)`
being status 200), the error body `res.status(status).json({ error: { code, message } })`,
or `next(error)`. -/
inductive Response (β : Type) where
  | json (status : Nat) (body : β)
  | error (status : Nat) (code : JsString) (message : JsString)
  | next (error : JsError)

/-- The success body of a single-service lifecycle route. -/
structure ServiceActionResult where
  stackId : JsString
  serviceId : JsString
  action : JsString
  success : Bool
  message : JsString
deriving DecidableEq

/-- The route `POST /:serviceId/start` (api/services.js, lines 114-165). `getStack` is the
answer of the definition store to `dbManager.getStack`. -/
def startServiceRoute {σ : Type} (rt : Runtime σ)
    (getStack : JsString → Except JsError (Option Stack)) (stackId serviceId : JsString) :
    World σ → Response ServiceActionResult × World σ :=
  fun w =>
    match getStack stackId with
    | Except.error error => (Response.next error, w)
    | Except.ok none =>
      (Response.error 404 (js "STACK_NOT_FOUND") (js "Stack '" ++ stackId ++ js "' not found"), w)
    | Except.ok (some stack) =>
      match stack.services.find? (fun s => decide (s.id = serviceId)) with
      | none =>
        (Response.error 404 (js "SERVICE_NOT_FOUND")
          (js "Service '" ++ serviceId ++ js "' not found in stack '" ++ stackId ++ js "'"), w)
      | some service =>
        match createContainer rt stackId service w with
        | (Except.error error, w1) =>
          (Response.error 500 (js "DOCKER_API_ERROR")
            (js "Failed to start service: " ++ error.message), w1)
        | (Except.ok _, w1) =>
          match startContainer rt stackId serviceId w1 with
          | (Except.error error, w2) =>
            (Response.error 500 (js "DOCKER_API_ERROR")
              (js "Failed to start service: " ++ error.message), w2)
          | (Except.ok _, w2) =>
            (Response.json 200
              { stackId := stackId, serviceId := serviceId, action := js "start",
                success := true, message := js "Service started successfully" }, w2)

/-- The route `POST /:serviceId/restart` (api/services.js, lines 218-267). -/
def restartServiceRoute {σ : Type} (rt : Runtime σ)
    (getStack : JsString → Except JsError (Option Stack)) (stackId serviceId : JsString) :
    World σ → Response ServiceActionResult × World σ :=
  fun w =>
    match getStack stackId with
    | Except.error error => (Response.next error, w)
    | Except.ok none =>
      (Response.error 404 (js "STACK_NOT_FOUND") (js "Stack '" ++ stackId ++ js "' not found"), w)
    | Except.ok (some stack) =>
      match stack.services.find? (fun s => decide (s.id = serviceId)) with
      | none =>
        (Response.error 404 (js "SERVICE_NOT_FOUND")
          (js "Service '" ++ serviceId ++ js "' not found in stack '" ++ stackId ++ js "'"), w)
      | some service =>
        match stopContainer rt stackId serviceId w with
        | (Except.error error, w1) =>
          (Response.error 500 (js "DOCKER_API_ERROR")
            (js "Failed to restart service: " ++ error.message), w1)
        | (Except.ok _, w1) =>
          match createContainer rt stackId service w1 with
          | (Except.error error, w2) =>
            (Response.error 500 (js "DOCKER_API_ERROR")
              (js "Failed to restart service: " ++ error.message), w2)
          | (Except.ok _, w2) =>
            match startContainer rt stackId serviceId w2 with
            | (Except.error error, w3) =>
              (Response.error 500 (js "DOCKER_API_ERROR")
                (js "Failed to restart service: " ++ error.message), w3)
            | (Except.ok _, w3) =>
              (Response.json 200
                { stackId := stackId, serviceId := serviceId, action := js "restart",
                  success := true, message := js "Service restarted successfully" }, w3)

/-- A request is a `start`. -/
def Call.isStart : Call → Bool
  | Call.start _ => true
  | _ => false

/-! ## Stack status (`getStackStatus`) -/

/-- One element of the array `getStackStatus` returns. A property the object does not have
is `none`; `startedAt`, `finishedAt`, `exitCode` hold `some none` when they are `null`. -/
structure StackStatusEntry where
  serviceId : JsString
  serviceName : JsString
  status : JsString
  running : Option Bool
  startedAt : Option (Option JsString)
  finishedAt : Option (Option JsString)
  exitCode : Option (Option Int)
  error : Option JsString
deriving DecidableEq

/-- The loop of `getStackStatus` (docker/index.js, lines 261-277). -/
def getStackStatusLoop {σ : Type} (rt : Runtime σ) (stackId : JsString) :
    List Service → List StackStatusEntry → World σ → List StackStatusEntry × World σ
  | [], results, w => (results, w)
  | service :: rest, results, w =>
    match getContainerStatus rt stackId service.id w with
    | (Except.ok status, w1) =>
      getStackStatusLoop rt stackId rest
        (results ++ [{ serviceId := service.id, serviceName := service.name,
                       status := status.status, running := some status.running,
                       startedAt := some status.startedAt,
                       finishedAt := some status.finishedAt,
                       exitCode := some status.exitCode, error := none }]) w1
    | (Except.error error, w1) =>
      getStackStatusLoop rt stackId rest
        (results ++ [{ serviceId := service.id, serviceName := service.name,
                       status := js "error", running := none, startedAt := none,
                       finishedAt := none, exitCode := none,
                       error := some error.message }]) w1

/-- The method `DockerManager.getStackStatus` (docker/index.js, lines 258-280). -/
def getStackStatus {σ : Type} (rt : Runtime σ) (stackId : JsString) (services : List Service) :
    Js σ (List StackStatusEntry) :=
  fun w =>
    (Except.ok (getStackStatusLoop rt stackId services [] w).1,
      (getStackStatusLoop rt stackId services [] w).2)

/-! ## Definition store (`DatabaseManager`, db/index.js)

The SQLite connection is a `Database`: the two tables of `createTables`, each as the list
of its rows in insertion order, the two connection flags the statements depend on, and
the errors that escaped from the callbacks and events of its statements.
What the store code relies on without containing it is the `Host`: `JSON.stringify` and
`JSON.parse` on container configurations, and the order in which SQLite returns the rows
of a `SELECT` that has no `ORDER BY`. -/

/-- A row of the table `stacks`. -/
structure StackRow where
  id : JsString
  name : JsString
  created_at : JsString
  updated_at : JsString
deriving DecidableEq

/-- A row of the table `services`; `container_config` is the stored JSON text. -/
structure ServiceRow where
  id : JsString
  stack_id : JsString
  name : JsString
  image : JsString
  container_config : JsString
  created_at : JsString
  updated_at : JsString
deriving DecidableEq

/-- The SQLite connection. `foreignKeys` is the connection setting `PRAGMA foreign_keys`,
without which SQLite does not act on `FOREIGN KEY ... ON DELETE CASCADE`;
`inTransaction` says whether a `BEGIN TRANSACTION` is open. `escaped` lists, oldest
first, the errors that left the connection without reaching the caller: the error of a
statement that fails and was run without a callback, which the `sqlite3` library emits
as an `error` event nobody listens to, and an exception thrown inside a callback. Node
hands each to the process as an uncaught exception; the handler of lib/index.js
(lines 127-130) logs it and starts the shutdown, and the statements already queued on
the connection run before the connection is closed. -/
structure Database where
  stackRows : List StackRow
  serviceRows : List ServiceRow
  foreignKeys : Bool
  inTransaction : Bool
  escaped : List JsError
deriving DecidableEq

/-- The connection after `initDatabase` and `createTables` (db/index.js, lines 12-56):
both tables empty, and `PRAGMA foreign_keys` at the default of SQLite, off, since the
source never issues the pragma. -/
def initDatabase : Database :=
  { stackRows := [], serviceRows := [], foreignKeys := false, inTransaction := false,
    escaped := [] }

/-- What the store code uses without containing it. -/
structure Host where
  stringify : ContainerConfig → JsString
  parse : JsString → ContainerConfig
  selectOrder : List ServiceRow → List ServiceRow

/-- An error of SQLite, as the `sqlite3` library reports it. -/
def sqliteError (message : String) : JsError :=
  { message := js message, statusCode := none }

/-- The statement `BEGIN TRANSACTION`. -/
def Database.beginTransaction (db : Database) : Except JsError Database :=
  if db.inTransaction then
    Except.error (sqliteError "SQLITE_ERROR: cannot start a transaction within a transaction")
  else Except.ok { db with inTransaction := true }

/-- The statement `COMMIT`. -/
def Database.commitTransaction (db : Database) : Except JsError Database :=
  if db.inTransaction then Except.ok { db with inTransaction := false }
  else Except.error (sqliteError "SQLITE_ERROR: cannot commit - no transaction is active")

/-- The table `stacks` has a row with that primary key. -/
def Database.hasStack (db : Database) (id : JsString) : Bool :=
  db.stackRows.any (fun row => decide (row.id = id))

/-- The table `services` has a row with that primary key `(stack_id, id)`. -/
def Database.hasService (db : Database) (stackId id : JsString) : Bool :=
  db.serviceRows.any (fun row => decide (row.stack_id = stackId) && decide (row.id = id))

/-- The statement `INSERT INTO stacks (id, name) VALUES (?, ?)`; `now` is
`CURRENT_TIMESTAMP`, the default of both timestamp columns. -/
def Database.insertStack (db : Database) (id name now : JsString) : Except JsError Database :=
  if db.hasStack id then
    Except.error (sqliteError "SQLITE_CONSTRAINT: UNIQUE constraint failed: stacks.id")
  else
    Except.ok { db with stackRows := db.stackRows ++
      [{ id := id, name := name, created_at := now, updated_at := now }] }

/-- The statement
`INSERT INTO services (id, stack_id, name, image, container_config) VALUES (?, ?, ?, ?, ?)`. -/
def Database.insertService (db : Database) (id stackId name image containerConfig now : JsString) :
    Except JsError Database :=
  if db.hasService stackId id then
    Except.error (sqliteError
      "SQLITE_CONSTRAINT: UNIQUE constraint failed: services.stack_id, services.id")
  else if db.foreignKeys && !db.hasStack stackId then
    Except.error (sqliteError "SQLITE_CONSTRAINT: FOREIGN KEY constraint failed")
  else
    Except.ok { db with serviceRows := db.serviceRows ++
      [{ id := id, stack_id := stackId, name := name, image := image,
         container_config := containerConfig, created_at := now, updated_at := now }] }

/-- The statement `UPDATE stacks SET name = ?, updated_at = CURRENT_TIMESTAMP WHERE id = ?`. -/
def Database.updateStackRow (db : Database) (name id now : JsString) : Database :=
  { db with stackRows := db.stackRows.map (fun row =>
      if row.id = id then { row with name := name, updated_at := now } else row) }

/-- The statement `DELETE FROM services WHERE stack_id = ?`. -/
def Database.deleteServices (db : Database) (stackId : JsString) : Database :=
  { db with serviceRows := db.serviceRows.filter (fun row => !decide (row.stack_id = stackId)) }

/-- The statement `DELETE FROM stacks WHERE id = ?`, with the number of rows it changed
(`this.changes`). The service rows of the stack are deleted with it only when the
connection has `PRAGMA foreign_keys` on (`ON DELETE CASCADE`). -/
def Database.deleteStackRow (db : Database) (id : JsString) : Database × Nat :=
  ({ db with
      stackRows := db.stackRows.filter (fun row => !decide (row.id = id)),
      serviceRows :=
        if db.foreignKeys && db.hasStack id then
          db.serviceRows.filter (fun row => !decide (row.stack_id = id))
        else db.serviceRows },
   (db.stackRows.filter (fun row => decide (row.id = id))).length)

/-- The query `SELECT * FROM stacks WHERE id = ?`, read with `db.get` (first row). -/
def Database.selectStack (db : Database) (id : JsString) : Option StackRow :=
  db.stackRows.find? (fun row => decide (row.id = id))

/-- The query `SELECT * FROM services WHERE stack_id = ?`, read with `db.all`: the
matching rows, in the order SQLite returns them. -/
def Database.selectServices (host : Host) (db : Database) (stackId : JsString) :
    List ServiceRow :=
  host.selectOrder (db.serviceRows.filter (fun row => decide (row.stack_id = stackId)))

/-- The query `SELECT * FROM services WHERE stack_id = ? AND id = ?`, read with `db.get`. -/
def Database.selectService (db : Database) (stackId id : JsString) : Option ServiceRow :=
  db.serviceRows.find? (fun row => decide (row.stack_id = stackId) && decide (row.id = id))

/-- A service of a stack definition (`stackData.services[i]`); `containerConfig` is
`none` when the definition has none. -/
structure ServiceDefinition where
  id : JsString
  name : JsString
  image : JsString
  containerConfig : Option ContainerConfig
deriving DecidableEq

/-- A stack definition (`stackData`). -/
structure StackDefinition where
  id : JsString
  name : JsString
  services : List ServiceDefinition
deriving DecidableEq

/-- The empty object `{}`, as a container configuration. -/
def emptyConfig : ContainerConfig :=
  { environment := none, ports := none, volumes := none }

/-- How the promise of a writing store method settles, once every statement the method
queued on the connection has run: it resolves or it rejects. -/
inductive Settled (α : Type) where
  | resolved (value : α)
  | rejected (error : JsError)
deriving DecidableEq

/-- An error leaves the connection without reaching the caller. -/
def Database.escape (db : Database) (error : JsError) : Database :=
  { db with escaped := db.escaped ++ [error] }

/-- The `TypeError` of evaluating `this.db.run('ROLLBACK')` inside a `function (err)`
callback of `db.run`. The library calls such a callback with `this` bound to the statement
object (that is how `deleteStack` reads `this.changes`), which has no property `db`. -/
def thisDbTypeError : JsError :=
  { message := js "Cannot read properties of undefined (reading 'run')", statusCode := none }

/-- The loop `for (const service of services) serviceStmt.run([...])` of `createStack` and
`updateStack`: the inserts were all queued and run in order. A failing insert has no
callback, so its error escapes; the insert changes nothing (SQLite backs out the failing
statement and keeps the transaction), and the following inserts run all the same. -/
def Database.insertServices (host : Host) (now stackId : JsString) :
    List ServiceDefinition → Database → Database
  | [], db => db
  | service :: rest, db =>
    match db.insertService service.id stackId service.name service.image
        (host.stringify (service.containerConfig.getD emptyConfig)) now with
    | Except.error e => Database.insertServices host now stackId rest (db.escape e)
    | Except.ok db1 => Database.insertServices host now stackId rest db1

/-- The `BEGIN TRANSACTION` of `createStack` and `updateStack`, run without a callback:
when it fails (a transaction is already open) its error escapes. -/
def Database.begin (db : Database) : Database :=
  match db.beginTransaction with
  | Except.error e => db.escape e
  | Except.ok db1 => db1

/-- The `INSERT` into `stacks` of `createStack` with its callback (db/index.js,
lines 67-76): on success the callback does nothing; on failure it evaluates
`this.db.run('ROLLBACK')`, which throws `thisDbTypeError`, so that `reject(err)` is not
reached and the exception escapes. -/
def Database.insertStackWithCallback (db : Database) (id name now : JsString) : Database :=
  match db.insertStack id name now with
  | Except.error _ => db.escape thisDbTypeError
  | Except.ok db2 => db2

/-- The method `DatabaseManager.createStack` (db/index.js, lines 59-103). Inside
`db.serialize` the method queues all its statements at once, and they run one after the
other whatever the earlier ones did. When the `INSERT` into `stacks` fails, nothing is
rolled back and the promise is not rejected: the promise is settled by the callback of
`COMMIT` alone. -/
def Database.createStack (host : Host) (now : JsString) (stackData : StackDefinition)
    (db : Database) : Settled StackDefinition × Database :=
  match (Database.insertServices host now stackData.id stackData.services
      (db.begin.insertStackWithCallback stackData.id stackData.name now)).commitTransaction with
  | Except.error err =>
    (Settled.rejected err,
      Database.insertServices host now stackData.id stackData.services
        (db.begin.insertStackWithCallback stackData.id stackData.name now))
  | Except.ok db4 => (Settled.resolved stackData, db4)

/-- A service as `getStack` and `getService` build it from a row. `details` is `none` for
`getService`, which does not set it. -/
structure StoredService where
  id : JsString
  name : JsString
  image : JsString
  containerConfig : ContainerConfig
  status : JsString
  details : Option JsString
  logs : JsString
deriving DecidableEq

/-- A stack as `getStack` resolves it. -/
structure StoredStack where
  id : JsString
  name : JsString
  services : List StoredService
  createdAt : JsString
  updatedAt : JsString
deriving DecidableEq

/-- The method `DatabaseManager.getStack` (db/index.js, lines 105-143); `none` is the
`null` resolved when there is no such stack row. -/
def Database.getStack (host : Host) (db : Database) (stackId : JsString) :
    Except JsError (Option StoredStack) :=
  match db.selectStack stackId with
  | none => Except.ok none
  | some stackRow =>
    Except.ok (some
      { id := stackRow.id,
        name := stackRow.name,
        services := (Database.selectServices host db stackId).map (fun service =>
          { id := service.id,
            name := service.name,
            image := service.image,
            containerConfig := host.parse service.container_config,
            status := js "stopped",
            details := some (js "/api/v1/stacks/" ++ stackId ++ js "/services/" ++ service.id),
            logs := js "/api/v1/stacks/" ++ stackId ++ js "/services/" ++ service.id ++
              js "/logs" }),
        createdAt := stackRow.created_at,
        updatedAt := stackRow.updated_at })

/-- The method `DatabaseManager.getService` (db/index.js, lines 221-241). -/
def Database.getService (host : Host) (db : Database) (stackId serviceId : JsString) :
    Except JsError (Option StoredService) :=
  match db.selectService stackId serviceId with
  | none => Except.ok none
  | some row =>
    Except.ok (some
      { id := row.id,
        name := row.name,
        image := row.image,
        containerConfig := host.parse row.container_config,
        status := js "stopped",
        details := none,
        logs := js "/api/v1/stacks/" ++ stackId ++ js "/services/" ++ serviceId ++
          js "/logs" })

/-- The method `DatabaseManager.updateStack` (db/index.js, lines 163-210). The `UPDATE`
cannot fail for a string name, so its error callback is never called with an error. As in
`createStack`, all statements are queued at once and the promise is settled by the
callback of `COMMIT` alone. -/
def Database.updateStack (host : Host) (now stackId : JsString) (stackData : StackDefinition)
    (db : Database) : Settled Bool × Database :=
  match (Database.insertServices host now stackId stackData.services
      ((db.begin.updateStackRow stackData.name stackId now).deleteServices
        stackId)).commitTransaction with
  | Except.error err =>
    (Settled.rejected err,
      Database.insertServices host now stackId stackData.services
        ((db.begin.updateStackRow stackData.name stackId now).deleteServices stackId))
  | Except.ok db4 => (Settled.resolved true, db4)

/-- The method `DatabaseManager.deleteStack` (db/index.js, lines 212-219):
resolves `this.changes > 0`. -/
def Database.deleteStack (stackId : JsString) (db : Database) : Settled Bool × Database :=
  (Settled.resolved (decide ((db.deleteStackRow stackId).2 > 0)), (db.deleteStackRow stackId).1)

/-! ## A reference host

`JSON.stringify` and `JSON.parse` restricted to container configurations (keys written in
the order `environment`, `ports`, `volumes`), and the row order of SQLite for the query of
`getStack`, which it answers through the index of the primary key `(stack_id, id)`: by
ascending `id`. It is one instance of `Host`, used to run the store on concrete inputs. -/

/-- The four lower-case hexadecimal digits of a code unit. -/
def hex4 (u : Nat) : JsString :=
  [u / 4096 % 16, u / 256 % 16, u / 16 % 16, u % 16].map
    (fun d => if d < 10 then 48 + d else 87 + d)

/-- The escape `\uXXXX` of a code unit. -/
def unicodeEscape (u : Nat) : JsString := js "\\u" ++ hex4 u

/-- The text `JSON.stringify` writes for one code unit that is not a surrogate. -/
def escapeUnit (u : Nat) : JsString :=
  if u = 34 then js "\\\""
  else if u = 92 then js "\\\\"
  else if u = 8 then js "\\b"
  else if u = 12 then js "\\f"
  else if u = 10 then js "\\n"
  else if u = 13 then js "\\r"
  else if u = 9 then js "\\t"
  else if u < 32 then unicodeEscape u
  else [u]

/-- The text `JSON.stringify` writes between the quotes of a string: a surrogate pair is
kept, a lone surrogate is escaped. -/
def escapeUnits : JsString → JsString
  | [] => []
  | [u] => if 0xD800 ≤ u ∧ u ≤ 0xDFFF then unicodeEscape u else escapeUnit u
  | u :: v :: rest =>
    if 0xD800 ≤ u ∧ u ≤ 0xDBFF then
      if 0xDC00 ≤ v ∧ v ≤ 0xDFFF then u :: v :: escapeUnits rest
      else unicodeEscape u ++ escapeUnits (v :: rest)
    else if 0xDC00 ≤ u ∧ u ≤ 0xDFFF then unicodeEscape u ++ escapeUnits (v :: rest)
    else escapeUnit u ++ escapeUnits (v :: rest)

/-- The text of `JSON.stringify(s)` for a string `s`. -/
def stringifyString (s : JsString) : JsString := js "\"" ++ escapeUnits s ++ js "\""

/-- Joins texts with commas. -/
def commaJoin : List JsString → JsString
  | [] => []
  | [x] => x
  | x :: y :: rest => x ++ js "," ++ commaJoin (y :: rest)

/-- The text of `JSON.stringify` for a number: that of `Number::toString`, and `null` for
`Infinity`. -/
def stringifyNumber (n : Nat) : JsString :=
  if (nearestNumber n).isNone then js "null" else numberToString n

/-- The text of `JSON.stringify(port)`. -/
def stringifyPort (port : Port) : JsString :=
  js "\x7b" ++ commaJoin
    ([js "\"containerPort\":" ++ stringifyNumber port.containerPort] ++
      (match port.hostPort with
       | some hostPort => [js "\"hostPort\":" ++ stringifyNumber hostPort]
       | none => [])) ++ js "\x7d"

/-- The text of `JSON.stringify(volume)`. -/
def stringifyVolume (volume : Volume) : JsString :=
  js "\x7b\"hostPath\":" ++ stringifyString volume.hostPath ++
    js ",\"containerPath\":" ++ stringifyString volume.containerPath ++ js "\x7d"

/-- The text of `JSON.stringify(containerConfig)`. -/
def stringifyConfig (config : ContainerConfig) : JsString :=
  js "\x7b" ++ commaJoin
    ((match config.environment with
      | some entries =>
        [js "\"environment\":\x7b" ++
          commaJoin (entries.map (fun kv => stringifyString kv.1 ++ js ":" ++
            stringifyString kv.2)) ++ js "\x7d"]
      | none => []) ++
     (match config.ports with
      | some ports => [js "\"ports\":[" ++ commaJoin (ports.map stringifyPort) ++ js "]"]
      | none => []) ++
     (match config.volumes with
      | some volumes =>
        [js "\"volumes\":[" ++ commaJoin (volumes.map stringifyVolume) ++ js "]"]
      | none => [])) ++ js "\x7d"

/-- The value of a hexadecimal digit. -/
def hexValue (d : Nat) : Option Nat :=
  if 48 ≤ d ∧ d ≤ 57 then some (d - 48)
  else if 97 ≤ d ∧ d ≤ 102 then some (d - 87)
  else if 65 ≤ d ∧ d ≤ 70 then some (d - 55)
  else none

/-- Reads the rest of a JSON string, the opening quote being consumed: the string and
the text after the closing quote. -/
def readString : JsString → Option (JsString × JsString)
  | [] => none
  | 34 :: rest => some ([], rest)
  | 92 :: 117 :: a :: b :: c :: d :: rest =>
    match hexValue a, hexValue b, hexValue c, hexValue d, readString rest with
    | some a, some b, some c, some d, some (s, after) =>
      some ((a * 4096 + b * 256 + c * 16 + d) :: s, after)
    | _, _, _, _, _ => none
  | 92 :: e :: rest =>
    match readString rest with
    | some (s, after) =>
      if e = 34 then some (34 :: s, after)
      else if e = 92 then some (92 :: s, after)
      else if e = 47 then some (47 :: s, after)
      else if e = 98 then some (8 :: s, after)
      else if e = 102 then some (12 :: s, after)
      else if e = 110 then some (10 :: s, after)
      else if e = 114 then some (13 :: s, after)
      else if e = 116 then some (9 :: s, after)
      else none
    | none => none
  | u :: rest =>
    match readString rest with
    | some (s, after) => some (u :: s, after)
    | none => none

/-- Reads a JSON string with its opening quote. -/
def readQuoted : JsString → Option (JsString × JsString)
  | 34 :: rest => readString rest
  | _ => none

/-- Reads the digits of a non-negative integer, `acc` being the value read so far. -/
def readDigits : JsString → Nat → Nat × JsString
  | [], acc => (acc, [])
  | u :: rest, acc =>
    if 48 ≤ u ∧ u ≤ 57 then readDigits rest (acc * 10 + (u - 48)) else (acc, u :: rest)

/-- Reads an exponent `e+` and its digits behind a mantissa whose last `fraction` digits
stood behind the decimal point, and gives the number value of the whole; without an
exponent the number is read only when it has no fraction. A number that is not an integer
or is beyond the number values is not read. -/
def readExponent (mantissa fraction : Nat) : JsString → Option (Nat × JsString)
  | 101 :: 43 :: u :: rest =>
    if 48 ≤ u ∧ u ≤ 57 ∧ fraction ≤ (readDigits (u :: rest) 0).1 then
      (nearestNumber (mantissa * 10 ^ ((readDigits (u :: rest) 0).1 - fraction))).map
        (fun value => (value, (readDigits (u :: rest) 0).2))
    else none
  | input =>
    if fraction = 0 then (nearestNumber mantissa).map (fun value => (value, input)) else none

/-- Reads a non-negative integer number as `stringifyNumber` writes it: digits, then
possibly a decimal point with further digits and the exponent `e+` with its digits. The
value is the number value nearest to the decimal read, as `JSON.parse` gives it. -/
def readNumber : JsString → Option (Nat × JsString)
  | [] => none
  | u :: rest =>
    if 48 ≤ u ∧ u ≤ 57 then
      match (readDigits (u :: rest) 0).2 with
      | 46 :: f :: more =>
        if 48 ≤ f ∧ f ≤ 57 then
          readExponent (readDigits (f :: more) (readDigits (u :: rest) 0).1).1
            ((f :: more).length - (readDigits (f :: more) (readDigits (u :: rest) 0).1).2.length)
            (readDigits (f :: more) (readDigits (u :: rest) 0).1).2
        else none
      | after => readExponent (readDigits (u :: rest) 0).1 0 after
    else none

/-- Drops the given literal text from the front of the input. -/
def readLiteral (literal : JsString) (input : JsString) : Option JsString :=
  if literal.isPrefixOf input then some (input.drop literal.length) else none

/-- Reads the members of the `environment` object after its opening brace. -/
def readEntries : Nat → JsString → Option (List (JsString × JsString) × JsString)
  | 0, _ => none
  | _ + 1, 125 :: rest => some ([], rest)
  | fuel + 1, input =>
    match readQuoted (match input with | 44 :: rest => rest | other => other) with
    | some (key, 58 :: afterColon) =>
      match readQuoted afterColon with
      | some (value, afterValue) =>
        match readEntries fuel afterValue with
        | some (entries, after) => some ((key, value) :: entries, after)
        | none => none
      | none => none
    | _ => none

/-- Reads one port object. -/
def readPort (input : JsString) : Option (Port × JsString) :=
  match readLiteral (js "\x7b\"containerPort\":") input with
  | none => none
  | some afterKey =>
    match readNumber afterKey with
    | none => none
    | some (containerPort, 125 :: after) =>
      some ({ containerPort := containerPort, hostPort := none }, after)
    | some (containerPort, afterNumber) =>
      match readLiteral (js ",\"hostPort\":") afterNumber with
      | none => none
      | some afterHostKey =>
        match readNumber afterHostKey with
        | some (hostPort, 125 :: after) =>
          some ({ containerPort := containerPort, hostPort := some hostPort }, after)
        | _ => none

/-- Reads the elements of the `ports` array after its opening bracket. -/
def readPorts : Nat → JsString → Option (List Port × JsString)
  | 0, _ => none
  | _ + 1, 93 :: rest => some ([], rest)
  | fuel + 1, input =>
    match readPort (match input with | 44 :: rest => rest | other => other) with
    | some (port, afterPort) =>
      match readPorts fuel afterPort with
      | some (ports, after) => some (port :: ports, after)
      | none => none
    | none => none

/-- Reads one volume object. -/
def readVolume (input : JsString) : Option (Volume × JsString) :=
  match readLiteral (js "\x7b\"hostPath\":") input with
  | none => none
  | some afterKey =>
    match readQuoted afterKey with
    | none => none
    | some (hostPath, afterHost) =>
      match readLiteral (js ",\"containerPath\":") afterHost with
      | none => none
      | some afterContainerKey =>
        match readQuoted afterContainerKey with
        | some (containerPath, 125 :: after) =>
          some ({ hostPath := hostPath, containerPath := containerPath }, after)
        | _ => none

/-- Reads the elements of the `volumes` array after its opening bracket. -/
def readVolumes : Nat → JsString → Option (List Volume × JsString)
  | 0, _ => none
  | _ + 1, 93 :: rest => some ([], rest)
  | fuel + 1, input =>
    match readVolume (match input with | 44 :: rest => rest | other => other) with
    | some (volume, afterVolume) =>
      match readVolumes fuel afterVolume with
      | some (volumes, after) => some (volume :: volumes, after)
      | none => none
    | none => none

/-- Reads the members of a container configuration after its opening brace, `config`
holding the members read so far. -/
def readConfigMembers : Nat → JsString → ContainerConfig → Option ContainerConfig
  | 0, _, _ => none
  | _ + 1, [125], config => some config
  | fuel + 1, input, config =>
    match readQuoted (match input with | 44 :: rest => rest | other => other) with
    | some (key, 58 :: 123 :: afterOpen) =>
      if key = js "environment" then
        match readEntries (afterOpen.length + 1) afterOpen with
        | some (entries, after) =>
          readConfigMembers fuel after { config with environment := some entries }
        | none => none
      else none
    | some (key, 58 :: 91 :: afterOpen) =>
      if key = js "ports" then
        match readPorts (afterOpen.length + 1) afterOpen with
        | some (ports, after) => readConfigMembers fuel after { config with ports := some ports }
        | none => none
      else if key = js "volumes" then
        match readVolumes (afterOpen.length + 1) afterOpen with
        | some (volumes, after) =>
          readConfigMembers fuel after { config with volumes := some volumes }
        | none => none
      else none
    | _ => none

/-- The value of `JSON.parse(text)` for the text of a container configuration. A text that
`stringifyConfig` does not write is read as the empty configuration. -/
def parseConfig (text : JsString) : ContainerConfig :=
  match text with
  | 123 :: members => (readConfigMembers (members.length + 1) members emptyConfig).getD emptyConfig
  | _ => emptyConfig

/-- The order of two strings as the bytes of an index compare them (for the ASCII
identifiers the validator admits): `a ≤ b`. -/
def JsString.le : JsString → JsString → Bool
  | [], _ => true
  | _ :: _, [] => false
  | a :: as, b :: bs => decide (a < b) || (decide (a = b) && JsString.le as bs)

/-- The rows in the order of the primary-key index of `services`, for rows of one
stack: ascending `id`. -/
def indexOrder (rows : List ServiceRow) : List ServiceRow :=
  rows.insertionSort (fun a b => JsString.le a.id b.id = true)

/-- The reference host. -/
def refHost : Host :=
  { stringify := stringifyConfig, parse := parseConfig, selectOrder := indexOrder }

/-! ## Routes that read or write the definition store -/

/-- The row an `INSERT` of `insertServices` writes for a service of a definition. -/
def serviceRowOf (host : Host) (now stackId : JsString) (service : ServiceDefinition) :
    ServiceRow :=
  { id := service.id, stack_id := stackId, name := service.name, image := service.image,
    container_config := host.stringify (service.containerConfig.getD emptyConfig),
    created_at := now, updated_at := now }

/-- The body of `GET /:serviceId`: the service of `getService` with the properties the
route sets on it; `containerDetails` and `error` are `none` when not set. -/
structure ServiceView where
  id : JsString
  name : JsString
  image : JsString
  containerConfig : ContainerConfig
  status : JsString
  logs : JsString
  containerDetails : Option ContainerStatus
  error : Option JsString
deriving DecidableEq

/-- The route `GET /:serviceId` (api/services.js, lines 7-47). -/
def getServiceRoute {σ : Type} (rt : Runtime σ) (host : Host) (db : Database)
    (stackId serviceId : JsString) : World σ → Response ServiceView × World σ :=
  fun w =>
    match Database.getStack host db stackId with
    | Except.error error => (Response.next error, w)
    | Except.ok none =>
      (Response.error 404 (js "STACK_NOT_FOUND") (js "Stack '" ++ stackId ++ js "' not found"), w)
    | Except.ok (some _) =>
      match Database.getService host db stackId serviceId with
      | Except.error error => (Response.next error, w)
      | Except.ok none =>
        (Response.error 404 (js "SERVICE_NOT_FOUND")
          (js "Service '" ++ serviceId ++ js "' not found in stack '" ++ stackId ++ js "'"), w)
      | Except.ok (some service) =>
        match getContainerStatus rt stackId serviceId w with
        | (Except.ok status, w1) =>
          (Response.json 200
            { id := service.id, name := service.name, image := service.image,
              containerConfig := service.containerConfig,
              status := if status.running then js "running" else status.status,
              logs := service.logs,
              containerDetails := some status,
              error := none }, w1)
        | (Except.error error, w1) =>
          (Response.json 200
            { id := service.id, name := service.name, image := service.image,
              containerConfig := service.containerConfig,
              status := js "error",
              logs := service.logs,
              containerDetails := none,
              error := some error.message }, w1)

/-- The loop of `GET /:stackId` over `stack.services` (api/stacks.js, lines 33-40), which
sets the `status` of each service in place. -/
def annotateServices {σ : Type} (rt : Runtime σ) (stackId : JsString) :
    List StoredService → World σ → List StoredService × World σ
  | [], w => ([], w)
  | service :: rest, w =>
    match getContainerStatus rt stackId service.id w with
    | (Except.ok status, w1) =>
      ({ service with status := if status.running then js "running" else status.status } ::
          (annotateServices rt stackId rest w1).1,
        (annotateServices rt stackId rest w1).2)
    | (Except.error _, w1) =>
      ({ service with status := js "error" } :: (annotateServices rt stackId rest w1).1,
        (annotateServices rt stackId rest w1).2)

/-- The route `GET /:stackId` (api/stacks.js, lines 18-46). -/
def getStackRoute {σ : Type} (rt : Runtime σ) (host : Host) (db : Database)
    (stackId : JsString) : World σ → Response StoredStack × World σ :=
  fun w =>
    match Database.getStack host db stackId with
    | Except.error error => (Response.next error, w)
    | Except.ok none =>
      (Response.error 404 (js "STACK_NOT_FOUND") (js "Stack '" ++ stackId ++ js "' not found"), w)
    | Except.ok (some stack) =>
      (Response.json 200
        { stack with services := (annotateServices rt stackId stack.services w).1 },
        (annotateServices rt stackId stack.services w).2)

/-- The route `POST /` (api/stacks.js, lines 49-74). `validate` is
`validators.validateStackData`, which raises on an invalid definition. -/
def createStackRoute (validate : StackDefinition → Except JsError Unit) (host : Host)
    (now : JsString) (stackData : StackDefinition) (db : Database) :
    Response StackDefinition × Database :=
  match validate stackData with
  | Except.error error => (Response.next error, db)
  | Except.ok _ =>
    match Database.getStack host db stackData.id with
    | Except.error error => (Response.next error, db)
    | Except.ok (some _) =>
      (Response.error 409 (js "STACK_ALREADY_EXISTS")
        (js "Stack '" ++ stackData.id ++ js "' already exists"), db)
    | Except.ok none =>
      match Database.createStack host now stackData db with
      | (Settled.resolved createdStack, db1) => (Response.json 201 createdStack, db1)
      | (Settled.rejected error, db1) => (Response.next error, db1)

/-- The route `PUT /:stackId` (api/stacks.js, lines 77-106). -/
def updateStackRoute (validate : StackDefinition → Except JsError Unit) (host : Host)
    (now stackId : JsString) (stackData : StackDefinition) (db : Database) :
    Response (Option StoredStack) × Database :=
  match Database.getStack host db stackId with
  | Except.error error => (Response.next error, db)
  | Except.ok none =>
    (Response.error 404 (js "STACK_NOT_FOUND") (js "Stack '" ++ stackId ++ js "' not found"), db)
  | Except.ok (some _) =>
    match validate { stackData with id := stackId } with
    | Except.error error => (Response.next error, db)
    | Except.ok _ =>
      match Database.updateStack host now stackId stackData db with
      | (Settled.resolved _, db1) =>
        match Database.getStack host db1 stackId with
        | Except.error error => (Response.next error, db1)
        | Except.ok updatedStack => (Response.json 200 updatedStack, db1)
      | (Settled.rejected error, db1) => (Response.next error, db1)

/-- A stack definition with two services, given in the order `worker`, `api`; the first
has no container configuration. -/
def demoDefinition : StackDefinition :=
  { id := js "web", name := js "web-app",
    services :=
      [{ id := js "worker", name := js "worker", image := js "redis", containerConfig := none },
       { id := js "api", name := js "api", image := js "nginx",
         containerConfig := some fullService.containerConfig }] }

/-- A validator that accepts every definition. -/
def acceptAll (_ : StackDefinition) : Except JsError Unit := Except.ok ()

/-- A runtime that cannot be reached: every request fails with the same connection error,
which has no status code. -/
def downRuntime (message : String) : Runtime Unit where
  createContainer := fun _ s => (Except.error { message := js message, statusCode := none }, s)
  start := fun _ s => (Except.error { message := js message, statusCode := none }, s)
  stop := fun _ s => (Except.error { message := js message, statusCode := none }, s)
  remove := fun _ _ s => (Except.error { message := js message, statusCode := none }, s)
  inspect := fun _ s => (Except.error { message := js message, statusCode := none }, s)
  logs := fun _ _ s => (Except.error { message := js message, statusCode := none }, s)

/-- A world of the unreachable runtime in which nothing has been requested yet. -/
def downWorld : World Unit :=
  { state := (), trace := [] }

/-- The store after `createStack` of `demoDefinition` on a fresh database. -/
def demoDatabase : Database :=
  (Database.createStack refHost (js "t0") demoDefinition initDatabase).2

/-! ## Request validation (`api/validators.js`)

The validators receive the request body as `JSON.parse` built it, so their argument is
an arbitrary JavaScript value of the kinds a JSON text can give. A thrown
`ValidationError` is `Except.error`; no validator raises anything else. -/

/-- A JavaScript value of a request body. `undefined` is what the read of an absent
property gives; `object` lists the own properties of a plain object. -/
inductive JsValue where
  | undefined
  | null
  | boolean (b : Bool)
  | number (n : JsNumber)
  | string (s : JsString)
  | array (items : List JsValue)
  | object (members : List (JsString × JsValue))

/-- The results of the operator `typeof` on such values. -/
inductive JsType where
  | undefined
  | object
  | boolean
  | number
  | string
deriving DecidableEq

/-- The operator `typeof value`; `typeof null` and `typeof []` are `"object"`. -/
def JsValue.typeof : JsValue → JsType
  | JsValue.undefined => JsType.undefined
  | JsValue.null => JsType.object
  | JsValue.boolean _ => JsType.boolean
  | JsValue.number _ => JsType.number
  | JsValue.string _ => JsType.string
  | JsValue.array _ => JsType.object
  | JsValue.object _ => JsType.object

/-- JavaScript truthiness: `!value` is its negation. -/
def JsValue.truthy : JsValue → Bool
  | JsValue.undefined => false
  | JsValue.null => false
  | JsValue.boolean b => b
  | JsValue.number n => n.truthy
  | JsValue.string s => !s.isEmpty
  | JsValue.array _ => true
  | JsValue.object _ => true

/-- The function `Array.isArray`. -/
def JsValue.isArray : JsValue → Bool
  | JsValue.array _ => true
  | _ => false

/-- The property read `value[key]` for the property names of a stack definition, none of
which is an array index, `length` or a name inherited from a prototype: the own property
of a plain object, and `undefined` for anything else. The validators read properties only
of values that passed their object test. -/
def JsValue.get : JsValue → JsString → JsValue
  | JsValue.object members, key => (JsObject.get? members key).getD JsValue.undefined
  | _, _ => JsValue.undefined

/-- The comparison of `Set.prototype.has` (SameValueZero): primitives are compared by
value, `NaN` being equal to itself; two objects or arrays of a parsed body are never the
same object. -/
def JsValue.sameValueZero : JsValue → JsValue → Bool
  | JsValue.undefined, JsValue.undefined => true
  | JsValue.null, JsValue.null => true
  | JsValue.boolean a, JsValue.boolean b => a == b
  | JsValue.number a, JsValue.number b => a == b
  | JsValue.string a, JsValue.string b => a == b
  | _, _ => false

/-- The text of a number in a template literal: `Number::toString`, with the sign in
front of the text of the magnitude. -/
def JsNumber.toText : JsNumber → JsString
  | JsNumber.int i => if i < 0 then js "-" ++ numberToString i.natAbs else numberToString i.toNat
  | JsNumber.nan => js "NaN"

mutual
/-- The text `String(value)` that a template literal inserts for a value. -/
def JsValue.toText : JsValue → JsString
  | JsValue.undefined => js "undefined"
  | JsValue.null => js "null"
  | JsValue.boolean b => if b then js "true" else js "false"
  | JsValue.number n => n.toText
  | JsValue.string s => s
  | JsValue.array items => JsValue.joinText items
  | JsValue.object _ => js "[object Object]"
/-- The text `items.join(",")` of an array: `undefined` and `null` give the empty text. -/
def JsValue.joinText : List JsValue → JsString
  | [] => []
  | JsValue.undefined :: rest => if rest.isEmpty then [] else js "," ++ JsValue.joinText rest
  | JsValue.null :: rest => if rest.isEmpty then [] else js "," ++ JsValue.joinText rest
  | item :: rest =>
    if rest.isEmpty then item.toText else item.toText ++ js "," ++ JsValue.joinText rest
end

/-- The comparison `number < bound`, false for `NaN`. -/
def JsNumber.lessThan : JsNumber → Int → Bool
  | JsNumber.int i, bound => decide (i < bound)
  | JsNumber.nan, _ => false

/-- The comparison `number > bound`, false for `NaN`. -/
def JsNumber.greaterThan : JsNumber → Int → Bool
  | JsNumber.int i, bound => decide (i > bound)
  | JsNumber.nan, _ => false

/-- A thrown `ValidationError` (api/validators.js, lines 3-9). -/
structure ValidationError where
  message : JsString
  code : JsString
deriving DecidableEq

/-- A regular expression over UTF-16 code units: the patterns of the validators, which
use classes, sequence, repetition and option only. -/
abbrev Pattern := RegularExpression Nat

/-- The code units from `lo` to `hi`, as a class `[lo-hi]` lists them. -/
def codeUnits (lo hi : Nat) : List Nat :=
  (List.range (hi + 1 - lo)).map (fun i => lo + i)

/-- A character class: one of the listed code units. -/
def Pattern.oneOf (units : List Nat) : Pattern :=
  units.foldr (fun c rest => RegularExpression.char c + rest) 0

/-- The repetition `r+`. -/
def Pattern.oneOrMore (r : Pattern) : Pattern :=
  r * RegularExpression.star r

/-- The option `r?`. -/
def Pattern.optional (r : Pattern) : Pattern :=
  1 + r

/-- The bounded repetition `r{0,n}`. -/
def Pattern.upTo : Nat → Pattern → Pattern
  | 0, _ => 1
  | n + 1, r => 1 + r * Pattern.upTo n r

/-- The method `pattern.test(text)` for a pattern written between `^` and `$` without
the flag `m`: the whole text matches. -/
def Pattern.test (pattern : Pattern) (text : JsString) : Bool :=
  RegularExpression.rmatch pattern text

/-- The class `[a-z0-9]`. -/
def lowerAlnum : List Nat :=
  codeUnits 97 122 ++ codeUnits 48 57

/-- The pattern `/^[a-z0-9]+(?:-[a-z0-9]+)*$/` of `validateStackName` and
`validateServiceName`; 45 is the hyphen. -/
def identifierPattern : Pattern :=
  Pattern.oneOrMore (Pattern.oneOf lowerAlnum) *
    RegularExpression.star
      (RegularExpression.char 45 * Pattern.oneOrMore (Pattern.oneOf lowerAlnum))

/-- The class `[a-z0-9]` under the flag `i`: it also matches `A` to `Z`. -/
def alnum : List Nat :=
  codeUnits 97 122 ++ codeUnits 65 90 ++ codeUnits 48 57

/-- The class `\w`: letters, digits and the underscore (95). -/
def wordUnits : List Nat :=
  codeUnits 97 122 ++ codeUnits 65 90 ++ codeUnits 48 57 ++ [95]

/-- The part `[a-z0-9]+([\.\-_][a-z0-9]+)*` of the image pattern. -/
def imageComponent : Pattern :=
  Pattern.oneOrMore (Pattern.oneOf alnum) *
    RegularExpression.star
      (Pattern.oneOf [46, 45, 95] * Pattern.oneOrMore (Pattern.oneOf alnum))

/-- The pattern of `validateDockerImage`,
`/^[a-z0-9]+([\.\-_][a-z0-9]+)*([\/][a-z0-9]+([\.\-_][a-z0-9]+)*)*(:[\w][\w\.\-]{0,127})?$/i`;
47 is the slash and 58 the colon. -/
def imagePattern : Pattern :=
  imageComponent * RegularExpression.star (RegularExpression.char 47 * imageComponent) *
    Pattern.optional
      (RegularExpression.char 58 *
        (Pattern.oneOf wordUnits * Pattern.upTo 127 (Pattern.oneOf (wordUnits ++ [46, 45]))))

/-- The method `validators.validateStackName` (api/validators.js, lines 13-29). The first
test, `!name || typeof name !== 'string'`, holds for every value that is not a string and
for the empty string. -/
def validateStackName (name : JsValue) : Except ValidationError Unit :=
  match name with
  | JsValue.string s =>
    if s.isEmpty then
      Except.error
        { message := js "Stack name is required and must be a string",
          code := js "INVALID_STACK_NAME" }
    else if s.length < 1 ∨ s.length > 31 then
      Except.error
        { message := js "Stack name must be between 1 and 31 characters",
          code := js "INVALID_STACK_NAME" }
    else if ¬ identifierPattern.test s = true then
      Except.error
        { message := js "Stack name '" ++ s ++
            js "' contains invalid characters. Use only lowercase letters, numbers, and hyphens.",
          code := js "INVALID_STACK_NAME" }
    else Except.ok ()
  | _ =>
    Except.error
      { message := js "Stack name is required and must be a string",
        code := js "INVALID_STACK_NAME" }

/-- The method `validators.validateServiceName` (api/validators.js, lines 32-57). -/
def validateServiceName (name stackId : JsValue) : Except ValidationError Unit :=
  match name with
  | JsValue.string s =>
    if s.isEmpty then
      Except.error
        { message := js "Service name is required and must be a string",
          code := js "INVALID_SERVICE_NAME" }
    else if s.length < 1 ∨ s.length > 31 then
      Except.error
        { message := js "Service name must be between 1 and 31 characters",
          code := js "INVALID_SERVICE_NAME" }
    else if ¬ identifierPattern.test s = true then
      Except.error
        { message := js "Service name '" ++ s ++
            js "' contains invalid characters. Use only lowercase letters, numbers, and hyphens.",
          code := js "INVALID_SERVICE_NAME" }
    else if (stackId.toText ++ js "-" ++ s).length > 63 then
      Except.error
        { message := js "Combined container name '" ++ (stackId.toText ++ js "-" ++ s) ++
            js "' exceeds 63 characters",
          code := js "CONTAINER_NAME_TOO_LONG" }
    else Except.ok ()
  | _ =>
    Except.error
      { message := js "Service name is required and must be a string",
        code := js "INVALID_SERVICE_NAME" }

/-- The method `validators.validateDockerImage` (api/validators.js, lines 60-73). -/
def validateDockerImage (image : JsValue) : Except ValidationError Unit :=
  match image with
  | JsValue.string s =>
    if s.isEmpty then
      Except.error
        { message := js "Docker image is required and must be a string",
          code := js "INVALID_DOCKER_IMAGE" }
    else if ¬ imagePattern.test s = true then
      Except.error
        { message := js "Invalid Docker image format: '" ++ s ++ js "'",
          code := js "INVALID_DOCKER_IMAGE" }
    else Except.ok ()
  | _ =>
    Except.error
      { message := js "Docker image is required and must be a string",
        code := js "INVALID_DOCKER_IMAGE" }

/-- The error `new ValidationError(message, 'INVALID_CONTAINER_CONFIG')`. -/
def invalidContainerConfig (message : String) : ValidationError :=
  { message := js message, code := js "INVALID_CONTAINER_CONFIG" }

/-- The loop over `config.ports` of `validateContainerConfig` (lines 139-155). -/
def validatePortsLoop : List JsValue → Except ValidationError Unit
  | [] => Except.ok ()
  | port :: rest =>
    if !port.truthy || port.typeof != JsType.object then
      Except.error (invalidContainerConfig "Each port configuration must be an object")
    else
      match port.get (js "containerPort") with
      | JsValue.number containerPort =>
        if !containerPort.truthy then
          Except.error
            (invalidContainerConfig "containerPort is required and must be a number")
        else if containerPort.lessThan 1 || containerPort.greaterThan 65535 then
          Except.error (invalidContainerConfig "containerPort must be between 1 and 65535")
        else if (port.get (js "hostPort")).truthy &&
            (match port.get (js "hostPort") with
             | JsValue.number hostPort => hostPort.lessThan 1 || hostPort.greaterThan 65535
             | _ => true) then
          Except.error (invalidContainerConfig "hostPort must be a number between 1 and 65535")
        else validatePortsLoop rest
      | _ =>
        Except.error (invalidContainerConfig "containerPort is required and must be a number")

/-- The loop over `config.volumes` of `validateContainerConfig` (lines 171-183). -/
def validateVolumesLoop : List JsValue → Except ValidationError Unit
  | [] => Except.ok ()
  | volume :: rest =>
    if !volume.truthy || volume.typeof != JsType.object then
      Except.error (invalidContainerConfig "Each volume configuration must be an object")
    else if !(volume.get (js "hostPath")).truthy ||
        (volume.get (js "hostPath")).typeof != JsType.string then
      Except.error (invalidContainerConfig "hostPath is required and must be a string")
    else if !(volume.get (js "containerPath")).truthy ||
        (volume.get (js "containerPath")).typeof != JsType.string then
      Except.error (invalidContainerConfig "containerPath is required and must be a string")
    else validateVolumesLoop rest

/-- The block `if (config.ports)` of `validateContainerConfig`. -/
def validatePorts (ports : JsValue) : Except ValidationError Unit :=
  if ports.truthy then
    match ports with
    | JsValue.array items => validatePortsLoop items
    | _ => Except.error (invalidContainerConfig "Ports configuration must be an array")
  else Except.ok ()

/-- The block `if (config.environment)` of `validateContainerConfig`. -/
def validateEnvironment (environment : JsValue) : Except ValidationError Unit :=
  if environment.truthy then
    if environment.typeof != JsType.object || environment.isArray then
      Except.error (invalidContainerConfig "Environment configuration must be an object")
    else Except.ok ()
  else Except.ok ()

/-- The block `if (config.volumes)` of `validateContainerConfig`. -/
def validateVolumes (volumes : JsValue) : Except ValidationError Unit :=
  if volumes.truthy then
    match volumes with
    | JsValue.array items => validateVolumesLoop items
    | _ => Except.error (invalidContainerConfig "Volumes configuration must be an array")
  else Except.ok ()

/-- The method `validators.validateContainerConfig` (api/validators.js, lines 128-185). -/
def validateContainerConfig (config : JsValue) : Except ValidationError Unit :=
  if !config.truthy || config.typeof != JsType.object then Except.ok ()
  else
    match validatePorts (config.get (js "ports")) with
    | Except.error e => Except.error e
    | Except.ok _ =>
      match validateEnvironment (config.get (js "environment")) with
      | Except.error e => Except.error e
      | Except.ok _ => validateVolumes (config.get (js "volumes"))

/-- The loop over `services` of `validateStackData` (api/validators.js, lines 96-124).
`serviceIds` and `serviceNames` are the two sets, in insertion order; `stackId` is
`data.id`. -/
def validateServicesLoop (stackId : JsValue) :
    List JsValue → List JsValue → List JsValue → Except ValidationError Unit
  | [], _, _ => Except.ok ()
  | service :: rest, serviceIds, serviceNames =>
    if !service.truthy || service.typeof != JsType.object then
      Except.error
        { message := js "Each service must be an object", code := js "INVALID_SERVICE_DATA" }
    else
      match validateServiceName (service.get (js "id")) stackId with
      | Except.error e => Except.error e
      | Except.ok _ =>
        match validateServiceName (service.get (js "name")) stackId with
        | Except.error e => Except.error e
        | Except.ok _ =>
          if serviceIds.any (fun member => member.sameValueZero (service.get (js "id"))) then
            Except.error
              { message := js "Duplicate service ID: '" ++ (service.get (js "id")).toText ++
                  js "'",
                code := js "DUPLICATE_SERVICE_ID" }
          else if serviceNames.any
              (fun member => member.sameValueZero (service.get (js "name"))) then
            Except.error
              { message := js "Duplicate service name: '" ++
                  (service.get (js "name")).toText ++ js "'",
                code := js "DUPLICATE_SERVICE_NAME" }
          else
            match validateDockerImage (service.get (js "image")) with
            | Except.error e => Except.error e
            | Except.ok _ =>
              match (if (service.get (js "containerConfig")).truthy then
                  validateContainerConfig (service.get (js "containerConfig"))
                else Except.ok ()) with
              | Except.error e => Except.error e
              | Except.ok _ =>
                validateServicesLoop stackId rest
                  (serviceIds ++ [service.get (js "id")])
                  (serviceNames ++ [service.get (js "name")])

/-- The method `validators.validateStackData` (api/validators.js, lines 76-125). -/
def validateStackData (data : JsValue) : Except ValidationError Unit :=
  if !data.truthy || data.typeof != JsType.object then
    Except.error
      { message := js "Stack data must be an object", code := js "INVALID_STACK_DATA" }
  else
    match validateStackName (data.get (js "id")) with
    | Except.error e => Except.error e
    | Except.ok _ =>
      match validateStackName (data.get (js "name")) with
      | Except.error e => Except.error e
      | Except.ok _ =>
        match data.get (js "services") with
        | JsValue.array services =>
          if services.length = 0 then
            Except.error
              { message := js "Stack must contain at least one service",
                code := js "INVALID_STACK_DATA" }
          else validateServicesLoop (data.get (js "id")) services [] []
        | _ =>
          Except.error
            { message := js "Stack must contain at least one service",
              code := js "INVALID_STACK_DATA" }

/-- The JavaScript value of a container configuration: the request-body form of a
`ContainerConfig`, with the properties that are present. -/
def ContainerConfig.toJsValue (config : ContainerConfig) : JsValue :=
  JsValue.object
    ((match config.environment with
      | some entries =>
        [(js "environment",
          JsValue.object (entries.map (fun entry => (entry.1, JsValue.string entry.2))))]
      | none => []) ++
     (match config.ports with
      | some ports =>
        [(js "ports",
          JsValue.array (ports.map (fun port =>
            JsValue.object
              ([(js "containerPort", JsValue.number (JsNumber.int port.containerPort))] ++
                (match port.hostPort with
                 | some hostPort => [(js "hostPort", JsValue.number (JsNumber.int hostPort))]
                 | none => [])))))]
      | none => []) ++
     (match config.volumes with
      | some volumes =>
        [(js "volumes",
          JsValue.array (volumes.map (fun volume =>
            JsValue.object
              [(js "hostPath", JsValue.string volume.hostPath),
               (js "containerPath", JsValue.string volume.containerPath)])))]
      | none => []))

/-- The request body that holds a stack definition. -/
def StackDefinition.toJsValue (stackData : StackDefinition) : JsValue :=
  JsValue.object
    [(js "id", JsValue.string stackData.id),
     (js "name", JsValue.string stackData.name),
     (js "services",
       JsValue.array (stackData.services.map (fun service =>
         JsValue.object
           ([(js "id", JsValue.string service.id),
             (js "name", JsValue.string service.name),
             (js "image", JsValue.string service.image)] ++
            (match service.containerConfig with
             | some config => [(js "containerConfig", config.toJsValue)]
             | none => [])))))]

/-- A character of `[a-z0-9]`, by its code unit: a lower-case letter (97 to 122) or a
digit (48 to 57). -/
def specIdentifierChar (c : Nat) : Bool :=
  (decide (97 ≤ c) && decide (c ≤ 122)) || (decide (48 ≤ c) && decide (c ≤ 57))

/-- The identifier rule in the words of the specification: the text is 1 to 31
characters long and, cut at its hyphens (45), falls into segments that are all non-empty
and made of characters from `[a-z0-9]`. -/
def specIdentifier (s : JsString) : Bool :=
  decide (1 ≤ s.length) && decide (s.length ≤ 31) &&
    (s.splitOn 45).all (fun segment => !segment.isEmpty && segment.all specIdentifierChar)

/-- A second definition for the stack `web`: another display name, the service `worker`
again (with another image) and a new service `cache`. -/
def retryDefinition : StackDefinition :=
  { id := js "web", name := js "web-two",
    services :=
      [{ id := js "worker", name := js "worker", image := js "busybox",
         containerConfig := none },
       { id := js "cache", name := js "cache", image := js "redis",
         containerConfig := none }] }

/-! # Theorems -/

/-! ## Naming scheme -/

/-- C1: `generateContainerName` returns exactly `stackId + "-" + serviceId` when that
string has at most 63 characters (UTF-16 code units, the `.length` the source tests) and
fails with the name-too-long error exactly when it has more than 63; it succeeds for 31
times "a" with 31 times "b" (63 characters) and fails for 32 times "a" with 31 times "b". -/
theorem generateContainerName_spec :
    (∀ stackId serviceId : JsString,
      (generateContainerName stackId serviceId = Except.ok (stackId ++ js "-" ++ serviceId) ↔
        (stackId ++ js "-" ++ serviceId).length ≤ 63) ∧
      (generateContainerName stackId serviceId =
          Except.error (nameTooLongError (stackId ++ js "-" ++ serviceId)) ↔
        63 < (stackId ++ js "-" ++ serviceId).length) ∧
      ((∃ e, generateContainerName stackId serviceId = Except.error e) ↔
        63 < (stackId ++ js "-" ++ serviceId).length)) ∧
    generateContainerName (repeatChar 'a' 31) (repeatChar 'b' 31) =
      Except.ok (repeatChar 'a' 31 ++ js "-" ++ repeatChar 'b' 31) ∧
    (repeatChar 'a' 31 ++ js "-" ++ repeatChar 'b' 31).length = 63 ∧
    generateContainerName (repeatChar 'a' 32) (repeatChar 'b' 31) =
      Except.error (nameTooLongError (repeatChar 'a' 32 ++ js "-" ++ repeatChar 'b' 31)) := by
  refine ⟨?_, by rfl, by rfl, by rfl⟩
  intro stackId serviceId
  unfold generateContainerName
  generalize stackId ++ js "-" ++ serviceId = name
  by_cases h : name.length > 63
  · have h2 : ¬ name.length ≤ 63 := by omega
    have h3 : 63 < name.length := h
    simp [h, h2, h3]
  · have h2 : name.length ≤ 63 := by omega
    have h3 : ¬ 63 < name.length := h
    simp [h, h2, h3]

/-! ## Lifecycle orchestrator -/

/-- The loop of `startStack` only appends to the results built so far. -/
theorem startStackLoop_acc {σ : Type} (rt : Runtime σ) (stackId : JsString)
    (services : List Service) (acc : List OperationResult) (w : World σ) :
    startStackLoop rt stackId services acc w =
      (acc ++ (startStackLoop rt stackId services [] w).1,
        (startStackLoop rt stackId services [] w).2) := by
  induction services generalizing acc w with
  | nil => simp [startStackLoop]
  | cons s rest ih =>
    simp only [startStackLoop]
    split
    · rw [ih, ih ([] ++ _)]; simp
    · split
      · rw [ih, ih ([] ++ _)]; simp
      · rw [ih, ih ([] ++ _)]; simp

/-- The loop of `startStack` over a concatenation runs the second list in the world
left by the first. -/
theorem startStackLoop_append {σ : Type} (rt : Runtime σ) (stackId : JsString)
    (xs ys : List Service) (acc : List OperationResult) (w : World σ) :
    startStackLoop rt stackId (xs ++ ys) acc w =
      startStackLoop rt stackId ys (startStackLoop rt stackId xs acc w).1
        (startStackLoop rt stackId xs acc w).2 := by
  induction xs generalizing acc w with
  | nil => simp [startStackLoop]
  | cons s rest ih =>
    simp only [List.cons_append, startStackLoop]
    split
    · exact ih _ _
    · split
      · exact ih _ _
      · exact ih _ _

/-- The loop of `startStack` adds one result per service. -/
theorem startStackLoop_length {σ : Type} (rt : Runtime σ) (stackId : JsString)
    (services : List Service) (acc : List OperationResult) (w : World σ) :
    (startStackLoop rt stackId services acc w).1.length = acc.length + services.length := by
  induction services generalizing acc w with
  | nil => simp [startStackLoop]
  | cons s rest ih =>
    simp only [startStackLoop]
    split
    · rw [ih]; simp; omega
    · split
      · rw [ih]; simp; omega
      · rw [ih]; simp; omega

/-- The loop of `startStack` records the services' identifiers in order. -/
theorem startStackLoop_ids {σ : Type} (rt : Runtime σ) (stackId : JsString)
    (services : List Service) (acc : List OperationResult) (w : World σ) :
    (startStackLoop rt stackId services acc w).1.map (fun r => r.serviceId) =
      acc.map (fun r => r.serviceId) ++ services.map (fun s => s.id) := by
  induction services generalizing acc w with
  | nil => simp [startStackLoop]
  | cons s rest ih =>
    simp only [startStackLoop]
    split
    · rw [ih]; simp
    · split
      · rw [ih]; simp
      · rw [ih]; simp

/-- The result and the world of the loop of `startStack` at position `i` are those of a
run on the single service `services[i]` in the world left by the first `i` services. -/
theorem startStackLoop_entry {σ : Type} (rt : Runtime σ) (stackId : JsString)
    (services : List Service) (w : World σ) (i : Nat) (hi : i < services.length) :
    (startStackLoop rt stackId services [] w).1[i]? =
        (startStackLoop rt stackId [services[i]] []
          (startStackLoop rt stackId (services.take i) [] w).2).1[0]? ∧
    (startStackLoop rt stackId (services.take (i + 1)) [] w).2 =
        (startStackLoop rt stackId [services[i]] []
          (startStackLoop rt stackId (services.take i) [] w).2).2 := by
  have hsplit : services = services.take i ++ ([services[i]] ++ services.drop (i + 1)) := by
    rw [List.singleton_append, ← List.drop_eq_getElem_cons hi, List.take_append_drop]
  have htake : services.take (i + 1) = services.take i ++ [services[i]] := by
    rw [List.take_succ, List.getElem?_eq_getElem hi]; rfl
  have hlen : (startStackLoop rt stackId (services.take i) [] w).1.length = i := by
    rw [startStackLoop_length]; simp; omega
  have hB : ∀ acc, startStackLoop rt stackId [services[i]] acc
        (startStackLoop rt stackId (services.take i) [] w).2 =
      (acc ++ (startStackLoop rt stackId [services[i]] []
          (startStackLoop rt stackId (services.take i) [] w).2).1,
        (startStackLoop rt stackId [services[i]] []
          (startStackLoop rt stackId (services.take i) [] w).2).2) :=
    fun acc => startStackLoop_acc rt stackId _ acc _
  have h1 : (startStackLoop rt stackId [services[i]] []
      (startStackLoop rt stackId (services.take i) [] w).2).1.length = 1 := by
    rw [startStackLoop_length]; simp
  constructor
  · have hall : startStackLoop rt stackId services [] w =
        startStackLoop rt stackId (services.drop (i + 1))
          ((startStackLoop rt stackId (services.take i) [] w).1 ++
            (startStackLoop rt stackId [services[i]] []
              (startStackLoop rt stackId (services.take i) [] w).2).1)
          (startStackLoop rt stackId [services[i]] []
            (startStackLoop rt stackId (services.take i) [] w).2).2 := by
      conv_lhs => rw [hsplit]
      rw [startStackLoop_append, startStackLoop_append, hB]
    rw [hall, startStackLoop_acc]
    simp only []
    rw [List.append_assoc, List.getElem?_append_right (by omega), hlen, Nat.sub_self,
      List.getElem?_append_left (by omega)]
  · rw [htake, startStackLoop_append, hB]

/-- C2: `startStack` never raises; its results have exactly one entry per input service,
in input order, carrying that service's id. Entry `i` is decided by the create and the
start of service `i` alone, run in the world the earlier services left (whatever they
did): success with status "started" exactly when both `createContainer` and
`startContainer` resolved, otherwise failure with the message of the error raised; and
the next service is then attempted in the world this attempt left. With three services of
which only the second one's create fails, the results are succeeded, failed with the
error message, succeeded, and the third service's create and start are requested. -/
theorem startStack_results :
    (∀ {σ : Type} (rt : Runtime σ) (stackId : JsString) (services : List Service)
        (w : World σ),
      ∃ results : List OperationResult,
        (startStack rt stackId services w).1 = Except.ok results ∧
        results.length = services.length ∧
        results.map (fun r => r.serviceId) = services.map (fun s => s.id) ∧
        ∀ (i : Nat) (hi : i < services.length),
          ∃ r, results[i]? = some r ∧ r.serviceId = services[i].id ∧
            (r.success = true ↔
              ∃ c w1 b w2,
                createContainer rt stackId services[i]
                    (startStack rt stackId (services.take i) w).2 = (Except.ok c, w1) ∧
                startContainer rt stackId services[i].id w1 = (Except.ok b, w2)) ∧
            (r.success = true → r.status = some (js "started") ∧ r.error = none) ∧
            (r.success = false → r.status = none ∧
              ∃ e, r.error = some e.message ∧
                ((∃ w1, createContainer rt stackId services[i]
                    (startStack rt stackId (services.take i) w).2 = (Except.error e, w1)) ∨
                 (∃ c w1 w2,
                    createContainer rt stackId services[i]
                      (startStack rt stackId (services.take i) w).2 = (Except.ok c, w1) ∧
                    startContainer rt stackId services[i].id w1 = (Except.error e, w2)))) ∧
            (∀ e w1, createContainer rt stackId services[i]
                  (startStack rt stackId (services.take i) w).2 = (Except.error e, w1) →
                (startStack rt stackId (services.take (i + 1)) w).2 = w1) ∧
            (∀ c w1, createContainer rt stackId services[i]
                  (startStack rt stackId (services.take i) w).2 = (Except.ok c, w1) →
                (startStack rt stackId (services.take (i + 1)) w).2 =
                  (startContainer rt stackId services[i].id w1).2)) ∧
    (startStack refRuntime (js "web")
        [plainService "a" "nginx", plainService "b" "missing", plainService "c" "redis"]
        (refWorld [js "nginx", js "redis"] [])).1 =
      Except.ok
        [{ serviceId := js "a", success := true, status := some (js "started"), error := none },
         { serviceId := js "b", success := false, status := none,
           error := some (js "No such image") },
         { serviceId := js "c", success := true, status := some (js "started"), error := none }] ∧
    (startStack refRuntime (js "web")
        [plainService "a" "nginx", plainService "b" "missing", plainService "c" "redis"]
        (refWorld [js "nginx", js "redis"] [])).2.trace =
      [Call.createContainer (buildContainerOptions (js "web-a") (plainService "a" "nginx")),
       Call.start (js "web-a"),
       Call.createContainer (buildContainerOptions (js "web-b") (plainService "b" "missing")),
       Call.createContainer (buildContainerOptions (js "web-c") (plainService "c" "redis")),
       Call.start (js "web-c")] := by
  refine ⟨?_, by rfl, by rfl⟩
  intro σ rt stackId services w
  refine ⟨(startStackLoop rt stackId services [] w).1, rfl, ?_, ?_, ?_⟩
  · rw [startStackLoop_length]; simp
  · rw [startStackLoop_ids]; simp
  · intro i hi
    obtain ⟨hentry, hworld⟩ := startStackLoop_entry rt stackId services w i hi
    simp only [startStack]
    rw [hentry, hworld]
    generalize (startStackLoop rt stackId (services.take i) [] w).2 = wi
    generalize services[i] = s
    rcases hc : createContainer rt stackId s wi with ⟨_ | c, w1⟩
    · rename_i e
      refine ⟨{ serviceId := s.id, success := false, status := none,
                error := some e.message }, ?_, rfl, ?_, ?_, ?_, ?_, ?_⟩
      · simp [startStackLoop, hc]
      · constructor
        · intro h; cases h
        · rintro ⟨c2, w3, b2, w4, h1, h2⟩
          cases h1
      · intro h; cases h
      · intro _
        exact ⟨rfl, e, rfl, Or.inl ⟨w1, rfl⟩⟩
      · intro e2 w2 h
        simp [startStackLoop, hc]
        cases h; rfl
      · intro c2 w2 h
        cases h
    · rcases hs : startContainer rt stackId s.id w1 with ⟨_ | b, w2⟩
      · rename_i e
        refine ⟨{ serviceId := s.id, success := false, status := none,
                  error := some e.message }, ?_, rfl, ?_, ?_, ?_, ?_, ?_⟩
        · simp [startStackLoop, hc, hs]
        · constructor
          · intro h; cases h
          · rintro ⟨c2, w3, b2, w4, h1, h2⟩
            cases h1
            rw [hs] at h2
            cases h2
        · intro h; cases h
        · intro _
          exact ⟨rfl, e, rfl, Or.inr ⟨c, w1, w2, rfl, hs⟩⟩
        · intro e2 w3 h
          cases h
        · intro c2 w3 h
          cases h
          simp [startStackLoop, hc, hs]
      · refine ⟨{ serviceId := s.id, success := true, status := some (js "started"),
                  error := none }, ?_, rfl, ?_, ?_, ?_, ?_, ?_⟩
        · simp [startStackLoop, hc, hs]
        · exact ⟨fun _ => ⟨c, w1, b, w2, rfl, hs⟩, fun _ => rfl⟩
        · intro _; exact ⟨rfl, rfl⟩
        · intro h; cases h
        · intro e2 w3 h
          cases h
        · intro c2 w3 h
          cases h
          simp [startStackLoop, hc, hs]


/-! ## Runtime adapter: each method, by the outcome of the naming check -/

/-- What `createContainer` does when the naming check passes. -/
theorem createContainer_of_name {σ : Type} (rt : Runtime σ) (stackId : JsString)
    (service : Service) (name : JsString) (w : World σ)
    (h : generateContainerName stackId service.id = Except.ok name) :
    createContainer rt stackId service w =
      ((match (rt.createContainer (buildContainerOptions name service) w.state).1 with
        | Except.ok container => Except.ok container
        | Except.error e =>
          if e.statusCode = some 409 then Except.ok (getContainer name) else Except.error e),
       { state := (rt.createContainer (buildContainerOptions name service) w.state).2,
         trace := w.trace ++ [Call.createContainer (buildContainerOptions name service)] }) := by
  unfold createContainer
  rw [h]
  simp only [Runtime.create, request]
  cases (rt.createContainer (buildContainerOptions name service) w.state).1 with
  | ok u => rfl
  | error e =>
    simp only []
    split <;> rfl

/-- What `createContainer` does when the naming check fails. -/
theorem createContainer_of_tooLong {σ : Type} (rt : Runtime σ) (stackId : JsString)
    (service : Service) (e : JsError) (w : World σ)
    (h : generateContainerName stackId service.id = Except.error e) :
    createContainer rt stackId service w = (Except.error e, w) := by
  unfold createContainer
  rw [h]

/-- What `startContainer` does when the naming check passes. -/
theorem startContainer_of_name {σ : Type} (rt : Runtime σ) (stackId serviceId name : JsString)
    (w : World σ) (h : generateContainerName stackId serviceId = Except.ok name) :
    startContainer rt stackId serviceId w =
      ((match (rt.start name w.state).1 with
        | Except.ok _ => Except.ok true
        | Except.error e =>
          if e.statusCode = some 304 then Except.ok true else Except.error e),
       { state := (rt.start name w.state).2, trace := w.trace ++ [Call.start name] }) := by
  unfold startContainer
  rw [h]
  simp only [Container.start, request, getContainer]
  cases (rt.start name w.state).1 with
  | ok u => rfl
  | error e =>
    simp only []
    split <;> rfl

/-- What `startContainer` does when the naming check fails. -/
theorem startContainer_of_tooLong {σ : Type} (rt : Runtime σ) (stackId serviceId : JsString)
    (e : JsError) (w : World σ) (h : generateContainerName stackId serviceId = Except.error e) :
    startContainer rt stackId serviceId w = (Except.error e, w) := by
  unfold startContainer
  rw [h]

/-- What `stopContainer` does when the naming check passes. -/
theorem stopContainer_of_name {σ : Type} (rt : Runtime σ) (stackId serviceId name : JsString)
    (w : World σ) (h : generateContainerName stackId serviceId = Except.ok name) :
    stopContainer rt stackId serviceId w =
      ((match (rt.stop name w.state).1 with
        | Except.ok _ => Except.ok true
        | Except.error e =>
          if e.statusCode = some 304 ∨ e.statusCode = some 404 then Except.ok true
          else Except.error e),
       { state := (rt.stop name w.state).2, trace := w.trace ++ [Call.stop name] }) := by
  unfold stopContainer
  rw [h]
  simp only [Container.stop, request, getContainer]
  cases (rt.stop name w.state).1 with
  | ok u => rfl
  | error e =>
    simp only []
    split <;> rfl

/-- What `stopContainer` does when the naming check fails. -/
theorem stopContainer_of_tooLong {σ : Type} (rt : Runtime σ) (stackId serviceId : JsString)
    (e : JsError) (w : World σ) (h : generateContainerName stackId serviceId = Except.error e) :
    stopContainer rt stackId serviceId w = (Except.error e, w) := by
  unfold stopContainer
  rw [h]

/-- What `removeContainer` does when the naming check passes. -/
theorem removeContainer_of_name {σ : Type} (rt : Runtime σ) (stackId serviceId name : JsString)
    (w : World σ) (h : generateContainerName stackId serviceId = Except.ok name) :
    removeContainer rt stackId serviceId w =
      ((match (rt.remove name { force := true } w.state).1 with
        | Except.ok _ => Except.ok true
        | Except.error e =>
          if e.statusCode = some 404 then Except.ok true else Except.error e),
       { state := (rt.remove name { force := true } w.state).2,
         trace := w.trace ++ [Call.remove name { force := true }] }) := by
  unfold removeContainer
  rw [h]
  simp only [Container.remove, request, getContainer]
  cases (rt.remove name { force := true } w.state).1 with
  | ok u => rfl
  | error e =>
    simp only []
    split <;> rfl

/-- What `removeContainer` does when the naming check fails. -/
theorem removeContainer_of_tooLong {σ : Type} (rt : Runtime σ) (stackId serviceId : JsString)
    (e : JsError) (w : World σ) (h : generateContainerName stackId serviceId = Except.error e) :
    removeContainer rt stackId serviceId w = (Except.error e, w) := by
  unfold removeContainer
  rw [h]

/-- What `getContainerStatus` does when the naming check passes. -/
theorem getContainerStatus_of_name {σ : Type} (rt : Runtime σ)
    (stackId serviceId name : JsString) (w : World σ)
    (h : generateContainerName stackId serviceId = Except.ok name) :
    getContainerStatus rt stackId serviceId w =
      ((match (rt.inspect name w.state).1 with
        | Except.ok data =>
          Except.ok
            { status := data.State.Status,
              running := data.State.Running,
              startedAt := some data.State.StartedAt,
              finishedAt := some data.State.FinishedAt,
              exitCode := some data.State.ExitCode }
        | Except.error e =>
          if e.statusCode = some 404 then
            Except.ok
              { status := js "not-created", running := false, startedAt := none,
                finishedAt := none, exitCode := none }
          else Except.error e),
       { state := (rt.inspect name w.state).2, trace := w.trace ++ [Call.inspect name] }) := by
  unfold getContainerStatus
  rw [h]
  simp only [Container.inspect, request, getContainer]
  cases (rt.inspect name w.state).1 with
  | ok u => rfl
  | error e =>
    simp only []
    split <;> rfl

/-- What `getContainerLogs` does when the naming check passes. -/
theorem getContainerLogs_of_name {σ : Type} (rt : Runtime σ)
    (stackId serviceId name : JsString) (options : LogOptions) (w : World σ)
    (h : generateContainerName stackId serviceId = Except.ok name) :
    getContainerLogs rt stackId serviceId options w =
      ((match (rt.logs name
            { stdout := true, stderr := true, tail := tailOrDefault options.tail,
              timestamps := true, follow := false } w.state).1 with
        | Except.ok logStream => Except.ok logStream
        | Except.error e =>
          if e.statusCode = some 404 then Except.ok (js "Container not found")
          else Except.error e),
       { state := (rt.logs name
            { stdout := true, stderr := true, tail := tailOrDefault options.tail,
              timestamps := true, follow := false } w.state).2,
         trace := w.trace ++ [Call.logs name
            { stdout := true, stderr := true, tail := tailOrDefault options.tail,
              timestamps := true, follow := false }] }) := by
  unfold getContainerLogs
  rw [h]
  simp only [Container.logs, request, getContainer]
  cases (rt.logs name _ w.state).1 with
  | ok u => rfl
  | error e =>
    simp only []
    split <;> rfl

/-- What `getContainerStatus` does when the naming check fails. -/
theorem getContainerStatus_of_tooLong {σ : Type} (rt : Runtime σ)
    (stackId serviceId : JsString) (e : JsError) (w : World σ)
    (h : generateContainerName stackId serviceId = Except.error e) :
    getContainerStatus rt stackId serviceId w = (Except.error e, w) := by
  unfold getContainerStatus
  rw [h]

/-- What `getContainerLogs` does when the naming check fails. -/
theorem getContainerLogs_of_tooLong {σ : Type} (rt : Runtime σ)
    (stackId serviceId : JsString) (options : LogOptions) (e : JsError) (w : World σ)
    (h : generateContainerName stackId serviceId = Except.error e) :
    getContainerLogs rt stackId serviceId options w = (Except.error e, w) := by
  unfold getContainerLogs
  rw [h]

/-- The naming check passes for a joined name of at most 63 characters. -/
theorem generateContainerName_of_le (stackId serviceId : JsString)
    (h : (stackId ++ js "-" ++ serviceId).length ≤ 63) :
    generateContainerName stackId serviceId = Except.ok (stackId ++ js "-" ++ serviceId) := by
  unfold generateContainerName
  have h2 : ¬ (stackId ++ js "-" ++ serviceId).length > 63 := by omega
  simp only [h2, if_false]


/-- The loop of `stopStack` only appends to the results built so far. -/
theorem stopStackLoop_acc {σ : Type} (rt : Runtime σ) (stackId : JsString)
    (services : List Service) (acc : List OperationResult) (w : World σ) :
    stopStackLoop rt stackId services acc w =
      (acc ++ (stopStackLoop rt stackId services [] w).1,
        (stopStackLoop rt stackId services [] w).2) := by
  induction services generalizing acc w with
  | nil => simp [stopStackLoop]
  | cons s rest ih =>
    simp only [stopStackLoop]
    split
    · rw [ih, ih ([] ++ _)]; simp
    · rw [ih, ih ([] ++ _)]; simp

/-- The loop of `stopStack` over a concatenation runs the second list in the world
left by the first. -/
theorem stopStackLoop_append {σ : Type} (rt : Runtime σ) (stackId : JsString)
    (xs ys : List Service) (acc : List OperationResult) (w : World σ) :
    stopStackLoop rt stackId (xs ++ ys) acc w =
      stopStackLoop rt stackId ys (stopStackLoop rt stackId xs acc w).1
        (stopStackLoop rt stackId xs acc w).2 := by
  induction xs generalizing acc w with
  | nil => simp [stopStackLoop]
  | cons s rest ih =>
    simp only [List.cons_append, stopStackLoop]
    split
    · exact ih _ _
    · exact ih _ _

/-- The loop of `stopStack` adds one result per service. -/
theorem stopStackLoop_length {σ : Type} (rt : Runtime σ) (stackId : JsString)
    (services : List Service) (acc : List OperationResult) (w : World σ) :
    (stopStackLoop rt stackId services acc w).1.length = acc.length + services.length := by
  induction services generalizing acc w with
  | nil => simp [stopStackLoop]
  | cons s rest ih =>
    simp only [stopStackLoop]
    split
    · rw [ih]; simp; omega
    · rw [ih]; simp; omega

/-- The loop of `stopStack` records the services' identifiers in order. -/
theorem stopStackLoop_ids {σ : Type} (rt : Runtime σ) (stackId : JsString)
    (services : List Service) (acc : List OperationResult) (w : World σ) :
    (stopStackLoop rt stackId services acc w).1.map (fun r => r.serviceId) =
      acc.map (fun r => r.serviceId) ++ services.map (fun s => s.id) := by
  induction services generalizing acc w with
  | nil => simp [stopStackLoop]
  | cons s rest ih =>
    simp only [stopStackLoop]
    split
    · rw [ih]; simp
    · rw [ih]; simp

/-- The result of the loop of `stopStack` at position `i` is that of a run on the single
service `services[i]` in the world left by the first `i` services. -/
theorem stopStackLoop_entry {σ : Type} (rt : Runtime σ) (stackId : JsString)
    (services : List Service) (w : World σ) (i : Nat) (hi : i < services.length) :
    (stopStackLoop rt stackId services [] w).1[i]? =
        (stopStackLoop rt stackId [services[i]] []
          (stopStackLoop rt stackId (services.take i) [] w).2).1[0]? := by
  have hsplit : services = services.take i ++ ([services[i]] ++ services.drop (i + 1)) := by
    rw [List.singleton_append, ← List.drop_eq_getElem_cons hi, List.take_append_drop]
  have hlen : (stopStackLoop rt stackId (services.take i) [] w).1.length = i := by
    rw [stopStackLoop_length]; simp; omega
  have hB : ∀ acc, stopStackLoop rt stackId [services[i]] acc
        (stopStackLoop rt stackId (services.take i) [] w).2 =
      (acc ++ (stopStackLoop rt stackId [services[i]] []
          (stopStackLoop rt stackId (services.take i) [] w).2).1,
        (stopStackLoop rt stackId [services[i]] []
          (stopStackLoop rt stackId (services.take i) [] w).2).2) :=
    fun acc => stopStackLoop_acc rt stackId _ acc _
  have h1 : (stopStackLoop rt stackId [services[i]] []
      (stopStackLoop rt stackId (services.take i) [] w).2).1.length = 1 := by
    rw [stopStackLoop_length]; simp
  have hall : stopStackLoop rt stackId services [] w =
      stopStackLoop rt stackId (services.drop (i + 1))
        ((stopStackLoop rt stackId (services.take i) [] w).1 ++
          (stopStackLoop rt stackId [services[i]] []
            (stopStackLoop rt stackId (services.take i) [] w).2).1)
        (stopStackLoop rt stackId [services[i]] []
          (stopStackLoop rt stackId (services.take i) [] w).2).2 := by
    conv_lhs => rw [hsplit]
    rw [stopStackLoop_append, stopStackLoop_append, hB]
  rw [hall, stopStackLoop_acc]
  simp only []
  rw [List.append_assoc, List.getElem?_append_right (by omega), hlen, Nat.sub_self,
    List.getElem?_append_left (by omega)]

/-- The requests `stopContainer` sends: one `stop` when the name passes the naming check,
none otherwise. -/
theorem stopContainer_trace {σ : Type} (rt : Runtime σ) (stackId serviceId : JsString)
    (w : World σ) :
    (stopContainer rt stackId serviceId w).2.trace =
      w.trace ++ (match generateContainerName stackId serviceId with
        | Except.ok name => [Call.stop name]
        | Except.error _ => []) := by
  cases h : generateContainerName stackId serviceId with
  | error e => rw [stopContainer_of_tooLong rt stackId serviceId e w h]; simp
  | ok name => rw [stopContainer_of_name rt stackId serviceId name w h]

/-- The requests `createContainer` sends are `createContainer` requests. -/
theorem createContainer_trace {σ : Type} (rt : Runtime σ) (stackId : JsString)
    (service : Service) (w : World σ) :
    ∃ calls, (createContainer rt stackId service w).2.trace = w.trace ++ calls ∧
      ∀ c ∈ calls, c.isCreateOrStart = true := by
  cases h : generateContainerName stackId service.id with
  | error e =>
    rw [createContainer_of_tooLong rt stackId service e w h]
    exact ⟨[], by simp, by simp⟩
  | ok name =>
    rw [createContainer_of_name rt stackId service name w h]
    exact ⟨[Call.createContainer (buildContainerOptions name service)], rfl,
      by simp [Call.isCreateOrStart]⟩

/-- The requests `startContainer` sends are `start` requests. -/
theorem startContainer_trace {σ : Type} (rt : Runtime σ) (stackId serviceId : JsString)
    (w : World σ) :
    ∃ calls, (startContainer rt stackId serviceId w).2.trace = w.trace ++ calls ∧
      ∀ c ∈ calls, c.isCreateOrStart = true := by
  cases h : generateContainerName stackId serviceId with
  | error e =>
    rw [startContainer_of_tooLong rt stackId serviceId e w h]
    exact ⟨[], by simp, by simp⟩
  | ok name =>
    rw [startContainer_of_name rt stackId serviceId name w h]
    exact ⟨[Call.start name], rfl, by simp [Call.isCreateOrStart]⟩

/-- The requests of the loop of `stopStack`: the `stop` of every service whose name passes
the naming check, in list order. -/
theorem stopStackLoop_trace {σ : Type} (rt : Runtime σ) (stackId : JsString)
    (services : List Service) (acc : List OperationResult) (w : World σ) :
    (stopStackLoop rt stackId services acc w).2.trace =
      w.trace ++ services.filterMap (fun s =>
        match generateContainerName stackId s.id with
        | Except.ok name => some (Call.stop name)
        | Except.error _ => none) := by
  induction services generalizing acc w with
  | nil => simp [stopStackLoop]
  | cons s rest ih =>
    have ht := stopContainer_trace rt stackId s.id w
    simp only [stopStackLoop]
    rcases hstop : stopContainer rt stackId s.id w with ⟨_ | b, w1⟩ <;>
      rw [hstop] at ht <;> simp only [] at ht ⊢ <;> rw [ih, ht, List.filterMap_cons] <;>
      cases generateContainerName stackId s.id <;> simp

/-- The requests of the loop of `startStack` are `createContainer` and `start` requests. -/
theorem startStackLoop_trace {σ : Type} (rt : Runtime σ) (stackId : JsString)
    (services : List Service) (acc : List OperationResult) (w : World σ) :
    ∃ calls, (startStackLoop rt stackId services acc w).2.trace = w.trace ++ calls ∧
      ∀ c ∈ calls, c.isCreateOrStart = true := by
  induction services generalizing acc w with
  | nil => exact ⟨[], by simp [startStackLoop], by simp⟩
  | cons s rest ih =>
    obtain ⟨cs1, hc1, hk1⟩ := createContainer_trace rt stackId s w
    simp only [startStackLoop]
    rcases hcreate : createContainer rt stackId s w with ⟨e | c, w1⟩
    · rw [hcreate] at hc1
      simp only [] at hc1 ⊢
      obtain ⟨cs, hcs, hk⟩ := ih (acc ++ [OperationResult.mk s.id false none (some e.message)]) w1
      refine ⟨cs1 ++ cs, ?_, ?_⟩
      · rw [hcs, hc1, List.append_assoc]
      · intro c hc
        rcases List.mem_append.mp hc with h | h
        · exact hk1 c h
        · exact hk c h
    · rw [hcreate] at hc1
      simp only [] at hc1 ⊢
      obtain ⟨cs2, hc2, hk2⟩ := startContainer_trace rt stackId s.id w1
      rcases hstart : startContainer rt stackId s.id w1 with ⟨e | b, w2⟩
      · rw [hstart] at hc2
        simp only [] at hc2 ⊢
        obtain ⟨cs, hcs, hk⟩ := ih (acc ++ [OperationResult.mk s.id false none (some e.message)]) w2
        refine ⟨cs1 ++ cs2 ++ cs, ?_, ?_⟩
        · rw [hcs, hc2, hc1]; simp
        · intro c hc
          rcases List.mem_append.mp hc with h | h
          · rcases List.mem_append.mp h with h | h
            · exact hk1 c h
            · exact hk2 c h
          · exact hk c h
      · rw [hstart] at hc2
        simp only [] at hc2 ⊢
        obtain ⟨cs, hcs, hk⟩ := ih (acc ++ [OperationResult.mk s.id true (some (js "started")) none]) w2
        refine ⟨cs1 ++ cs2 ++ cs, ?_, ?_⟩
        · rw [hcs, hc2, hc1]; simp
        · intro c hc
          rcases List.mem_append.mp hc with h | h
          · rcases List.mem_append.mp h with h | h
            · exact hk1 c h
            · exact hk2 c h
          · exact hk c h

/-- C3: the stack restart route, for a stored stack, runs the whole stop pass and only then
the start pass, and answers with both result sets. The stop pass makes one `stopContainer`
call per service in list order (entry `i` of `stopResults` is the outcome of the stop of
service `i`, whether or not earlier stops failed); the requests it sends are the `stop`
requests of the services in list order (exactly one per service when every derived name is
within 63 characters; a service failing the naming check fails its stop without a request);
the requests of the stop pass are all `stop` requests and every request sent after it is
a `createContainer` or a `start`, so no create or start precedes any stop. -/
theorem restartStackRoute_stops_before_starts {σ : Type} (rt : Runtime σ)
    (getStack : JsString → Except JsError (Option Stack)) (stackId : JsString) (stack : Stack)
    (w : World σ) (h : getStack stackId = Except.ok (some stack)) :
    ∃ stopResults startResults wStop wEnd stopCalls startCalls,
      stopStack rt stackId stack.services w = (Except.ok stopResults, wStop) ∧
      startStack rt stackId stack.services wStop = (Except.ok startResults, wEnd) ∧
      restartStackRoute rt getStack stackId w =
        (RestartResponse.restarted stackId (js "restart") stopResults startResults, wEnd) ∧
      stopResults.map (fun r => r.serviceId) = stack.services.map (fun s => s.id) ∧
      (∀ (i : Nat) (hi : i < stack.services.length),
        ∃ r, stopResults[i]? = some r ∧
          (r.success = true ↔
            ∃ b w1, stopContainer rt stackId stack.services[i].id
              (stopStack rt stackId (stack.services.take i) w).2 = (Except.ok b, w1))) ∧
      wStop.trace = w.trace ++ stopCalls ∧
      wEnd.trace = w.trace ++ stopCalls ++ startCalls ∧
      stopCalls = stack.services.filterMap (fun s =>
        match generateContainerName stackId s.id with
        | Except.ok name => some (Call.stop name)
        | Except.error _ => none) ∧
      ((∀ s ∈ stack.services, (stackId ++ js "-" ++ s.id).length ≤ 63) →
        stopCalls = stack.services.map (fun s => Call.stop (stackId ++ js "-" ++ s.id))) ∧
      (∀ c ∈ stopCalls, c.isStop = true) ∧
      (∀ c ∈ startCalls, c.isCreateOrStart = true) ∧
      startResults.map (fun r => r.serviceId) = stack.services.map (fun s => s.id) := by
  obtain ⟨startCalls, hcalls, hkind⟩ :=
    startStackLoop_trace rt stackId stack.services []
      (stopStackLoop rt stackId stack.services [] w).2
  have htrace := stopStackLoop_trace rt stackId stack.services [] w
  refine ⟨(stopStackLoop rt stackId stack.services [] w).1,
    (startStackLoop rt stackId stack.services []
      (stopStackLoop rt stackId stack.services [] w).2).1,
    (stopStackLoop rt stackId stack.services [] w).2,
    (startStackLoop rt stackId stack.services []
      (stopStackLoop rt stackId stack.services [] w).2).2,
    _, startCalls, rfl, rfl, ?_, ?_, ?_, htrace, ?_, rfl, ?_, ?_, hkind, ?_⟩
  · simp only [restartStackRoute, h, stopStack, startStack]
  · rw [stopStackLoop_ids]; simp
  · intro i hi
    rw [stopStackLoop_entry rt stackId stack.services w i hi]
    simp only [stopStack]
    generalize (stopStackLoop rt stackId (stack.services.take i) [] w).2 = wi
    generalize stack.services[i] = s
    rcases hs : stopContainer rt stackId s.id wi with ⟨e | b, w1⟩
    · refine ⟨OperationResult.mk s.id false none (some e.message), ?_, ?_⟩
      · simp [stopStackLoop, hs]
      · constructor
        · intro h1; cases h1
        · rintro ⟨b, w2, h1⟩; cases h1
    · refine ⟨OperationResult.mk s.id true (some (js "stopped")) none, ?_, ?_⟩
      · simp [stopStackLoop, hs]
      · exact ⟨fun _ => ⟨b, w1, rfl⟩, fun _ => rfl⟩
  · rw [hcalls, htrace]
  · clear htrace hcalls hkind
    generalize stack.services = svcs
    intro hall
    induction svcs with
    | nil => rfl
    | cons s rest ih =>
      rw [List.filterMap_cons, List.map_cons,
        generateContainerName_of_le stackId s.id (hall s (List.mem_cons_self _ _))]
      simp only []
      rw [ih (fun t ht => hall t (List.mem_cons_of_mem _ ht))]
  · intro c hc
    rw [List.mem_filterMap] at hc
    obtain ⟨s, _, hs⟩ := hc
    cases hn : generateContainerName stackId s.id with
    | error e => rw [hn] at hs; cases hs
    | ok name => rw [hn] at hs; cases hs; rfl
  · rw [startStackLoop_ids]; simp

/-- Witness for C3: the restart of the stored two-service stack `demoStack` on the
reference runtime, none of its containers existing yet: both stops are requested (and
answered 404) before the first create. -/
theorem restartStackRoute_stops_before_starts_witness :
    demoStore (js "web") = Except.ok (some demoStack) ∧
    (restartStackRoute refRuntime demoStore (js "web")
        (refWorld [js "nginx", js "redis"] [])).2.trace =
      [Call.stop (js "web-api"), Call.stop (js "web-db"),
       Call.createContainer (buildContainerOptions (js "web-api") (plainService "api" "nginx")),
       Call.start (js "web-api"),
       Call.createContainer (buildContainerOptions (js "web-db") (plainService "db" "redis")),
       Call.start (js "web-db")] ∧
    ∃ stopResults startResults wStop wEnd stopCalls startCalls,
      stopStack refRuntime (js "web") demoStack.services (refWorld [js "nginx", js "redis"] []) =
        (Except.ok stopResults, wStop) ∧
      startStack refRuntime (js "web") demoStack.services wStop =
        (Except.ok startResults, wEnd) ∧
      restartStackRoute refRuntime demoStore (js "web") (refWorld [js "nginx", js "redis"] []) =
        (RestartResponse.restarted (js "web") (js "restart") stopResults startResults, wEnd) ∧
      stopResults.map (fun r => r.serviceId) = demoStack.services.map (fun s => s.id) ∧
      (∀ (i : Nat) (hi : i < demoStack.services.length),
        ∃ r, stopResults[i]? = some r ∧
          (r.success = true ↔
            ∃ b w1, stopContainer refRuntime (js "web") demoStack.services[i].id
              (stopStack refRuntime (js "web") (demoStack.services.take i)
                (refWorld [js "nginx", js "redis"] [])).2 = (Except.ok b, w1))) ∧
      wStop.trace = (refWorld [js "nginx", js "redis"] []).trace ++ stopCalls ∧
      wEnd.trace = (refWorld [js "nginx", js "redis"] []).trace ++ stopCalls ++ startCalls ∧
      stopCalls = demoStack.services.filterMap (fun s =>
        match generateContainerName (js "web") s.id with
        | Except.ok name => some (Call.stop name)
        | Except.error _ => none) ∧
      ((∀ s ∈ demoStack.services, (js "web" ++ js "-" ++ s.id).length ≤ 63) →
        stopCalls = demoStack.services.map (fun s => Call.stop (js "web" ++ js "-" ++ s.id))) ∧
      (∀ c ∈ stopCalls, c.isStop = true) ∧
      (∀ c ∈ startCalls, c.isCreateOrStart = true) ∧
      startResults.map (fun r => r.serviceId) = demoStack.services.map (fun s => s.id) :=
  ⟨by rfl, by rfl, restartStackRoute_stops_before_starts refRuntime demoStore (js "web")
    demoStack (refWorld [js "nginx", js "redis"] []) (by rfl)⟩


/-! ## Runtime adapter: absorption of runtime errors -/

/-- C4 (counterexample): for 32 times "a" and 31 times "b" (a joined name of 64
characters) `stopContainer` raises the name-too-long error, which has no status code, and
leaves the world untouched: no request was sent, so the runtime did not fail. The claim
that it raises only when the runtime fails with another status does not hold there. -/
theorem stopContainer_raises_without_runtime_failure :
    stopContainer refRuntime (repeatChar 'a' 32) (repeatChar 'b' 31) (refWorld [] []) =
      (Except.error (nameTooLongError (repeatChar 'a' 32 ++ js "-" ++ repeatChar 'b' 31)),
        refWorld [] []) ∧
    (refWorld [] []).trace = [] ∧
    (nameTooLongError (repeatChar 'a' 32 ++ js "-" ++ repeatChar 'b' 31)).statusCode =
      none := by
  refine ⟨by rfl, by rfl, by rfl⟩

/-- C4 (amended): `stopContainer` resolves to `true` whenever the runtime's stop call
succeeds or fails with status 304 (already stopped) or 404 (not found); whenever the
runtime's stop call fails with another status it raises the runtime's own error; and it
raises only in two cases: the derived name exceeds 63 characters (the name-too-long error,
with the world untouched), or the runtime's stop call failed with a status other than 304
and 404, the error raised being the runtime's. -/
theorem stopContainer_spec {σ : Type} (rt : Runtime σ) (stackId serviceId : JsString)
    (w : World σ) :
    (∀ name, generateContainerName stackId serviceId = Except.ok name →
      ((∃ u, (rt.stop name w.state).1 = Except.ok u) ∨
        (∃ e, (rt.stop name w.state).1 = Except.error e ∧
          (e.statusCode = some 304 ∨ e.statusCode = some 404))) →
      (stopContainer rt stackId serviceId w).1 = Except.ok true) ∧
    (∀ name e, generateContainerName stackId serviceId = Except.ok name →
      (rt.stop name w.state).1 = Except.error e →
      e.statusCode ≠ some 304 → e.statusCode ≠ some 404 →
      (stopContainer rt stackId serviceId w).1 = Except.error e) ∧
    (∀ e, (stopContainer rt stackId serviceId w).1 = Except.error e →
      (generateContainerName stackId serviceId = Except.error e ∧
        (stopContainer rt stackId serviceId w).2 = w) ∨
      (∃ name, generateContainerName stackId serviceId = Except.ok name ∧
        (rt.stop name w.state).1 = Except.error e ∧
        e.statusCode ≠ some 304 ∧ e.statusCode ≠ some 404)) := by
  refine ⟨?_, ?_, ?_⟩
  · intro name hname hrt
    rw [stopContainer_of_name rt stackId serviceId name w hname]
    rcases hrt with ⟨u, hu⟩ | ⟨e, he, hcode⟩
    · simp only [hu]
    · simp only [he, hcode, if_true]
  · intro name e hname he h304 h404
    rw [stopContainer_of_name rt stackId serviceId name w hname]
    simp only [he, h304, h404, or_self, if_false]
  · intro e he
    cases hname : generateContainerName stackId serviceId with
    | error e2 =>
      rw [stopContainer_of_tooLong rt stackId serviceId e2 w hname] at he ⊢
      cases he
      exact Or.inl ⟨rfl, rfl⟩
    | ok name =>
      rw [stopContainer_of_name rt stackId serviceId name w hname] at he
      refine Or.inr ⟨name, rfl, ?_⟩
      cases hrt : (rt.stop name w.state).1 with
      | ok u => rw [hrt] at he; cases he
      | error e2 =>
        rw [hrt] at he
        simp only [] at he
        by_cases hc : e2.statusCode = some 304 ∨ e2.statusCode = some 404
        · rw [if_pos hc] at he; cases he
        · rw [if_neg hc] at he
          cases he
          exact ⟨rfl, fun h => hc (Or.inl h), fun h => hc (Or.inr h)⟩

/-- Witness for C4: on the reference runtime, stopping a service whose container was never
created (the runtime answers 404) resolves to `true`. -/
theorem stopContainer_spec_witness :
    generateContainerName (js "web") (js "api") = Except.ok (js "web-api") ∧
    (refRuntime.stop (js "web-api") (refWorld [] []).state).1 =
      Except.error (refError 404 "No such container") ∧
    (stopContainer refRuntime (js "web") (js "api") (refWorld [] [])).1 = Except.ok true :=
  ⟨by rfl, by rfl,
    (stopContainer_spec refRuntime (js "web") (js "api") (refWorld [] [])).1 (js "web-api")
      (by rfl) (Or.inr ⟨refError 404 "No such container", by rfl, Or.inr (by rfl)⟩)⟩


/-- C5: for a service whose derived container name is within the 63-character bound, when
the runtime's create call fails with status 409 (already exists) `createContainer` does
not raise: it resolves to the handle of the existing container, whose id is the derived
name `stackId-serviceId`; and when the runtime's create call succeeds it resolves to the
handle the runtime returned. Create succeeds in both cases. -/
theorem createContainer_conflict_is_success {σ : Type} (rt : Runtime σ) (stackId : JsString)
    (service : Service) (w : World σ)
    (hname : (stackId ++ js "-" ++ service.id).length ≤ 63) :
    (∀ e, (rt.createContainer
          (buildContainerOptions (stackId ++ js "-" ++ service.id) service) w.state).1 =
        Except.error e →
      e.statusCode = some 409 →
      (createContainer rt stackId service w).1 =
        Except.ok (getContainer (stackId ++ js "-" ++ service.id)) ∧
      (getContainer (stackId ++ js "-" ++ service.id)).id = stackId ++ js "-" ++ service.id) ∧
    (∀ c, (rt.createContainer
          (buildContainerOptions (stackId ++ js "-" ++ service.id) service) w.state).1 =
        Except.ok c →
      (createContainer rt stackId service w).1 = Except.ok c) := by
  have h := generateContainerName_of_le stackId service.id hname
  rw [createContainer_of_name rt stackId service _ w h]
  constructor
  · intro e he hcode
    rw [he]
    simp only []
    rw [if_pos hcode]
    exact ⟨rfl, rfl⟩
  · intro c hc
    simp only [hc]

/-- Witness for C5: on the reference runtime, creating the service `api` of stack `web`
while a container `web-api` exists (the runtime answers 409) resolves to the handle of
`web-api`. -/
theorem createContainer_conflict_is_success_witness :
    (js "web" ++ js "-" ++ (plainService "api" "nginx").id).length ≤ 63 ∧
    (refRuntime.createContainer
        (buildContainerOptions (js "web" ++ js "-" ++ (plainService "api" "nginx").id)
          (plainService "api" "nginx"))
        (refWorld [js "nginx"] [{ name := js "web-api", running := false }]).state).1 =
      Except.error (refError 409 "Conflict") ∧
    (createContainer refRuntime (js "web") (plainService "api" "nginx")
        (refWorld [js "nginx"] [{ name := js "web-api", running := false }])).1 =
      Except.ok (getContainer (js "web" ++ js "-" ++ (plainService "api" "nginx").id)) ∧
    (getContainer (js "web" ++ js "-" ++ (plainService "api" "nginx").id)).id =
      js "web" ++ js "-" ++ (plainService "api" "nginx").id :=
  ⟨by decide, by rfl,
    (createContainer_conflict_is_success refRuntime (js "web") (plainService "api" "nginx")
      (refWorld [js "nginx"] [{ name := js "web-api", running := false }]) (by decide)).1
      (refError 409 "Conflict") (by rfl) (by rfl)⟩

/-- C6 (counterexample): for 32 times "a" and 31 times "b" (a joined name of 64
characters) `startContainer` raises the name-too-long error and leaves the world, hence
the trace, untouched: no start call is issued, not exactly one. -/
theorem startContainer_issues_no_call_when_name_too_long :
    startContainer refRuntime (repeatChar 'a' 32) (repeatChar 'b' 31) (refWorld [] []) =
      (Except.error (nameTooLongError (repeatChar 'a' 32 ++ js "-" ++ repeatChar 'b' 31)),
        refWorld [] []) ∧
    (startContainer refRuntime (repeatChar 'a' 32) (repeatChar 'b' 31)
      (refWorld [] [])).2.trace = [] := by
  refine ⟨by rfl, by rfl⟩

/-- C6 (amended): when the derived name passes the naming check, `startContainer` sends
exactly one request, the start of the container of that name (no retry), resolves to `true`
when the runtime's start call succeeds or fails with status 304 (already started), and
raises the runtime's own error, unmodified (same message and status code), for every other
failure, status 404 included; when the derived name exceeds 63 characters it sends no
request and raises the name-too-long error. -/
theorem startContainer_spec {σ : Type} (rt : Runtime σ) (stackId serviceId : JsString)
    (w : World σ) :
    (∀ name, generateContainerName stackId serviceId = Except.ok name →
      (startContainer rt stackId serviceId w).2.trace = w.trace ++ [Call.start name] ∧
      (startContainer rt stackId serviceId w).2.state = (rt.start name w.state).2 ∧
      (((∃ u, (rt.start name w.state).1 = Except.ok u) ∨
          (∃ e, (rt.start name w.state).1 = Except.error e ∧ e.statusCode = some 304)) →
        (startContainer rt stackId serviceId w).1 = Except.ok true) ∧
      (∀ e, (rt.start name w.state).1 = Except.error e → e.statusCode ≠ some 304 →
        (startContainer rt stackId serviceId w).1 = Except.error e) ∧
      (∀ e, (rt.start name w.state).1 = Except.error e → e.statusCode = some 404 →
        (startContainer rt stackId serviceId w).1 = Except.error e)) ∧
    (∀ e, generateContainerName stackId serviceId = Except.error e →
      startContainer rt stackId serviceId w = (Except.error e, w)) := by
  constructor
  · intro name hname
    rw [startContainer_of_name rt stackId serviceId name w hname]
    refine ⟨rfl, rfl, ?_, ?_, ?_⟩
    · rintro (⟨u, hu⟩ | ⟨e, he, hcode⟩)
      · simp only [hu]
      · simp only [he, hcode, if_true]
    · intro e he hcode
      simp only [he, hcode, if_false]
    · intro e he hcode
      have h304 : e.statusCode ≠ some 304 := by rw [hcode]; decide
      simp only [he, h304, if_false]
  · intro e he
    exact startContainer_of_tooLong rt stackId serviceId e w he

/-- Witness for C6: on the reference runtime, starting a service whose container does not
exist sends the single request `start web-api` and raises the runtime's 404 error as
it is. -/
theorem startContainer_spec_witness :
    generateContainerName (js "web") (js "api") = Except.ok (js "web-api") ∧
    (refRuntime.start (js "web-api") (refWorld [] []).state).1 =
      Except.error (refError 404 "No such container") ∧
    (startContainer refRuntime (js "web") (js "api") (refWorld [] [])).2.trace =
      (refWorld [] []).trace ++ [Call.start (js "web-api")] ∧
    (startContainer refRuntime (js "web") (js "api") (refWorld [] [])).1 =
      Except.error (refError 404 "No such container") :=
  ⟨by rfl, by rfl,
    ((startContainer_spec refRuntime (js "web") (js "api") (refWorld [] [])).1 (js "web-api")
      (by rfl)).1,
    ((startContainer_spec refRuntime (js "web") (js "api") (refWorld [] [])).1 (js "web-api")
      (by rfl)).2.2.2.2 (refError 404 "No such container") (by rfl) (by rfl)⟩


/-- C7 (counterexample): for 32 times "a" and 31 times "b" (a joined name of 64
characters) `removeContainer` raises the name-too-long error, which has no status code,
and leaves the world untouched: it asks the runtime for nothing and raises although the
runtime did not fail. -/
theorem removeContainer_raises_without_runtime_failure :
    removeContainer refRuntime (repeatChar 'a' 32) (repeatChar 'b' 31) (refWorld [] []) =
      (Except.error (nameTooLongError (repeatChar 'a' 32 ++ js "-" ++ repeatChar 'b' 31)),
        refWorld [] []) ∧
    (removeContainer refRuntime (repeatChar 'a' 32) (repeatChar 'b' 31)
      (refWorld [] [])).2.trace = [] ∧
    (nameTooLongError (repeatChar 'a' 32 ++ js "-" ++ repeatChar 'b' 31)).statusCode =
      none := by
  refine ⟨by rfl, by rfl, by rfl⟩

/-- C7 (amended): when the derived name passes the naming check, `removeContainer` sends
one request, the forced removal (`force: true`) of the container named
`stackId-serviceId`, resolves to `true` when the removal succeeds or fails with status 404
(not found), and raises the runtime's own error for any other failure. It raises only when
the derived name exceeds 63 characters or the runtime fails with a status other than 404.
Consequently, when the runtime answers both removals with success or 404, removing the
same service twice in a row resolves to `true` both times. -/
theorem removeContainer_spec {σ : Type} (rt : Runtime σ) (stackId serviceId : JsString)
    (w : World σ) :
    (∀ name, generateContainerName stackId serviceId = Except.ok name →
      name = stackId ++ js "-" ++ serviceId ∧
      (removeContainer rt stackId serviceId w).2.trace =
        w.trace ++ [Call.remove name { force := true }] ∧
      (removeContainer rt stackId serviceId w).2.state =
        (rt.remove name { force := true } w.state).2 ∧
      (((∃ u, (rt.remove name { force := true } w.state).1 = Except.ok u) ∨
          (∃ e, (rt.remove name { force := true } w.state).1 = Except.error e ∧
            e.statusCode = some 404)) →
        (removeContainer rt stackId serviceId w).1 = Except.ok true) ∧
      (∀ e, (rt.remove name { force := true } w.state).1 = Except.error e →
        e.statusCode ≠ some 404 →
        (removeContainer rt stackId serviceId w).1 = Except.error e)) ∧
    (∀ e, (removeContainer rt stackId serviceId w).1 = Except.error e →
      (generateContainerName stackId serviceId = Except.error e ∧
        (removeContainer rt stackId serviceId w).2 = w) ∨
      (∃ name, generateContainerName stackId serviceId = Except.ok name ∧
        (rt.remove name { force := true } w.state).1 = Except.error e ∧
        e.statusCode ≠ some 404)) ∧
    (∀ name, generateContainerName stackId serviceId = Except.ok name →
      ((∃ u, (rt.remove name { force := true } w.state).1 = Except.ok u) ∨
        (∃ e, (rt.remove name { force := true } w.state).1 = Except.error e ∧
          e.statusCode = some 404)) →
      ((∃ u, (rt.remove name { force := true }
            (rt.remove name { force := true } w.state).2).1 = Except.ok u) ∨
        (∃ e, (rt.remove name { force := true }
            (rt.remove name { force := true } w.state).2).1 = Except.error e ∧
          e.statusCode = some 404)) →
      (removeContainer rt stackId serviceId w).1 = Except.ok true ∧
      (removeContainer rt stackId serviceId (removeContainer rt stackId serviceId w).2).1 =
        Except.ok true) := by
  have key : ∀ (name : JsString) (w0 : World σ),
      generateContainerName stackId serviceId = Except.ok name →
      ((∃ u, (rt.remove name { force := true } w0.state).1 = Except.ok u) ∨
        (∃ e, (rt.remove name { force := true } w0.state).1 = Except.error e ∧
          e.statusCode = some 404)) →
      (removeContainer rt stackId serviceId w0).1 = Except.ok true := by
    intro name w0 hname hrt
    rw [removeContainer_of_name rt stackId serviceId name w0 hname]
    rcases hrt with ⟨u, hu⟩ | ⟨e, he, hcode⟩
    · simp only [hu]
    · simp only [he, hcode, if_true]
  refine ⟨?_, ?_, ?_⟩
  · intro name hname
    refine ⟨?_, ?_, ?_, key name w hname, ?_⟩
    · unfold generateContainerName at hname
      simp only [] at hname
      split at hname
      · cases hname
      · cases hname; rfl
    · rw [removeContainer_of_name rt stackId serviceId name w hname]
    · rw [removeContainer_of_name rt stackId serviceId name w hname]
    · intro e he hcode
      rw [removeContainer_of_name rt stackId serviceId name w hname]
      simp only [he, hcode, if_false]
  · intro e he
    cases hname : generateContainerName stackId serviceId with
    | error e2 =>
      rw [removeContainer_of_tooLong rt stackId serviceId e2 w hname] at he ⊢
      cases he
      exact Or.inl ⟨rfl, rfl⟩
    | ok name =>
      rw [removeContainer_of_name rt stackId serviceId name w hname] at he
      refine Or.inr ⟨name, rfl, ?_⟩
      cases hrt : (rt.remove name { force := true } w.state).1 with
      | ok u => rw [hrt] at he; cases he
      | error e2 =>
        rw [hrt] at he
        simp only [] at he
        by_cases hc : e2.statusCode = some 404
        · rw [if_pos hc] at he; cases he
        · rw [if_neg hc] at he
          cases he
          exact ⟨rfl, hc⟩
  · intro name hname h1 h2
    refine ⟨key name w hname h1, key name _ hname ?_⟩
    rw [removeContainer_of_name rt stackId serviceId name w hname]
    exact h2

/-- Witness for C7: on the reference runtime, removing the service `api` of stack `web`
twice in a row, its container existing and running at first: the first removal succeeds,
the second is answered 404, and both resolve to `true`. -/
theorem removeContainer_spec_witness :
    generateContainerName (js "web") (js "api") = Except.ok (js "web-api") ∧
    (refRuntime.remove (js "web-api") { force := true }
        (refWorld [] [{ name := js "web-api", running := true }]).state).1 = Except.ok () ∧
    (refRuntime.remove (js "web-api") { force := true }
        (refRuntime.remove (js "web-api") { force := true }
          (refWorld [] [{ name := js "web-api", running := true }]).state).2).1 =
      Except.error (refError 404 "No such container") ∧
    (removeContainer refRuntime (js "web") (js "api")
        (refWorld [] [{ name := js "web-api", running := true }])).1 = Except.ok true ∧
    (removeContainer refRuntime (js "web") (js "api")
        (removeContainer refRuntime (js "web") (js "api")
          (refWorld [] [{ name := js "web-api", running := true }])).2).1 = Except.ok true :=
  ⟨by rfl, by rfl, by rfl,
    (removeContainer_spec refRuntime (js "web") (js "api")
      (refWorld [] [{ name := js "web-api", running := true }])).2.2 (js "web-api") (by rfl)
      (Or.inl ⟨(), by rfl⟩)
      (Or.inr ⟨refError 404 "No such container", by rfl, by rfl⟩)⟩


/-- C8: when the inspection of the container named by the naming check succeeds,
`getContainerStatus` resolves to the status whose five fields are, field for field, the
`Status`, `Running`, `StartedAt`, `FinishedAt` and `ExitCode` of the inspected `State`;
when the runtime reports status 404 (the container was never created) it does not raise
but resolves to the synthetic status with `status: 'not-created'`, `running: false` and
`startedAt`, `finishedAt`, `exitCode` all `null`. -/
theorem getContainerStatus_spec {σ : Type} (rt : Runtime σ) (stackId serviceId : JsString)
    (w : World σ) (name : JsString)
    (hname : generateContainerName stackId serviceId = Except.ok name) :
    (∀ data, (rt.inspect name w.state).1 = Except.ok data →
      ∃ status, (getContainerStatus rt stackId serviceId w).1 = Except.ok status ∧
        status.status = data.State.Status ∧
        status.running = data.State.Running ∧
        status.startedAt = some data.State.StartedAt ∧
        status.finishedAt = some data.State.FinishedAt ∧
        status.exitCode = some data.State.ExitCode) ∧
    (∀ e, (rt.inspect name w.state).1 = Except.error e → e.statusCode = some 404 →
      (getContainerStatus rt stackId serviceId w).1 =
        Except.ok { status := js "not-created", running := false, startedAt := none,
                    finishedAt := none, exitCode := none }) := by
  rw [getContainerStatus_of_name rt stackId serviceId name w hname]
  constructor
  · intro data hdata
    rw [hdata]
    exact ⟨_, rfl, rfl, rfl, rfl, rfl, rfl⟩
  · intro e he hcode
    rw [he]
    simp only []
    rw [if_pos hcode]

/-- Witness for C8: on the reference runtime, the status of a service whose container was
never created (the runtime answers 404) is the synthetic not-created status. -/
theorem getContainerStatus_spec_witness :
    generateContainerName (js "web") (js "api") = Except.ok (js "web-api") ∧
    (refRuntime.inspect (js "web-api") (refWorld [] []).state).1 =
      Except.error (refError 404 "No such container") ∧
    (getContainerStatus refRuntime (js "web") (js "api") (refWorld [] [])).1 =
      Except.ok { status := js "not-created", running := false, startedAt := none,
                  finishedAt := none, exitCode := none } :=
  ⟨by rfl, by rfl,
    (getContainerStatus_spec refRuntime (js "web") (js "api") (refWorld [] []) (js "web-api")
      (by rfl)).2 (refError 404 "No such container") (by rfl) (by rfl)⟩

/-- C9 (counterexample): a caller that supplies `tail: 0` does not get the most recent 0
lines asked for: the request sent to the runtime has `tail: 100`. The same happens for a
supplied `NaN`. -/
theorem getContainerLogs_tail_zero_asks_for_100 :
    (getContainerLogs refRuntime (js "web") (js "api") { tail := some (JsNumber.int 0) }
        (refWorld [] [{ name := js "web-api", running := true }])).2.trace =
      [Call.logs (js "web-api")
        { stdout := true, stderr := true, tail := JsNumber.int 100, timestamps := true,
          follow := false }] ∧
    (getContainerLogs refRuntime (js "web") (js "api") { tail := some JsNumber.nan }
        (refWorld [] [{ name := js "web-api", running := true }])).2.trace =
      [Call.logs (js "web-api")
        { stdout := true, stderr := true, tail := JsNumber.int 100, timestamps := true,
          follow := false }] := by
  refine ⟨by rfl, by rfl⟩

/-- C9 (amended): when the derived name passes the naming check, `getContainerLogs` sends
one request, the logs of the container of that name, always with `stdout`, `stderr` and
`timestamps` enabled and `follow` disabled; its `tail` is the supplied tail for every
supplied value other than `0` and `NaN`, and `100` when no tail is supplied or the supplied
one is `0` or `NaN`. It resolves to what the runtime returned, and when the runtime reports
status 404 it resolves to the single line 'Container not found' instead of raising. -/
theorem getContainerLogs_spec {σ : Type} (rt : Runtime σ) (stackId serviceId : JsString)
    (options : LogOptions) (w : World σ) (name : JsString)
    (hname : generateContainerName stackId serviceId = Except.ok name) :
    ∃ tail : JsNumber,
      (getContainerLogs rt stackId serviceId options w).2.trace =
        w.trace ++ [Call.logs name
          { stdout := true, stderr := true, tail := tail, timestamps := true,
            follow := false }] ∧
      (∀ n, options.tail = some n → n ≠ JsNumber.int 0 → n ≠ JsNumber.nan → tail = n) ∧
      (options.tail = none → tail = JsNumber.int 100) ∧
      (options.tail = some (JsNumber.int 0) → tail = JsNumber.int 100) ∧
      (options.tail = some JsNumber.nan → tail = JsNumber.int 100) ∧
      (∀ logStream, (rt.logs name
            { stdout := true, stderr := true, tail := tail, timestamps := true,
              follow := false } w.state).1 = Except.ok logStream →
        (getContainerLogs rt stackId serviceId options w).1 = Except.ok logStream) ∧
      (∀ e, (rt.logs name
            { stdout := true, stderr := true, tail := tail, timestamps := true,
              follow := false } w.state).1 = Except.error e →
        e.statusCode = some 404 →
        (getContainerLogs rt stackId serviceId options w).1 =
          Except.ok (js "Container not found")) := by
  rw [getContainerLogs_of_name rt stackId serviceId name options w hname]
  refine ⟨tailOrDefault options.tail, rfl, ?_, ?_, ?_, ?_, ?_, ?_⟩
  · intro n hn h0 hnan
    rw [hn]
    cases n with
    | nan => exact absurd rfl hnan
    | int i =>
      have hi : i ≠ 0 := fun h => h0 (by rw [h])
      simp [tailOrDefault, JsNumber.truthy, hi]
  · intro hn; rw [hn]; rfl
  · intro hn; rw [hn]; rfl
  · intro hn; rw [hn]; rfl
  · intro logStream hl
    rw [hl]
  · intro e he hcode
    rw [he]
    simp only []
    rw [if_pos hcode]

/-- Witness for C9: on the reference runtime, asking for the logs of a never-created
container with `tail: 25` sends a request with `tail: 25` and, the runtime answering 404,
resolves to the line 'Container not found'. -/
theorem getContainerLogs_spec_witness :
    generateContainerName (js "web") (js "api") = Except.ok (js "web-api") ∧
    (getContainerLogs refRuntime (js "web") (js "api") { tail := some (JsNumber.int 25) }
        (refWorld [] [])).2.trace =
      [Call.logs (js "web-api")
        { stdout := true, stderr := true, tail := JsNumber.int 25, timestamps := true,
          follow := false }] ∧
    (getContainerLogs refRuntime (js "web") (js "api") { tail := some (JsNumber.int 25) }
        (refWorld [] [])).1 = Except.ok (js "Container not found") := by
  obtain ⟨tail, htrace, hsupplied, _, _, _, _, hnotfound⟩ :=
    getContainerLogs_spec refRuntime (js "web") (js "api") { tail := some (JsNumber.int 25) }
      (refWorld [] []) (js "web-api") (by rfl)
  have ht : tail = JsNumber.int 25 := hsupplied (JsNumber.int 25) rfl (by decide) (by decide)
  subst ht
  exact ⟨by rfl, htrace, hnotfound (refError 404 "No such container") (by rfl) (by rfl)⟩


/-! ## Runtime adapter: the create options -/

/-- Reading a key after an assignment: the assigned value at the assigned key, the old
value elsewhere. -/
theorem JsObject.get?_set {V : Type} (o : JsObject V) (k k1 : JsString) (v : V) :
    JsObject.get? (JsObject.set o k v) k1 = if k = k1 then some v else JsObject.get? o k1 := by
  induction o with
  | nil => simp [JsObject.set, JsObject.get?]
  | cons head rest ih =>
    obtain ⟨k0, v0⟩ := head
    by_cases h0 : k0 = k
    · subst h0
      by_cases h1 : k0 = k1 <;> simp [JsObject.set, JsObject.get?, h1]
    · by_cases h1 : k0 = k1
      · subst h1
        have h2 : ¬ k = k0 := fun h => h0 h.symm
        simp [JsObject.set, JsObject.get?, h0, h2]
      · simp [JsObject.set, JsObject.get?, h0, h1, ih]

/-- The `PortBindings` after one turn of the loop over the ports. -/
theorem addPort_bindings (acc : JsObject Unit × JsObject (List PortBinding)) (port : Port) :
    (addPort acc port).2 =
      if hostPortTruthy port.hostPort = true then
        JsObject.set acc.2 (portKey port)
          [PortBinding.mk (numberToString (port.hostPort.getD 0))]
      else acc.2 := by
  unfold addPort
  cases port.hostPort with
  | none => rfl
  | some h => simp only [Option.getD_some]; split <;> rfl

/-- The `ExposedPorts` after one turn of the loop over the ports. -/
theorem addPort_exposed (acc : JsObject Unit × JsObject (List PortBinding)) (port : Port) :
    (addPort acc port).1 = JsObject.set acc.1 (portKey port) () := by
  unfold addPort
  cases port.hostPort with
  | none => rfl
  | some h => simp only []; split <;> rfl

/-- The `PortBindings` built by the loop over the ports: at each key, the binding of the
last port with that key whose host port is truthy. -/
theorem foldl_addPort_bindings (ports : List Port) (key : JsString) :
    JsObject.get? (ports.foldl addPort ([], [])).2 key =
      Option.map (fun port => [PortBinding.mk (numberToString (port.hostPort.getD 0))])
        (ports.filter (fun port =>
          decide (portKey port = key) && hostPortTruthy port.hostPort)).getLast? := by
  induction ports using List.reverseRecOn with
  | nil => rfl
  | append_singleton ports a ih =>
    rw [List.foldl_append, List.filter_append, List.getLast?_append]
    simp only [List.foldl_cons, List.foldl_nil]
    rw [addPort_bindings]
    by_cases ht : hostPortTruthy a.hostPort = true
    · rw [if_pos ht, JsObject.get?_set]
      by_cases hk : portKey a = key
      · have hc : (decide (portKey a = key) && hostPortTruthy a.hostPort) = true := by
          simp [hk, ht]
        rw [if_pos hk, List.filter_cons, if_pos hc]
        rfl
      · have hc : ¬ (decide (portKey a = key) && hostPortTruthy a.hostPort) = true := by
          simp [hk]
        rw [if_neg hk, List.filter_cons, if_neg hc, ih]
        rfl
    · have hc : ¬ (decide (portKey a = key) && hostPortTruthy a.hostPort) = true := by
        simp [ht]
      rw [if_neg ht, List.filter_cons, if_neg hc, ih]
      rfl

/-- The `ExposedPorts` built by the loop over the ports has exactly the keys of the
ports. -/
theorem foldl_addPort_exposed (ports : List Port) (key : JsString) :
    JsObject.get? (ports.foldl addPort ([], [])).1 key = some () ↔
      ∃ port ∈ ports, portKey port = key := by
  induction ports using List.reverseRecOn with
  | nil => simp [JsObject.get?]
  | append_singleton ports a ih =>
    rw [List.foldl_append]
    simp only [List.foldl_cons, List.foldl_nil]
    rw [addPort_exposed, JsObject.get?_set]
    by_cases hk : portKey a = key
    · simp only [hk, if_true, true_iff]
      exact ⟨a, by simp, hk⟩
    · simp only [hk, if_false, ih]
      constructor
      · rintro ⟨p, hp, hpk⟩
        exact ⟨p, by simp [hp], hpk⟩
      · rintro ⟨p, hp, hpk⟩
        rcases List.mem_append.mp hp with h | h
        · exact ⟨p, h, hpk⟩
        · simp at h
          subst h
          exact absurd hpk hk

/-- A name that passes the naming check is the joined name. -/
theorem generateContainerName_ok_eq (stackId serviceId name : JsString)
    (h : generateContainerName stackId serviceId = Except.ok name) :
    name = stackId ++ js "-" ++ serviceId := by
  unfold generateContainerName at h
  simp only [] at h
  split at h
  · cases h
  · cases h; rfl

/-- The `ExposedPorts` of the create options, read at a key. -/
theorem buildContainerOptions_exposedPort (name : JsString) (service : Service)
    (key : JsString) :
    (buildContainerOptions name service).exposedPort key =
      JsObject.get? ((service.containerConfig.ports.getD []).foldl addPort ([], [])).1 key := by
  obtain ⟨sid, sname, image, ⟨environment, ports, volumes⟩⟩ := service
  rcases ports with _ | _ | ⟨p, rest⟩
  · rfl
  · rfl
  · simp [ContainerOptions.exposedPort, buildContainerOptions]

/-- The `PortBindings` of the create options, read at a key. -/
theorem buildContainerOptions_portBinding (name : JsString) (service : Service)
    (key : JsString) :
    (buildContainerOptions name service).portBinding key =
      JsObject.get? ((service.containerConfig.ports.getD []).foldl addPort ([], [])).2 key := by
  obtain ⟨sid, sname, image, ⟨environment, ports, volumes⟩⟩ := service
  rcases ports with _ | _ | ⟨p, rest⟩
  · rcases volumes with _ | _ | ⟨v, vs⟩ <;>
      simp [ContainerOptions.portBinding, buildContainerOptions, JsObject.get?]
  · rcases volumes with _ | _ | ⟨v, vs⟩ <;>
      simp [ContainerOptions.portBinding, buildContainerOptions, JsObject.get?]
  · simp [ContainerOptions.portBinding, buildContainerOptions]

/-- The `Binds` of the create options. -/
theorem buildContainerOptions_binds (name : JsString) (service : Service) :
    (buildContainerOptions name service).binds =
      (service.containerConfig.volumes.getD []).map
        (fun volume => volume.hostPath ++ js ":" ++ volume.containerPath) := by
  obtain ⟨sid, sname, image, ⟨environment, ports, volumes⟩⟩ := service
  rcases ports with _ | _ | ⟨p, rest⟩ <;> rcases volumes with _ | _ | ⟨v, vs⟩ <;>
    simp [ContainerOptions.binds, buildContainerOptions]

/-- The host port of a port is truthy exactly when it is present and not zero. -/
theorem hostPortTruthy_iff (hostPort : Option Nat) :
    hostPortTruthy hostPort = true ↔ ∃ h, hostPort = some h ∧ h ≠ 0 := by
  cases hostPort with
  | none => simp [hostPortTruthy]
  | some h => simp [hostPortTruthy]

/-- C10 (counterexample): a service whose ports are 80 with host port 8080 and 80 with
host port 9090. Both ports declare a host port, but the options handed to the runtime hold
a single binding for "80/tcp", with `HostPort` "9090": the port that declares host port
8080 has no binding. And a port 80 that declares `hostPort: 0` gets no binding at all. -/
theorem createContainer_portBindings_overwritten :
    (createContainer refRuntime (js "web")
        (portsService [{ containerPort := 80, hostPort := some 8080 },
                       { containerPort := 80, hostPort := some 9090 }])
        (refWorld [js "nginx"] [])).2.trace =
      [Call.createContainer
        { name := js "web-api", Image := js "nginx", AttachStdout := true, AttachStderr := true,
          Env := none,
          ExposedPorts := some [(js "80/tcp", ())],
          HostConfig := some
            { PortBindings := some [(js "80/tcp", [{ HostPort := js "9090" }])],
              Binds := none } }] ∧
    (createContainer refRuntime (js "web")
        (portsService [{ containerPort := 80, hostPort := some 0 }])
        (refWorld [js "nginx"] [])).2.trace =
      [Call.createContainer
        { name := js "web-api", Image := js "nginx", AttachStdout := true, AttachStderr := true,
          Env := none,
          ExposedPorts := some [(js "80/tcp", ())],
          HostConfig := some { PortBindings := some [], Binds := none } }] := by
  refine ⟨by rfl, by rfl⟩

/-- C10 (amended): for a service whose derived name passes the naming check,
`createContainer` hands the runtime one options object, in which `name` is the derived
name `stackId-serviceId` and `Image` the service's image; `Env` is the list of "key=value"
strings of the environment entries in entry order (absent when there is no environment);
`ExposedPorts` has the key "<containerPort>/tcp" of every configured port and no other
key; `PortBindings` has an entry at a key exactly when some configured port with that key
has a non-zero host port (a truthy one), and the entry is the single binding whose
`HostPort` is the decimal string of the host port of the last such port; and `Binds` is the list of
"hostPath:containerPath" strings of the volumes in order. -/
theorem createContainer_options {σ : Type} (rt : Runtime σ) (stackId : JsString)
    (service : Service) (w : World σ) (name : JsString)
    (hname : generateContainerName stackId service.id = Except.ok name) :
    ∃ options : ContainerOptions,
      (createContainer rt stackId service w).2.trace =
        w.trace ++ [Call.createContainer options] ∧
      name = stackId ++ js "-" ++ service.id ∧
      options.name = name ∧
      options.Image = service.image ∧
      options.Env = Option.map
        (fun entries => entries.map (fun kv => kv.1 ++ js "=" ++ kv.2))
        service.containerConfig.environment ∧
      (∀ key, options.exposedPort key = some () ↔
        ∃ port ∈ service.containerConfig.ports.getD [],
          numberToString port.containerPort ++ js "/tcp" = key) ∧
      (∀ key, (∃ binding, options.portBinding key = some binding) ↔
        ∃ port ∈ service.containerConfig.ports.getD [],
          numberToString port.containerPort ++ js "/tcp" = key ∧
          ∃ hostPort, port.hostPort = some hostPort ∧ hostPort ≠ 0) ∧
      (∀ key, options.portBinding key =
        Option.map (fun port => [PortBinding.mk (numberToString (port.hostPort.getD 0))])
          ((service.containerConfig.ports.getD []).filter (fun port =>
            decide (numberToString port.containerPort ++ js "/tcp" = key) &&
              hostPortTruthy port.hostPort)).getLast?) ∧
      options.binds = (service.containerConfig.volumes.getD []).map
        (fun volume => volume.hostPath ++ js ":" ++ volume.containerPath) := by
  rw [createContainer_of_name rt stackId service name w hname]
  refine ⟨buildContainerOptions name service, rfl,
    generateContainerName_ok_eq stackId service.id name hname, rfl, rfl, ?_, ?_, ?_, ?_,
    buildContainerOptions_binds name service⟩
  · obtain ⟨sid, sname, image, ⟨environment, ports, volumes⟩⟩ := service
    cases environment <;> rfl
  · intro key
    rw [buildContainerOptions_exposedPort, foldl_addPort_exposed]
    rfl
  · intro key
    rw [buildContainerOptions_portBinding, foldl_addPort_bindings]
    constructor
    · rintro ⟨binding, hb⟩
      cases hl : ((service.containerConfig.ports.getD []).filter (fun port =>
          decide (portKey port = key) && hostPortTruthy port.hostPort)).getLast? with
      | none => rw [hl] at hb; cases hb
      | some port =>
        have hmem := List.mem_of_getLast?_eq_some hl
        rw [List.mem_filter] at hmem
        obtain ⟨hin, hcond⟩ := hmem
        rw [Bool.and_eq_true, decide_eq_true_eq] at hcond
        exact ⟨port, hin, hcond.1, (hostPortTruthy_iff _).mp hcond.2⟩
    · rintro ⟨port, hin, hkey, hhost⟩
      have hmem : port ∈ (service.containerConfig.ports.getD []).filter (fun port =>
          decide (portKey port = key) && hostPortTruthy port.hostPort) := by
        rw [List.mem_filter, Bool.and_eq_true, decide_eq_true_eq]
        exact ⟨hin, hkey, (hostPortTruthy_iff _).mpr hhost⟩
      cases hl : ((service.containerConfig.ports.getD []).filter (fun port =>
          decide (portKey port = key) && hostPortTruthy port.hostPort)).getLast? with
      | none =>
        rw [List.getLast?_eq_none_iff] at hl
        rw [hl] at hmem
        cases hmem
      | some last => exact ⟨_, rfl⟩
  · intro key
    rw [buildContainerOptions_portBinding, foldl_addPort_bindings]
    rfl

/-- Witness for C10: the options handed to the reference runtime for a service with
environment `FOO=bar`, port 80 on host port 8080 and volume `/data` on `/app/data`. -/
theorem createContainer_options_witness :
    generateContainerName (js "web") fullService.id = Except.ok (js "web-api") ∧
    (createContainer refRuntime (js "web") fullService (refWorld [js "nginx"] [])).2.trace =
      [Call.createContainer
        { name := js "web-api", Image := js "nginx", AttachStdout := true, AttachStderr := true,
          Env := some [js "FOO=bar"],
          ExposedPorts := some [(js "80/tcp", ())],
          HostConfig := some
            { PortBindings := some [(js "80/tcp", [{ HostPort := js "8080" }])],
              Binds := some [js "/data:/app/data"] } }] ∧
    ∃ options : ContainerOptions,
      (createContainer refRuntime (js "web") fullService (refWorld [js "nginx"] [])).2.trace =
        (refWorld [js "nginx"] []).trace ++ [Call.createContainer options] ∧
      options.name = js "web-api" ∧
      options.Image = fullService.image ∧
      options.binds = (fullService.containerConfig.volumes.getD []).map
        (fun volume => volume.hostPath ++ js ":" ++ volume.containerPath) := by
  obtain ⟨options, htrace, _, hn, hi, _, _, _, _, hb⟩ :=
    createContainer_options refRuntime (js "web") fullService (refWorld [js "nginx"] [])
      (js "web-api") (by rfl)
  exact ⟨by rfl, by rfl, options, htrace, hn, hi, hb⟩


/-! ## Single-service routes: fail fast -/

/-- The requests `createContainer` sends are never `start` requests. -/
theorem createContainer_trace_no_start {σ : Type} (rt : Runtime σ) (stackId : JsString)
    (service : Service) (w : World σ) :
    ∃ calls, (createContainer rt stackId service w).2.trace = w.trace ++ calls ∧
      ∀ c ∈ calls, c.isStart = false := by
  cases h : generateContainerName stackId service.id with
  | error e =>
    rw [createContainer_of_tooLong rt stackId service e w h]
    exact ⟨[], by simp, by simp⟩
  | ok name =>
    rw [createContainer_of_name rt stackId service name w h]
    exact ⟨[Call.createContainer (buildContainerOptions name service)], rfl,
      by simp [Call.isStart]⟩

/-- The requests `stopContainer` sends are neither `createContainer` nor `start`
requests. -/
theorem stopContainer_trace_only_stop {σ : Type} (rt : Runtime σ)
    (stackId serviceId : JsString) (w : World σ) :
    ∃ calls, (stopContainer rt stackId serviceId w).2.trace = w.trace ++ calls ∧
      ∀ c ∈ calls, c.isCreateOrStart = false ∧ c.isStart = false := by
  cases h : generateContainerName stackId serviceId with
  | error e =>
    rw [stopContainer_of_tooLong rt stackId serviceId e w h]
    exact ⟨[], by simp, by simp⟩
  | ok name =>
    rw [stopContainer_of_name rt stackId serviceId name w h]
    exact ⟨[Call.stop name], rfl, by simp [Call.isCreateOrStart, Call.isStart]⟩

/-- C11: for a stored stack and one of its services, the single-service restart route runs
stop, then create, then start and stops at the first failure, which it reports as an error
(status 500, `DOCKER_API_ERROR`, with the failure's message) instead of a per-step result:
when the stop raises, the route ends in the world the stop left, in which no create and no
start was requested; when the create raises, it ends in the world the create left, with no
start requested; the success body `{stackId, serviceId, action, success, message}` is sent
exactly when all three steps resolved. The single-service start route likewise runs create
then start, and ends without a start request when the create raises. -/
theorem serviceRoutes_fail_fast {σ : Type} (rt : Runtime σ)
    (getStack : JsString → Except JsError (Option Stack)) (stackId serviceId : JsString)
    (stack : Stack) (service : Service) (w : World σ)
    (hstack : getStack stackId = Except.ok (some stack))
    (hservice : stack.services.find? (fun s => decide (s.id = serviceId)) = some service) :
    (∀ e w1, stopContainer rt stackId serviceId w = (Except.error e, w1) →
      restartServiceRoute rt getStack stackId serviceId w =
        (Response.error 500 (js "DOCKER_API_ERROR")
          (js "Failed to restart service: " ++ e.message), w1) ∧
      ∃ calls, w1.trace = w.trace ++ calls ∧ ∀ c ∈ calls, c.isCreateOrStart = false) ∧
    (∀ b w1 e w2, stopContainer rt stackId serviceId w = (Except.ok b, w1) →
      createContainer rt stackId service w1 = (Except.error e, w2) →
      restartServiceRoute rt getStack stackId serviceId w =
        (Response.error 500 (js "DOCKER_API_ERROR")
          (js "Failed to restart service: " ++ e.message), w2) ∧
      ∃ calls, w2.trace = w.trace ++ calls ∧ ∀ c ∈ calls, c.isStart = false) ∧
    (∀ b w1 c w2 e w3, stopContainer rt stackId serviceId w = (Except.ok b, w1) →
      createContainer rt stackId service w1 = (Except.ok c, w2) →
      startContainer rt stackId serviceId w2 = (Except.error e, w3) →
      restartServiceRoute rt getStack stackId serviceId w =
        (Response.error 500 (js "DOCKER_API_ERROR")
          (js "Failed to restart service: " ++ e.message), w3)) ∧
    (∀ body wEnd, restartServiceRoute rt getStack stackId serviceId w =
        (Response.json 200 body, wEnd) ↔
      body = { stackId := stackId, serviceId := serviceId, action := js "restart",
               success := true, message := js "Service restarted successfully" } ∧
      ∃ b w1 c w2 b2, stopContainer rt stackId serviceId w = (Except.ok b, w1) ∧
        createContainer rt stackId service w1 = (Except.ok c, w2) ∧
        startContainer rt stackId serviceId w2 = (Except.ok b2, wEnd)) ∧
    (∀ e w1, createContainer rt stackId service w = (Except.error e, w1) →
      startServiceRoute rt getStack stackId serviceId w =
        (Response.error 500 (js "DOCKER_API_ERROR")
          (js "Failed to start service: " ++ e.message), w1) ∧
      ∃ calls, w1.trace = w.trace ++ calls ∧ ∀ c ∈ calls, c.isStart = false) ∧
    (∀ c w1 e w2, createContainer rt stackId service w = (Except.ok c, w1) →
      startContainer rt stackId serviceId w1 = (Except.error e, w2) →
      startServiceRoute rt getStack stackId serviceId w =
        (Response.error 500 (js "DOCKER_API_ERROR")
          (js "Failed to start service: " ++ e.message), w2)) ∧
    (∀ body wEnd, startServiceRoute rt getStack stackId serviceId w =
        (Response.json 200 body, wEnd) ↔
      body = { stackId := stackId, serviceId := serviceId, action := js "start",
               success := true, message := js "Service started successfully" } ∧
      ∃ c w1 b, createContainer rt stackId service w = (Except.ok c, w1) ∧
        startContainer rt stackId serviceId w1 = (Except.ok b, wEnd)) := by
  refine ⟨?_, ?_, ?_, ?_, ?_, ?_, ?_⟩
  · intro e w1 hstop
    refine ⟨by simp only [restartServiceRoute, hstack, hservice, hstop], ?_⟩
    obtain ⟨calls, hc, hk⟩ := stopContainer_trace_only_stop rt stackId serviceId w
    rw [hstop] at hc
    exact ⟨calls, hc, fun c h => (hk c h).1⟩
  · intro b w1 e w2 hstop hcreate
    refine ⟨by simp only [restartServiceRoute, hstack, hservice, hstop, hcreate], ?_⟩
    obtain ⟨cs1, hc1, hk1⟩ := stopContainer_trace_only_stop rt stackId serviceId w
    obtain ⟨cs2, hc2, hk2⟩ := createContainer_trace_no_start rt stackId service w1
    rw [hstop] at hc1
    rw [hcreate] at hc2
    simp only [] at hc1 hc2
    refine ⟨cs1 ++ cs2, by rw [hc2, hc1, List.append_assoc], ?_⟩
    intro c hc
    rcases List.mem_append.mp hc with h | h
    · exact (hk1 c h).2
    · exact hk2 c h
  · intro b w1 c w2 e w3 hstop hcreate hstart
    simp only [restartServiceRoute, hstack, hservice, hstop, hcreate, hstart]
  · intro body wEnd
    simp only [restartServiceRoute, hstack, hservice]
    rcases hstop : stopContainer rt stackId serviceId w with ⟨e | b, w1⟩
    · simp only []
      constructor
      · intro h; cases h
      · rintro ⟨_, b, w1', c, w2, b2, h1, _⟩; cases h1
    · simp only []
      rcases hcreate : createContainer rt stackId service w1 with ⟨e | c, w2⟩
      · simp only []
        constructor
        · intro h; cases h
        · rintro ⟨_, b', w1', c, w2', b2, h1, h2, _⟩
          cases h1
          rw [hcreate] at h2
          cases h2
      · simp only []
        rcases hstart : startContainer rt stackId serviceId w2 with ⟨e | b2, w3⟩
        · simp only []
          constructor
          · intro h; cases h
          · rintro ⟨_, b', w1', c', w2', b2, h1, h2, h3⟩
            cases h1
            rw [hcreate] at h2
            cases h2
            rw [hstart] at h3
            cases h3
        · simp only []
          constructor
          · intro h
            cases h
            exact ⟨rfl, b, w1, c, w2, b2, rfl, hcreate, hstart⟩
          · rintro ⟨hbody, b', w1', c', w2', b2', h1, h2, h3⟩
            cases h1
            rw [hcreate] at h2
            cases h2
            rw [hstart] at h3
            cases h3
            rw [hbody]
  · intro e w1 hcreate
    refine ⟨by simp only [startServiceRoute, hstack, hservice, hcreate], ?_⟩
    obtain ⟨calls, hc, hk⟩ := createContainer_trace_no_start rt stackId service w
    rw [hcreate] at hc
    exact ⟨calls, hc, hk⟩
  · intro c w1 e w2 hcreate hstart
    simp only [startServiceRoute, hstack, hservice, hcreate, hstart]
  · intro body wEnd
    simp only [startServiceRoute, hstack, hservice]
    rcases hcreate : createContainer rt stackId service w with ⟨e | c, w1⟩
    · simp only []
      constructor
      · intro h; cases h
      · rintro ⟨_, c, w1', b, h1, _⟩; cases h1
    · simp only []
      rcases hstart : startContainer rt stackId serviceId w1 with ⟨e | b, w2⟩
      · simp only []
        constructor
        · intro h; cases h
        · rintro ⟨_, c', w1', b, h1, h2⟩
          cases h1
          rw [hstart] at h2
          cases h2
      · simp only []
        constructor
        · intro h
          cases h
          exact ⟨rfl, c, w1, b, rfl, hstart⟩
        · rintro ⟨hbody, c', w1', b', h1, h2⟩
          cases h1
          rw [hstart] at h2
          cases h2
          rw [hbody]

/-- Witness for C11: the restart of service `api` of the stored stack `web` on the
reference runtime when the image is missing: the stop is answered 404 and absorbed, the
create raises, and the route reports that failure after the two requests `stop` and
`createContainer`, without a `start`. -/
theorem serviceRoutes_fail_fast_witness :
    demoStore (js "web") = Except.ok (some demoStack) ∧
    demoStack.services.find? (fun s => decide (s.id = js "api")) =
      some (plainService "api" "nginx") ∧
    (restartServiceRoute refRuntime demoStore (js "web") (js "api") (refWorld [] [])).2.trace =
      [Call.stop (js "web-api"),
       Call.createContainer (buildContainerOptions (js "web-api") (plainService "api" "nginx"))] ∧
    restartServiceRoute refRuntime demoStore (js "web") (js "api") (refWorld [] []) =
      (Response.error 500 (js "DOCKER_API_ERROR")
        (js "Failed to restart service: " ++ (refError 404 "No such image").message),
        (createContainer refRuntime (js "web") (plainService "api" "nginx")
          (stopContainer refRuntime (js "web") (js "api") (refWorld [] [])).2).2) :=
  ⟨by rfl, by rfl, by rfl,
    ((serviceRoutes_fail_fast refRuntime demoStore (js "web") (js "api") demoStack
      (plainService "api" "nginx") (refWorld [] []) (by rfl) (by rfl)).2.1
      true (stopContainer refRuntime (js "web") (js "api") (refWorld [] [])).2
      (refError 404 "No such image")
      (createContainer refRuntime (js "web") (plainService "api" "nginx")
        (stopContainer refRuntime (js "web") (js "api") (refWorld [] [])).2).2
      (by rfl) (by rfl)).1⟩


/-! ## Stack status -/

/-- The loop of `getStackStatus` only appends to the results built so far. -/
theorem getStackStatusLoop_acc {σ : Type} (rt : Runtime σ) (stackId : JsString)
    (services : List Service) (acc : List StackStatusEntry) (w : World σ) :
    getStackStatusLoop rt stackId services acc w =
      (acc ++ (getStackStatusLoop rt stackId services [] w).1,
        (getStackStatusLoop rt stackId services [] w).2) := by
  induction services generalizing acc w with
  | nil => simp [getStackStatusLoop]
  | cons s rest ih =>
    simp only [getStackStatusLoop]
    split
    · rw [ih, ih ([] ++ _)]; simp
    · rw [ih, ih ([] ++ _)]; simp

/-- The loop of `getStackStatus` over a concatenation runs the second list in the world
left by the first. -/
theorem getStackStatusLoop_append {σ : Type} (rt : Runtime σ) (stackId : JsString)
    (xs ys : List Service) (acc : List StackStatusEntry) (w : World σ) :
    getStackStatusLoop rt stackId (xs ++ ys) acc w =
      getStackStatusLoop rt stackId ys (getStackStatusLoop rt stackId xs acc w).1
        (getStackStatusLoop rt stackId xs acc w).2 := by
  induction xs generalizing acc w with
  | nil => simp [getStackStatusLoop]
  | cons s rest ih =>
    simp only [List.cons_append, getStackStatusLoop]
    split
    · exact ih _ _
    · exact ih _ _

/-- The loop of `getStackStatus` adds one entry per service. -/
theorem getStackStatusLoop_length {σ : Type} (rt : Runtime σ) (stackId : JsString)
    (services : List Service) (acc : List StackStatusEntry) (w : World σ) :
    (getStackStatusLoop rt stackId services acc w).1.length =
      acc.length + services.length := by
  induction services generalizing acc w with
  | nil => simp [getStackStatusLoop]
  | cons s rest ih =>
    simp only [getStackStatusLoop]
    split
    · rw [ih]; simp; omega
    · rw [ih]; simp; omega

/-- The entry of the loop of `getStackStatus` at position `i` is that of a run on the
single service `services[i]` in the world left by the first `i` services. -/
theorem getStackStatusLoop_entry {σ : Type} (rt : Runtime σ) (stackId : JsString)
    (services : List Service) (w : World σ) (i : Nat) (hi : i < services.length) :
    (getStackStatusLoop rt stackId services [] w).1[i]? =
        (getStackStatusLoop rt stackId [services[i]] []
          (getStackStatusLoop rt stackId (services.take i) [] w).2).1[0]? := by
  have hsplit : services = services.take i ++ ([services[i]] ++ services.drop (i + 1)) := by
    rw [List.singleton_append, ← List.drop_eq_getElem_cons hi, List.take_append_drop]
  have hlen : (getStackStatusLoop rt stackId (services.take i) [] w).1.length = i := by
    rw [getStackStatusLoop_length]; simp; omega
  have hB : ∀ acc, getStackStatusLoop rt stackId [services[i]] acc
        (getStackStatusLoop rt stackId (services.take i) [] w).2 =
      (acc ++ (getStackStatusLoop rt stackId [services[i]] []
          (getStackStatusLoop rt stackId (services.take i) [] w).2).1,
        (getStackStatusLoop rt stackId [services[i]] []
          (getStackStatusLoop rt stackId (services.take i) [] w).2).2) :=
    fun acc => getStackStatusLoop_acc rt stackId _ acc _
  have h1 : (getStackStatusLoop rt stackId [services[i]] []
      (getStackStatusLoop rt stackId (services.take i) [] w).2).1.length = 1 := by
    rw [getStackStatusLoop_length]; simp
  have hall : getStackStatusLoop rt stackId services [] w =
      getStackStatusLoop rt stackId (services.drop (i + 1))
        ((getStackStatusLoop rt stackId (services.take i) [] w).1 ++
          (getStackStatusLoop rt stackId [services[i]] []
            (getStackStatusLoop rt stackId (services.take i) [] w).2).1)
        (getStackStatusLoop rt stackId [services[i]] []
          (getStackStatusLoop rt stackId (services.take i) [] w).2).2 := by
    conv_lhs => rw [hsplit]
    rw [getStackStatusLoop_append, getStackStatusLoop_append, hB]
  rw [hall, getStackStatusLoop_acc]
  simp only []
  rw [List.append_assoc, List.getElem?_append_right (by omega), hlen, Nat.sub_self,
    List.getElem?_append_left (by omega)]

/-- C13: `getStackStatus` never raises; its result has exactly one entry per service, in
input order, carrying that service's id and name. Entry `i` is decided by the inspection
of service `i` alone, run in the world the earlier inspections left, whether they failed
or not: when `getContainerStatus` raises, the entry has status "error" and the failure's
message; when it resolves, the entry carries the five status fields it returned. With
three services of which the inspection of the second fails, the first and third entries
carry their own containers' status. -/
theorem getStackStatus_entries :
    (∀ {σ : Type} (rt : Runtime σ) (stackId : JsString) (services : List Service)
        (w : World σ),
      ∃ entries : List StackStatusEntry,
        (getStackStatus rt stackId services w).1 = Except.ok entries ∧
        entries.length = services.length ∧
        ∀ (i : Nat) (hi : i < services.length),
          ∃ entry, entries[i]? = some entry ∧
            entry.serviceId = services[i].id ∧
            entry.serviceName = services[i].name ∧
            (∀ e w1, getContainerStatus rt stackId services[i].id
                  (getStackStatus rt stackId (services.take i) w).2 = (Except.error e, w1) →
                entry.status = js "error" ∧ entry.error = some e.message) ∧
            (∀ status w1, getContainerStatus rt stackId services[i].id
                  (getStackStatus rt stackId (services.take i) w).2 = (Except.ok status, w1) →
                entry.status = status.status ∧
                entry.running = some status.running ∧
                entry.startedAt = some status.startedAt ∧
                entry.finishedAt = some status.finishedAt ∧
                entry.exitCode = some status.exitCode ∧
                entry.error = none)) ∧
    (getStackStatus refRuntime (js "web")
        [plainService "a" "nginx", plainService (String.mk (List.replicate 60 'b')) "nginx",
         plainService "c" "redis"]
        (refWorld [] [{ name := js "web-a", running := true }])).1 =
      Except.ok
        [{ serviceId := js "a", serviceName := js "a", status := js "running",
           running := some true, startedAt := some (some (js "")),
           finishedAt := some (some (js "")), exitCode := some (some 0), error := none },
         { serviceId := repeatChar 'b' 60, serviceName := repeatChar 'b' 60,
           status := js "error", running := none, startedAt := none, finishedAt := none,
           exitCode := none,
           error := some (nameTooLongError (js "web-" ++ repeatChar 'b' 60)).message },
         { serviceId := js "c", serviceName := js "c", status := js "not-created",
           running := some false, startedAt := some none, finishedAt := some none,
           exitCode := some none, error := none }] := by
  refine ⟨?_, by rfl⟩
  intro σ rt stackId services w
  refine ⟨(getStackStatusLoop rt stackId services [] w).1, rfl, ?_, ?_⟩
  · rw [getStackStatusLoop_length]; simp
  · intro i hi
    rw [getStackStatusLoop_entry rt stackId services w i hi]
    simp only [getStackStatus]
    generalize (getStackStatusLoop rt stackId (services.take i) [] w).2 = wi
    generalize services[i] = s
    rcases hs : getContainerStatus rt stackId s.id wi with ⟨e | status, w1⟩
    · refine ⟨_, by simp only [getStackStatusLoop, hs]; rfl, rfl, rfl, ?_, ?_⟩
      · intro e2 w2 h
        cases h
        exact ⟨rfl, rfl⟩
      · intro st w2 h
        cases h
    · refine ⟨_, by simp only [getStackStatusLoop, hs]; rfl, rfl, rfl, ?_, ?_⟩
      · intro e2 w2 h
        cases h
      · intro st w2 h
        cases h
        exact ⟨rfl, rfl, rfl, rfl, rfl, rfl⟩


/-! ## Definition store: the statements -/

/-- The transaction of `createStack` and `updateStack` on a connection that has none
open. -/
theorem Database.begin_of_idle (db : Database) (hT : db.inTransaction = false) :
    db.begin = { db with inTransaction := true } := by
  simp [Database.begin, Database.beginTransaction, hT]

/-- After the `BEGIN TRANSACTION` of `createStack` and `updateStack` a transaction is
open, whether the statement succeeded or not. -/
theorem Database.begin_inTransaction (db : Database) : db.begin.inTransaction = true := by
  unfold Database.begin Database.beginTransaction
  by_cases h : db.inTransaction = true
  · simp [h, Database.escape]
  · simp [h]

/-- An `INSERT` into `services` that succeeds appends its row and changes nothing else. -/
theorem Database.insertService_ok (db db1 : Database)
    (id stackId name image containerConfig now : JsString)
    (h : db.insertService id stackId name image containerConfig now = Except.ok db1) :
    db1 = { db with serviceRows := db.serviceRows ++
      [{ id := id, stack_id := stackId, name := name, image := image,
         container_config := containerConfig, created_at := now, updated_at := now }] } := by
  unfold Database.insertService at h
  split at h
  · cases h
  · split at h
    · cases h
    · cases h; rfl

/-- The inserts of `insertServices` leave the stack rows and the two connection flags as
they are, and only add service rows and escaped errors behind those there were. -/
theorem Database.insertServices_frame (host : Host) (now stackId : JsString)
    (services : List ServiceDefinition) (db : Database) :
    (Database.insertServices host now stackId services db).stackRows = db.stackRows ∧
    (Database.insertServices host now stackId services db).foreignKeys = db.foreignKeys ∧
    (Database.insertServices host now stackId services db).inTransaction =
      db.inTransaction ∧
    (∃ added, (Database.insertServices host now stackId services db).serviceRows =
      db.serviceRows ++ added) ∧
    (∃ more, (Database.insertServices host now stackId services db).escaped =
      db.escaped ++ more) := by
  induction services generalizing db with
  | nil => exact ⟨rfl, rfl, rfl, ⟨[], by simp [Database.insertServices]⟩,
      ⟨[], by simp [Database.insertServices]⟩⟩
  | cons d rest ih =>
    simp only [Database.insertServices]
    cases hins : db.insertService d.id stackId d.name d.image
        (host.stringify (d.containerConfig.getD emptyConfig)) now with
    | error e =>
      obtain ⟨h1, h2, h3, ⟨added, h4⟩, ⟨more, h5⟩⟩ := ih (db.escape e)
      simp only
      refine ⟨h1, h2, h3, ⟨added, h4⟩, ⟨e :: more, ?_⟩⟩
      rw [h5]
      simp [Database.escape]
    | ok db1 =>
      obtain ⟨h1, h2, h3, ⟨added, h4⟩, ⟨more, h5⟩⟩ := ih db1
      have hdb1 := Database.insertService_ok db db1 _ _ _ _ _ _ hins
      simp only
      rw [h1, h2, h3, h4, h5, hdb1]
      exact ⟨rfl, rfl, rfl, ⟨_, List.append_assoc _ _ _⟩, ⟨more, rfl⟩⟩

/-- A service row that is stored stays stored through the inserts of `insertServices`. -/
theorem Database.insertServices_keeps (host : Host) (now stackId : JsString)
    (services : List ServiceDefinition) (db : Database) (key id : JsString)
    (h : db.hasService key id = true) :
    (Database.insertServices host now stackId services db).hasService key id = true := by
  obtain ⟨_, _, _, ⟨added, hrows⟩, _⟩ :=
    Database.insertServices_frame host now stackId services db
  unfold Database.hasService at h ⊢
  rw [hrows, List.any_append, h, Bool.true_or]

/-- After the inserts of `insertServices`, every service of the list has a service row
under the stack identifier, when the foreign key is satisfied or not enforced: the row it
had, or the row its insert wrote. -/
theorem Database.insertServices_hasService (host : Host) (now stackId : JsString)
    (services : List ServiceDefinition) (db : Database)
    (hfk : db.foreignKeys = false ∨ db.hasStack stackId = true) :
    ∀ service ∈ services,
      (Database.insertServices host now stackId services db).hasService stackId service.id =
        true := by
  induction services generalizing db with
  | nil => intro service hmem; cases hmem
  | cons d rest ih =>
    intro service hmem
    simp only [Database.insertServices]
    cases hins : db.insertService d.id stackId d.name d.image
        (host.stringify (d.containerConfig.getD emptyConfig)) now with
    | error e =>
      simp only
      have hfk2 : (db.escape e).foreignKeys = false ∨ (db.escape e).hasStack stackId = true :=
        hfk
      rcases List.mem_cons.mp hmem with rfl | hrest
      · apply Database.insertServices_keeps
        have hfk3 : (db.foreignKeys && !db.hasStack stackId) = false := by
          rcases hfk with h | h <;> simp [h]
        unfold Database.insertService at hins
        by_cases hhas : db.hasService stackId service.id = true
        · exact hhas
        · simp only [hhas, hfk3, Bool.false_eq_true, if_false] at hins
          cases hins
      · exact ih (db.escape e) hfk2 service hrest
    | ok db1 =>
      simp only
      have hdb1 := Database.insertService_ok db db1 _ _ _ _ _ _ hins
      have hfk2 : db1.foreignKeys = false ∨ db1.hasStack stackId = true := by
        rw [hdb1]; exact hfk
      rcases List.mem_cons.mp hmem with rfl | hrest
      · apply Database.insertServices_keeps
        rw [hdb1]
        simp [Database.hasService]
      · exact ih db1 hfk2 service hrest

/-- A service of the list whose identifier has no service row under the stack identifier
gets the row of its own definition, when the identifiers of the list are pairwise
distinct and the foreign key is satisfied or not enforced. -/
theorem Database.insertServices_new_row (host : Host) (now stackId : JsString)
    (services : List ServiceDefinition) (db : Database)
    (hfk : db.foreignKeys = false ∨ db.hasStack stackId = true)
    (hids : (services.map (fun s => s.id)).Nodup)
    (service : ServiceDefinition) (hmem : service ∈ services)
    (hfree : db.hasService stackId service.id = false) :
    serviceRowOf host now stackId service ∈
      (Database.insertServices host now stackId services db).serviceRows := by
  induction services generalizing db with
  | nil => cases hmem
  | cons d rest ih =>
    rw [List.map_cons, List.nodup_cons] at hids
    have hfk3 : (db.foreignKeys && !db.hasStack stackId) = false := by
      rcases hfk with h | h <;> simp [h]
    simp only [Database.insertServices]
    rcases List.mem_cons.mp hmem with rfl | hrest
    · have hins : db.insertService service.id stackId service.name service.image
          (host.stringify (service.containerConfig.getD emptyConfig)) now =
          Except.ok { db with serviceRows := db.serviceRows ++
            [serviceRowOf host now stackId service] } := by
        simp only [Database.insertService, hfree, hfk3, Bool.false_eq_true, if_false]
        rfl
      rw [hins]
      simp only
      obtain ⟨_, _, _, ⟨added, hrows⟩, _⟩ := Database.insertServices_frame host now stackId rest
        { db with serviceRows := db.serviceRows ++ [serviceRowOf host now stackId service] }
      rw [hrows]
      simp
    · have hne : d.id ≠ service.id := by
        intro heq
        apply hids.1
        rw [heq]
        exact List.mem_map.mpr ⟨service, hrest, rfl⟩
      cases hins : db.insertService d.id stackId d.name d.image
          (host.stringify (d.containerConfig.getD emptyConfig)) now with
      | error e =>
        simp only
        exact ih (db.escape e) hfk hids.2 hrest hfree
      | ok db1 =>
        simp only
        have hdb1 := Database.insertService_ok db db1 _ _ _ _ _ _ hins
        refine ih db1 (by rw [hdb1]; exact hfk) hids.2 hrest ?_
        rw [hdb1]
        unfold Database.hasService at hfree ⊢
        simp only [List.any_append, hfree, Bool.false_or, List.any_cons, List.any_nil,
          Bool.or_false, Bool.and_eq_false_imp, decide_eq_true_eq, decide_eq_false_iff_not]
        intro _
        exact hne

/-- The inserts of `insertServices` all succeed, and append one row per service in order,
when no stored row of that stack has the identifier of a service to insert, the
identifiers to insert are pairwise distinct, and the foreign key is satisfied or not
enforced. -/
theorem Database.insertServices_ok (host : Host) (now stackId : JsString)
    (services : List ServiceDefinition) (db : Database)
    (h1 : ∀ r ∈ db.serviceRows, r.stack_id = stackId → r.id ∉ services.map (fun s => s.id))
    (h2 : (services.map (fun s => s.id)).Nodup)
    (h3 : db.foreignKeys = false ∨ db.hasStack stackId = true) :
    Database.insertServices host now stackId services db =
      { db with
        serviceRows := db.serviceRows ++ services.map (serviceRowOf host now stackId) } := by
  induction services generalizing db with
  | nil => simp [Database.insertServices]
  | cons d rest ih =>
    have hfree : db.hasService stackId d.id = false := by
      unfold Database.hasService
      rw [List.any_eq_false]
      intro r hr hcond
      rw [Bool.and_eq_true, decide_eq_true_eq, decide_eq_true_eq] at hcond
      exact h1 r hr hcond.1 (by rw [hcond.2]; simp)
    have hfk : (db.foreignKeys && !db.hasStack stackId) = false := by
      rcases h3 with h | h <;> simp [h]
    rw [List.map_cons, List.nodup_cons] at h2
    simp only [Database.insertServices, Database.insertService, hfree, hfk, Bool.false_eq_true,
      if_false]
    rw [ih]
    · simp [serviceRowOf]
    · intro r hr hsid
      simp only [List.mem_append, List.mem_singleton] at hr
      rcases hr with hr | hr
      · intro hmem
        exact h1 r hr hsid (by rw [List.map_cons]; exact List.mem_cons_of_mem _ hmem)
      · rw [hr]
        exact h2.1
    · exact h2.2
    · exact h3

/-- No row of `stacks` has that primary key: the lookup finds nothing. -/
theorem Database.selectStack_of_not_hasStack (db : Database) (id : JsString)
    (h : db.hasStack id = false) : db.selectStack id = none := by
  unfold Database.hasStack at h
  unfold Database.selectStack
  rw [List.find?_eq_none]
  rw [List.any_eq_false] at h
  exact h

/-- What `createStack` does for an identifier that has no stack row, when no stored service
row of that identifier collides with the definition and the definition's service
identifiers are pairwise distinct: it resolves to the definition and appends the stack row
and one service row per service. -/
theorem Database.createStack_fresh (host : Host) (now : JsString) (stackData : StackDefinition)
    (db : Database) (hT : db.inTransaction = false) (hnew : db.hasStack stackData.id = false)
    (h1 : ∀ r ∈ db.serviceRows, r.stack_id = stackData.id →
      r.id ∉ stackData.services.map (fun s => s.id))
    (h2 : (stackData.services.map (fun s => s.id)).Nodup) :
    Database.createStack host now stackData db =
      (Settled.resolved stackData,
        { db with
          stackRows := db.stackRows ++
            [{ id := stackData.id, name := stackData.name, created_at := now,
               updated_at := now }],
          serviceRows := db.serviceRows ++
            stackData.services.map (serviceRowOf host now stackData.id) }) := by
  obtain ⟨stackRows, serviceRows, foreignKeys, inTransaction, escaped⟩ := db
  simp only at hT hnew h1
  subst hT
  unfold Database.createStack
  rw [Database.begin_of_idle _ rfl]
  simp only [Database.hasStack] at hnew
  simp only [Database.insertStackWithCallback, Database.insertStack, Database.hasStack, hnew,
    Bool.false_eq_true, if_false]
  rw [Database.insertServices_ok]
  · simp [Database.commitTransaction]
  · exact h1
  · exact h2
  · right
    simp [Database.hasStack]


/-! ## Definition store: create, read, update, delete -/

/-- What `getStack` resolves right after a `createStack` as in `createStack_fresh`, when
the identifier had no service row at all: the new stack row with, as services, the new
rows in the order the host returns them. -/
theorem Database.getStack_after_createStack (host : Host) (now : JsString)
    (stackData : StackDefinition) (db : Database) (hnew : db.hasStack stackData.id = false)
    (hrows : ∀ r ∈ db.serviceRows, r.stack_id ≠ stackData.id) :
    Database.getStack host
        { db with
          stackRows := db.stackRows ++
            [{ id := stackData.id, name := stackData.name, created_at := now,
               updated_at := now }],
          serviceRows := db.serviceRows ++
            stackData.services.map (serviceRowOf host now stackData.id) }
        stackData.id =
      Except.ok (some
        { id := stackData.id,
          name := stackData.name,
          services :=
            (host.selectOrder (stackData.services.map (serviceRowOf host now stackData.id))).map
              (fun service =>
                { id := service.id,
                  name := service.name,
                  image := service.image,
                  containerConfig := host.parse service.container_config,
                  status := js "stopped",
                  details := some (js "/api/v1/stacks/" ++ stackData.id ++ js "/services/" ++
                    service.id),
                  logs := js "/api/v1/stacks/" ++ stackData.id ++ js "/services/" ++
                    service.id ++ js "/logs" }),
          createdAt := now,
          updatedAt := now }) := by
  have hsel := Database.selectStack_of_not_hasStack db stackData.id hnew
  unfold Database.selectStack at hsel
  have hold : db.serviceRows.filter (fun row => decide (row.stack_id = stackData.id)) = [] := by
    rw [List.filter_eq_nil_iff]
    intro r hr
    simpa using hrows r hr
  have hnewRows : (stackData.services.map (serviceRowOf host now stackData.id)).filter
      (fun row => decide (row.stack_id = stackData.id)) =
      stackData.services.map (serviceRowOf host now stackData.id) := by
    rw [List.filter_eq_self]
    intro r hr
    rw [List.mem_map] at hr
    obtain ⟨s, _, hs⟩ := hr
    rw [← hs]
    simp [serviceRowOf]
  unfold Database.getStack Database.selectStack Database.selectServices
  simp only [List.find?_append, hsel, Option.none_or, List.find?_cons, decide_True,
    List.filter_append, hold, hnewRows, List.nil_append]

/-- C15 (amended): for a stack definition with pairwise distinct service identifiers whose
identifier is not yet stored (no stack row and no service row carries it), `createStack`
resolves to the definition and `getStack` of that identifier then resolves to a stack with
the same id and name and the same services, each with the same id, name and image and
with the container configuration that `JSON.parse` reads back from the stored text (the
definition's own configuration when `JSON.parse` inverts `JSON.stringify` on it, and the
empty configuration for a service defined without one). The services come in the order in
which the query of `getStack` returns the rows: a rearrangement of the insertion order,
and the insertion order itself when the host returns these rows as inserted. -/
theorem createStack_getStack_roundtrip (host : Host) (now : JsString)
    (stackData : StackDefinition) (db : Database)
    (hT : db.inTransaction = false)
    (hnew : db.hasStack stackData.id = false)
    (hrows : ∀ r ∈ db.serviceRows, r.stack_id ≠ stackData.id)
    (hids : (stackData.services.map (fun s => s.id)).Nodup)
    (hjson : ∀ s ∈ stackData.services,
      host.parse (host.stringify (s.containerConfig.getD emptyConfig)) =
        s.containerConfig.getD emptyConfig)
    (hperm : ∀ rows, (host.selectOrder rows).Perm rows) :
    ∃ db1 stack,
      Database.createStack host now stackData db = (Settled.resolved stackData, db1) ∧
      Database.getStack host db1 stackData.id = Except.ok (some stack) ∧
      stack.id = stackData.id ∧
      stack.name = stackData.name ∧
      (stack.services.map (fun s => (s.id, s.name, s.image, s.containerConfig))).Perm
        (stackData.services.map
          (fun s => (s.id, s.name, s.image, s.containerConfig.getD emptyConfig))) ∧
      (host.selectOrder (stackData.services.map (serviceRowOf host now stackData.id)) =
          stackData.services.map (serviceRowOf host now stackData.id) →
        stack.services.map (fun s => (s.id, s.name, s.image, s.containerConfig)) =
          stackData.services.map
            (fun s => (s.id, s.name, s.image, s.containerConfig.getD emptyConfig))) := by
  have hproj : ∀ rows : List ServiceRow,
      (rows.map (fun service : ServiceRow =>
          ({ id := service.id,
             name := service.name,
             image := service.image,
             containerConfig := host.parse service.container_config,
             status := js "stopped",
             details := some (js "/api/v1/stacks/" ++ stackData.id ++ js "/services/" ++
               service.id),
             logs := js "/api/v1/stacks/" ++ stackData.id ++ js "/services/" ++
               service.id ++ js "/logs" } : StoredService))).map
        (fun s => (s.id, s.name, s.image, s.containerConfig)) =
      rows.map (fun r => (r.id, r.name, r.image, host.parse r.container_config)) := by
    intro rows
    rw [List.map_map]
    rfl
  have hdef : (stackData.services.map (serviceRowOf host now stackData.id)).map
      (fun r => (r.id, r.name, r.image, host.parse r.container_config)) =
      stackData.services.map
        (fun s => (s.id, s.name, s.image, s.containerConfig.getD emptyConfig)) := by
    rw [List.map_map]
    apply List.map_congr_left
    intro s hs
    simp only [Function.comp, serviceRowOf]
    rw [hjson s hs]
  refine ⟨_, _, Database.createStack_fresh host now stackData db hT hnew
      (fun r hr hsid => absurd hsid (hrows r hr)) hids,
    Database.getStack_after_createStack host now stackData db hnew hrows, rfl, rfl, ?_, ?_⟩
  · simp only [hproj]
    rw [← hdef]
    exact (hperm _).map _
  · intro hsame
    simp only [hproj]
    rw [hsame, hdef]

set_option maxRecDepth 100000 in
/-- C15 (counterexample): on a fresh store, the definition `web` whose services are given
in the order `worker`, `api`, the first without a container configuration, is created and
read back. With the rows returned in the order of the primary-key index, `getStack` gives
the services in the order `api`, `worker`, not the insertion order; and `worker` comes back
with the empty container configuration, which the definition does not have. -/
theorem createStack_getStack_not_identical :
    demoDefinition.services.map (fun s => (s.id, s.containerConfig)) =
      [(js "worker", none), (js "api", some fullService.containerConfig)] ∧
    (Database.createStack refHost (js "2024-01-01 00:00:00") demoDefinition initDatabase).1 =
      Settled.resolved demoDefinition ∧
    Database.getStack refHost
        (Database.createStack refHost (js "2024-01-01 00:00:00") demoDefinition initDatabase).2
        (js "web") =
      Except.ok (some
        { id := js "web",
          name := js "web-app",
          services :=
            [{ id := js "api", name := js "api", image := js "nginx",
               containerConfig := fullService.containerConfig,
               status := js "stopped",
               details := some (js "/api/v1/stacks/web/services/api"),
               logs := js "/api/v1/stacks/web/services/api/logs" },
             { id := js "worker", name := js "worker", image := js "redis",
               containerConfig := emptyConfig,
               status := js "stopped",
               details := some (js "/api/v1/stacks/web/services/worker"),
               logs := js "/api/v1/stacks/web/services/worker/logs" }],
          createdAt := js "2024-01-01 00:00:00",
          updatedAt := js "2024-01-01 00:00:00" }) := by
  refine ⟨by rfl, by rfl, by rfl⟩

set_option maxRecDepth 100000 in
/-- Witness for C15: the definition `web` on a fresh store and the reference host, whose
`JSON.parse` reads back the configuration with ports `[{containerPort:80,hostPort:8080}]`,
environment `{FOO:"bar"}` and volumes `[{hostPath:"/data",containerPath:"/app/data"}]`
unchanged from the text `JSON.stringify` wrote. -/
theorem createStack_getStack_roundtrip_witness :
    initDatabase.inTransaction = false ∧
    initDatabase.hasStack demoDefinition.id = false ∧
    (demoDefinition.services.map (fun s => s.id)).Nodup ∧
    refHost.stringify fullService.containerConfig =
      js ("\x7b\"environment\":\x7b\"FOO\":\"bar\"\x7d," ++
        "\"ports\":[\x7b\"containerPort\":80,\"hostPort\":8080\x7d]," ++
        "\"volumes\":[\x7b\"hostPath\":\"/data\",\"containerPath\":\"/app/data\"\x7d]\x7d") ∧
    refHost.parse (refHost.stringify fullService.containerConfig) =
      fullService.containerConfig ∧
    ∃ db1 stack,
      Database.createStack refHost (js "2024-01-01 00:00:00") demoDefinition initDatabase =
        (Settled.resolved demoDefinition, db1) ∧
      Database.getStack refHost db1 demoDefinition.id = Except.ok (some stack) ∧
      stack.id = demoDefinition.id ∧
      stack.name = demoDefinition.name ∧
      (stack.services.map (fun s => (s.id, s.name, s.image, s.containerConfig))).Perm
        (demoDefinition.services.map
          (fun s => (s.id, s.name, s.image, s.containerConfig.getD emptyConfig))) := by
  obtain ⟨db1, stack, h1, h2, h3, h4, h5, _⟩ :=
    createStack_getStack_roundtrip refHost (js "2024-01-01 00:00:00") demoDefinition
      initDatabase (by rfl) (by rfl) (by intro r hr; cases hr) (by decide) (by decide)
      (fun rows => List.perm_insertionSort _ rows)
  exact ⟨by rfl, by rfl, by decide, by rfl, by rfl, db1, stack, h1, h2, h3, h4, h5⟩


/-- A row of `stacks` has that primary key: the lookup finds a row with it. -/
theorem Database.selectStack_of_hasStack (db : Database) (id : JsString)
    (h : db.hasStack id = true) : ∃ row, db.selectStack id = some row ∧ row.id = id := by
  unfold Database.hasStack at h
  unfold Database.selectStack
  rw [List.any_eq_true] at h
  obtain ⟨x, hx, hp⟩ := h
  cases hf : db.stackRows.find? (fun row => decide (row.id = id)) with
  | none =>
    rw [List.find?_eq_none] at hf
    exact absurd hp (hf x hx)
  | some row =>
    have := List.find?_some hf
    exact ⟨row, rfl, by simpa using this⟩

/-- C16 (what the code does): `createStack` on an identifier that already has a stack
row, on a connection with no transaction open. The `INSERT` into `stacks` fails and its
error callback, instead of rolling back and rejecting, raises a `TypeError` (`this.db`
is undefined there), which escapes. The statements queued behind it run all the same:
the promise is not rejected but resolves with the definition, as for a success; the
stack row is left as it was and so is every service row there was, but the transaction
is committed with a service row for every service of the definition that had none, and
so every service of the rejected definition is stored under the existing stack. The
duplicate is reported as such only by the route `POST /`, whose own lookup answers 409
`STACK_ALREADY_EXISTS` before `createStack` is called, leaving the store as it was. -/
theorem createStack_duplicate_commits (host : Host) (now : JsString)
    (stackData : StackDefinition) (db : Database)
    (hT : db.inTransaction = false) (hdup : db.hasStack stackData.id = true) :
    (∃ db1, Database.createStack host now stackData db = (Settled.resolved stackData, db1) ∧
      db1.stackRows = db.stackRows ∧
      db1.inTransaction = false ∧
      (∃ more, db1.escaped = db.escaped ++ thisDbTypeError :: more) ∧
      (∃ added, db1.serviceRows = db.serviceRows ++ added) ∧
      (∀ service ∈ stackData.services, db1.hasService stackData.id service.id = true) ∧
      ((stackData.services.map (fun s => s.id)).Nodup →
        ∀ service ∈ stackData.services, db.hasService stackData.id service.id = false →
          serviceRowOf host now stackData.id service ∈ db1.serviceRows)) ∧
    (∀ e, (Database.createStack host now stackData db).1 ≠ Settled.rejected e) ∧
    (∀ validate : StackDefinition → Except JsError Unit, validate stackData = Except.ok () →
      createStackRoute validate host now stackData db =
        (Response.error 409 (js "STACK_ALREADY_EXISTS")
          (js "Stack '" ++ stackData.id ++ js "' already exists"), db)) := by
  have hstart : db.begin.insertStackWithCallback stackData.id stackData.name now =
      ({ db with inTransaction := true } : Database).escape thisDbTypeError := by
    rw [Database.begin_of_idle db hT]
    simp only [Database.hasStack] at hdup
    simp only [Database.insertStackWithCallback, Database.insertStack, Database.hasStack, hdup,
      if_true]
  have hfk : (({ db with inTransaction := true } : Database).escape thisDbTypeError).foreignKeys =
        false ∨
      (({ db with inTransaction := true } : Database).escape thisDbTypeError).hasStack
        stackData.id = true := Or.inr hdup
  obtain ⟨h1, _, h3, ⟨added, h4⟩, ⟨more, h5⟩⟩ :=
    Database.insertServices_frame host now stackData.id stackData.services
      (({ db with inTransaction := true } : Database).escape thisDbTypeError)
  have hmain : Database.createStack host now stackData db =
      (Settled.resolved stackData,
        { Database.insertServices host now stackData.id stackData.services
            (({ db with inTransaction := true } : Database).escape thisDbTypeError) with
          inTransaction := false }) := by
    unfold Database.createStack
    rw [hstart]
    have h3b : (Database.insertServices host now stackData.id stackData.services
        (({ db with inTransaction := true } : Database).escape thisDbTypeError)).inTransaction =
        true := h3
    simp only [Database.commitTransaction, h3b, if_true]
  refine ⟨⟨_, hmain, h1, rfl, ⟨more, ?_⟩, ⟨added, h4⟩, ?_, ?_⟩, ?_, ?_⟩
  · rw [h5]
    simp [Database.escape]
  · intro service hmem
    exact Database.insertServices_hasService host now stackData.id stackData.services _ hfk
      service hmem
  · intro hids service hmem hfree
    exact Database.insertServices_new_row host now stackData.id stackData.services _ hfk hids
      service hmem hfree
  · intro e h
    rw [hmain] at h
    cases h
  · intro validate hv
    obtain ⟨row, hrow, _⟩ := Database.selectStack_of_hasStack db stackData.id hdup
    simp only [createStackRoute, hv, Database.getStack, hrow]

set_option maxRecDepth 100000 in
/-- Witness for C16: the definition `web` (services `worker` and `api`) is created on a
fresh store, and then `createStack` is called with a second definition of `web`
(services `worker` and `cache`). The second call resolves; the stack row keeps the first
name and `worker` its first image, but the row of `cache` is committed under `web`, and
`getStack` then shows three services. Two errors escaped: the `TypeError` of the
callback and the constraint error of the insert of `worker`. -/
theorem createStack_duplicate_commits_witness :
    demoDatabase.inTransaction = false ∧
    demoDatabase.hasStack retryDefinition.id = true ∧
    (Database.createStack refHost (js "t1") retryDefinition demoDatabase).1 =
      Settled.resolved retryDefinition ∧
    (Database.createStack refHost (js "t1") retryDefinition demoDatabase).2.stackRows =
      [{ id := js "web", name := js "web-app", created_at := js "t0",
         updated_at := js "t0" }] ∧
    (Database.createStack refHost (js "t1") retryDefinition
        demoDatabase).2.serviceRows.map
        (fun row => (row.stack_id, row.id, row.image, row.created_at)) =
      [(js "web", js "worker", js "redis", js "t0"),
       (js "web", js "api", js "nginx", js "t0"),
       (js "web", js "cache", js "redis", js "t1")] ∧
    (Database.createStack refHost (js "t1") retryDefinition demoDatabase).2.escaped =
      [thisDbTypeError,
       sqliteError
         "SQLITE_CONSTRAINT: UNIQUE constraint failed: services.stack_id, services.id"] ∧
    (Database.createStack refHost (js "t1") retryDefinition
        demoDatabase).2.inTransaction = false ∧
    (Database.getStack refHost
        (Database.createStack refHost (js "t1") retryDefinition demoDatabase).2
        (js "web")).map
        (fun found => found.map (fun stack =>
          (stack.name, stack.services.map (fun service => (service.id, service.image))))) =
      Except.ok (some (js "web-app",
        [(js "api", js "nginx"), (js "cache", js "redis"), (js "worker", js "redis")])) ∧
    ∃ db1, Database.createStack refHost (js "t1") retryDefinition demoDatabase =
        (Settled.resolved retryDefinition, db1) ∧
      serviceRowOf refHost (js "t1") (js "web")
        { id := js "cache", name := js "cache", image := js "redis",
          containerConfig := none } ∈ db1.serviceRows := by
  obtain ⟨db1, h1, _, _, _, _, _, h7⟩ :=
    (createStack_duplicate_commits refHost (js "t1") retryDefinition demoDatabase
      (by rfl) (by rfl)).1
  exact ⟨by rfl, by rfl, by rfl, by rfl, by rfl, by rfl, by rfl, by rfl, db1, h1,
    h7 (by decide) _ (by decide) (by rfl)⟩

set_option maxRecDepth 100000 in
/-- C17 (what the code does): `deleteStack` removes the stack row, so that `getStack` of
the identifier is then "not found", and leaves every other stack row as it was. But on a
connection on which `PRAGMA foreign_keys` is off, as on the one `initDatabase` opens, it
deletes no service row: `ON DELETE CASCADE` does not act, and `getService` still resolves
every service of the deleted stack. With the pragma on, no service row of the deleted
stack would remain. On a fresh store, after creating and deleting the stack `web`, both
service rows are still stored and `getService` of `web`, `api` resolves the service. -/
theorem deleteStack_leaves_service_rows :
    (∀ (host : Host) (db : Database) (id : JsString),
      Database.getStack host (Database.deleteStack id db).2 id = Except.ok none) ∧
    (∀ (db : Database) (id : JsString),
      ∀ row ∈ db.stackRows, row.id ≠ id → row ∈ (Database.deleteStack id db).2.stackRows) ∧
    (∀ (db : Database) (id : JsString), db.foreignKeys = false →
      (Database.deleteStack id db).2.serviceRows = db.serviceRows) ∧
    (∀ (host : Host) (db : Database) (id stackId serviceId : JsString),
      db.foreignKeys = false →
      Database.getService host (Database.deleteStack id db).2 stackId serviceId =
        Database.getService host db stackId serviceId) ∧
    (∀ (db : Database) (id : JsString), db.foreignKeys = true → db.hasStack id = true →
      ∀ row ∈ (Database.deleteStack id db).2.serviceRows, row.stack_id ≠ id) ∧
    initDatabase.foreignKeys = false ∧
    (Database.deleteStack (js "web")
        (Database.createStack refHost (js "t1") demoDefinition initDatabase).2).1 =
      Settled.resolved true ∧
    (Database.deleteStack (js "web")
        (Database.createStack refHost (js "t1") demoDefinition initDatabase).2).2.serviceRows.map
        (fun row => (row.stack_id, row.id)) =
      [(js "web", js "worker"), (js "web", js "api")] ∧
    Database.getService refHost
        (Database.deleteStack (js "web")
          (Database.createStack refHost (js "t1") demoDefinition initDatabase).2).2
        (js "web") (js "api") =
      Except.ok (some
        { id := js "api", name := js "api", image := js "nginx",
          containerConfig := fullService.containerConfig,
          status := js "stopped", details := none,
          logs := js "/api/v1/stacks/web/services/api/logs" }) := by
  refine ⟨?_, ?_, ?_, ?_, ?_, by rfl, by rfl, by rfl, by rfl⟩
  · intro host db id
    have h : (Database.deleteStack id db).2.hasStack id = false := by
      simp [Database.deleteStack, Database.deleteStackRow, Database.hasStack]
    unfold Database.getStack
    rw [Database.selectStack_of_not_hasStack _ _ h]
  · intro db id row hrow hne
    simp only [Database.deleteStack, Database.deleteStackRow, List.mem_filter]
    exact ⟨hrow, by simpa using hne⟩
  · intro db id hfk
    simp [Database.deleteStack, Database.deleteStackRow, hfk]
  · intro host db id stackId serviceId hfk
    simp [Database.getService, Database.selectService, Database.deleteStack,
      Database.deleteStackRow, hfk]
  · intro db id hfk hhas row hrow
    simp only [Database.deleteStack, Database.deleteStackRow, hfk, hhas, Bool.and_self,
      if_true, List.mem_filter] at hrow
    simpa using hrow.2


/-- The `UPDATE` of `updateStack` changes no primary key of `stacks`. -/
theorem Database.hasStack_updateStackRow (db : Database) (name id now key : JsString) :
    (db.updateStackRow name id now).hasStack key = db.hasStack key := by
  unfold Database.updateStackRow Database.hasStack
  simp only [List.any_map]
  congr 1
  funext row
  simp only [Function.comp]
  split <;> rfl

/-- What `updateStack` does when the definition's service identifiers are pairwise
distinct and the foreign key is satisfied or not enforced: it resolves `true`, renames the
stack row of that identifier if there is one, and replaces the service rows of that
identifier by one row per service of the definition, in order. -/
theorem Database.updateStack_ok (host : Host) (now stackId : JsString)
    (stackData : StackDefinition) (db : Database) (hT : db.inTransaction = false)
    (hids : (stackData.services.map (fun s => s.id)).Nodup)
    (hfk : db.foreignKeys = false ∨ db.hasStack stackId = true) :
    Database.updateStack host now stackId stackData db =
      (Settled.resolved true,
        { db with
          stackRows := db.stackRows.map (fun row =>
            if row.id = stackId then { row with name := stackData.name, updated_at := now }
            else row),
          serviceRows :=
            db.serviceRows.filter (fun row => !decide (row.stack_id = stackId)) ++
              stackData.services.map (serviceRowOf host now stackId) }) := by
  have hhas := Database.hasStack_updateStackRow db stackData.name stackId now stackId
  obtain ⟨stackRows, serviceRows, foreignKeys, inTransaction, escaped⟩ := db
  simp only at hT hfk hhas
  subst hT
  unfold Database.updateStack
  rw [Database.begin_of_idle _ rfl]
  rw [Database.insertServices_ok]
  · simp [Database.commitTransaction, Database.updateStackRow, Database.deleteServices]
  · intro r hr hsid
    simp only [Database.updateStackRow, Database.deleteServices, List.mem_filter] at hr
    simp [hsid] at hr
  · exact hids
  · rcases hfk with h | h
    · left; exact h
    · right
      simp only [Database.hasStack, Database.updateStackRow, Database.deleteServices] at hhas h ⊢
      rw [hhas]
      exact h

/-- C18 (counterexample): `updateStack` on the identifier `ghost`, which the fresh store
does not hold: it resolves `true`, and the two service rows of the definition are stored
under `ghost` although there is no such stack. -/
theorem updateStack_missing_reports_success :
    initDatabase.hasStack (js "ghost") = false ∧
    (Database.updateStack refHost (js "t1") (js "ghost") demoDefinition initDatabase).1 =
      Settled.resolved true ∧
    (Database.updateStack refHost (js "t1") (js "ghost") demoDefinition
        initDatabase).2.stackRows = [] ∧
    (Database.updateStack refHost (js "t1") (js "ghost") demoDefinition
        initDatabase).2.serviceRows.map (fun row => (row.stack_id, row.id)) =
      [(js "ghost", js "worker"), (js "ghost", js "api")] := by
  refine ⟨by rfl, by rfl, by rfl, by rfl⟩

/-- C18 (amended): for an identifier that has no stack row, the route `PUT /:stackId`
answers 404 `STACK_NOT_FOUND` from its own lookup, does not call `updateStack` and leaves
the store as it was, so that no service row is written. `updateStack` itself makes no
existence check: its promise is never rejected, and on a connection that does not enforce
foreign keys (as the one `initDatabase` opens) it resolves `true` for a definition with
pairwise distinct service identifiers. -/
theorem updateStack_missing (host : Host) (now stackId : JsString)
    (stackData : StackDefinition) (db : Database)
    (hT : db.inTransaction = false) (hmissing : db.hasStack stackId = false) :
    (∀ validate : StackDefinition → Except JsError Unit,
      updateStackRoute validate host now stackId stackData db =
        (Response.error 404 (js "STACK_NOT_FOUND")
          (js "Stack '" ++ stackId ++ js "' not found"), db)) ∧
    (∀ e, (Database.updateStack host now stackId stackData db).1 ≠ Settled.rejected e) ∧
    (db.foreignKeys = false → (stackData.services.map (fun s => s.id)).Nodup →
      (Database.updateStack host now stackId stackData db).1 = Settled.resolved true) := by
  refine ⟨?_, ?_, ?_⟩
  · intro validate
    simp only [updateStackRoute, Database.getStack,
      Database.selectStack_of_not_hasStack db stackId hmissing]
  · intro e h
    unfold Database.updateStack at h
    have hflag : (Database.insertServices host now stackId stackData.services
        ((db.begin.updateStackRow stackData.name stackId now).deleteServices
          stackId)).inTransaction = true := by
      rw [(Database.insertServices_frame host now stackId stackData.services _).2.2.1]
      exact Database.begin_inTransaction db
    simp only [Database.commitTransaction, hflag, if_true] at h
    cases h
  · intro hfk hids
    rw [Database.updateStack_ok host now stackId stackData db hT hids (Or.inl hfk)]

/-- Witness for C18: the route `PUT /ghost` and `updateStack` of `ghost` on a fresh
store. -/
theorem updateStack_missing_witness :
    initDatabase.inTransaction = false ∧
    initDatabase.hasStack (js "ghost") = false ∧
    updateStackRoute acceptAll refHost (js "t1") (js "ghost") demoDefinition initDatabase =
      (Response.error 404 (js "STACK_NOT_FOUND")
        (js "Stack '" ++ js "ghost" ++ js "' not found"), initDatabase) ∧
    (Database.updateStack refHost (js "t1") (js "ghost") demoDefinition initDatabase).1 =
      Settled.resolved true :=
  ⟨by rfl, by rfl,
    (updateStack_missing refHost (js "t1") (js "ghost") demoDefinition initDatabase
      (by rfl) (by rfl)).1 acceptAll,
    (updateStack_missing refHost (js "t1") (js "ghost") demoDefinition initDatabase
      (by rfl) (by rfl)).2.2 (by rfl) (by decide)⟩


/-- The stack row that the lookup finds after the `UPDATE` of `updateStack`: the row it
found before, renamed. -/
theorem Database.selectStack_updateStackRow (db : Database) (name id now : JsString) :
    (db.updateStackRow name id now).selectStack id =
      (db.selectStack id).map (fun row => { row with name := name, updated_at := now }) := by
  unfold Database.updateStackRow Database.selectStack
  simp only
  induction db.stackRows with
  | nil => rfl
  | cons r rest ih =>
    by_cases h : r.id = id
    · simp [List.find?_cons, h]
    · simp only [List.map_cons, List.find?_cons, h, if_false, decide_False, ih]

/-- C19: for a stack that is stored and a definition with pairwise distinct service
identifiers, `updateStack` resolves `true`, and so does the same update applied again.
After one update the stored name is the definition's and the stored service rows of the
stack are exactly one per service of the definition, in order, with its id, name, image
and the JSON text of its configuration: none of the previous rows is left. After the
second update the stored name and these service rows are the same as after the first,
and the service rows of the other stacks are those of the start. -/
theorem updateStack_idempotent (host : Host) (now1 now2 stackId : JsString)
    (stackData : StackDefinition) (db : Database)
    (hT : db.inTransaction = false) (hexists : db.hasStack stackId = true)
    (hids : (stackData.services.map (fun s => s.id)).Nodup) :
    ∃ db1 db2,
      Database.updateStack host now1 stackId stackData db = (Settled.resolved true, db1) ∧
      Database.updateStack host now2 stackId stackData db1 = (Settled.resolved true, db2) ∧
      (db1.selectStack stackId).map (fun row => row.name) = some stackData.name ∧
      (db2.selectStack stackId).map (fun row => row.name) = some stackData.name ∧
      (db1.serviceRows.filter (fun row => decide (row.stack_id = stackId))).map
          (fun row => (row.id, row.name, row.image, row.container_config)) =
        stackData.services.map (fun s =>
          (s.id, s.name, s.image, host.stringify (s.containerConfig.getD emptyConfig))) ∧
      (db2.serviceRows.filter (fun row => decide (row.stack_id = stackId))).map
          (fun row => (row.id, row.name, row.image, row.container_config)) =
        (db1.serviceRows.filter (fun row => decide (row.stack_id = stackId))).map
          (fun row => (row.id, row.name, row.image, row.container_config)) ∧
      db2.serviceRows.filter (fun row => !decide (row.stack_id = stackId)) =
        db.serviceRows.filter (fun row => !decide (row.stack_id = stackId)) ∧
      db2.stackRows.map (fun row => (row.id, row.name)) =
        db1.stackRows.map (fun row => (row.id, row.name)) := by
  have hnew : ∀ now : JsString,
      (stackData.services.map (serviceRowOf host now stackId)).filter
        (fun row => decide (row.stack_id = stackId)) =
      stackData.services.map (serviceRowOf host now stackId) := by
    intro now
    rw [List.filter_eq_self]
    intro r hr
    rw [List.mem_map] at hr
    obtain ⟨s, _, hs⟩ := hr
    rw [← hs]
    simp [serviceRowOf]
  have hnew2 : ∀ now : JsString,
      (stackData.services.map (serviceRowOf host now stackId)).filter
        (fun row => !decide (row.stack_id = stackId)) = [] := by
    intro now
    rw [List.filter_eq_nil_iff]
    intro r hr
    rw [List.mem_map] at hr
    obtain ⟨s, _, hs⟩ := hr
    rw [← hs]
    simp [serviceRowOf]
  have hold : ∀ rows : List ServiceRow,
      (rows.filter (fun row => !decide (row.stack_id = stackId))).filter
        (fun row => decide (row.stack_id = stackId)) = [] := by
    intro rows
    rw [List.filter_eq_nil_iff]
    intro r hr
    rw [List.mem_filter] at hr
    simpa using hr.2
  have hold2 : ∀ rows : List ServiceRow,
      (rows.filter (fun row => !decide (row.stack_id = stackId))).filter
        (fun row => !decide (row.stack_id = stackId)) =
      rows.filter (fun row => !decide (row.stack_id = stackId)) := by
    intro rows
    rw [List.filter_filter]
    simp
  have hrowmap : ∀ now : JsString,
      (stackData.services.map (serviceRowOf host now stackId)).map
        (fun row => (row.id, row.name, row.image, row.container_config)) =
      stackData.services.map (fun s =>
        (s.id, s.name, s.image, host.stringify (s.containerConfig.getD emptyConfig))) := by
    intro now
    rw [List.map_map]
    rfl
  have h1 := Database.updateStack_ok host now1 stackId stackData db hT hids (Or.inr hexists)
  obtain ⟨row, hrow, _⟩ := Database.selectStack_of_hasStack db stackId hexists
  have hsel1 := Database.selectStack_updateStackRow db stackData.name stackId now1
  rw [hrow] at hsel1
  have hhas1 := Database.hasStack_updateStackRow db stackData.name stackId now1 stackId
  rw [hexists] at hhas1
  generalize hdb1 : ({ db with
      stackRows := db.stackRows.map (fun row =>
        if row.id = stackId then { row with name := stackData.name, updated_at := now1 }
        else row),
      serviceRows :=
        db.serviceRows.filter (fun row => !decide (row.stack_id = stackId)) ++
          stackData.services.map (serviceRowOf host now1 stackId) } : Database) = db1 at h1
  have hT1 : db1.inTransaction = false := by rw [← hdb1]; exact hT
  have hsr1 : db1.stackRows = (db.updateStackRow stackData.name stackId now1).stackRows := by
    rw [← hdb1]; rfl
  have hex1 : db1.hasStack stackId = true := by
    unfold Database.hasStack at hhas1 ⊢
    rw [hsr1]; exact hhas1
  have hsv1 : db1.serviceRows =
      db.serviceRows.filter (fun row => !decide (row.stack_id = stackId)) ++
        stackData.services.map (serviceRowOf host now1 stackId) := by
    rw [← hdb1]
  have hselect1 : db1.selectStack stackId =
      some { row with name := stackData.name, updated_at := now1 } := by
    unfold Database.selectStack at hsel1 ⊢
    rw [hsr1]; exact hsel1
  have h2 := Database.updateStack_ok host now2 stackId stackData db1 hT1 hids (Or.inr hex1)
  have hsel2 := Database.selectStack_updateStackRow db1 stackData.name stackId now2
  rw [hselect1] at hsel2
  refine ⟨db1, _, h1, h2, ?_, ?_, ?_, ?_, ?_, ?_⟩
  · rw [hselect1]; rfl
  · unfold Database.selectStack Database.updateStackRow at hsel2
    unfold Database.selectStack
    simp only at hsel2 ⊢
    rw [hsel2]; rfl
  · rw [hsv1, List.filter_append, hold, hnew, List.nil_append, hrowmap]
  · simp only [hsv1, List.filter_append, hold, hold2, hnew, hnew2, List.nil_append,
      List.append_nil, hrowmap]
  · simp only [hsv1, List.filter_append, hold, hold2, hnew, hnew2, List.nil_append,
      List.append_nil]
  · simp only
    rw [hsr1]
    simp only [Database.updateStackRow, List.map_map]
    apply List.map_congr_left
    intro r _
    simp only [Function.comp]
    by_cases h : r.id = stackId
    · simp [h]
    · simp [h]

set_option maxRecDepth 100000 in
/-- Witness for C19: the stack `web` is created on a fresh store and then updated twice
with the same definition. -/
theorem updateStack_idempotent_witness :
    (Database.createStack refHost (js "t0") demoDefinition initDatabase).2.inTransaction =
      false ∧
    (Database.createStack refHost (js "t0") demoDefinition initDatabase).2.hasStack (js "web") =
      true ∧
    (demoDefinition.services.map (fun s => s.id)).Nodup ∧
    ∃ db1 db2,
      Database.updateStack refHost (js "t1") (js "web") demoDefinition
          (Database.createStack refHost (js "t0") demoDefinition initDatabase).2 =
        (Settled.resolved true, db1) ∧
      Database.updateStack refHost (js "t2") (js "web") demoDefinition db1 =
        (Settled.resolved true, db2) ∧
      (db1.selectStack (js "web")).map (fun row => row.name) = some demoDefinition.name ∧
      (db2.selectStack (js "web")).map (fun row => row.name) = some demoDefinition.name ∧
      (db2.serviceRows.filter (fun row => decide (row.stack_id = js "web"))).map
          (fun row => (row.id, row.name, row.image, row.container_config)) =
        (db1.serviceRows.filter (fun row => decide (row.stack_id = js "web"))).map
          (fun row => (row.id, row.name, row.image, row.container_config)) := by
  obtain ⟨db1, db2, h1, h2, h3, h4, _, h6, _, _⟩ :=
    updateStack_idempotent refHost (js "t1") (js "t2") (js "web") demoDefinition
      (Database.createStack refHost (js "t0") demoDefinition initDatabase).2
      (by rfl) (by rfl) (by decide)
  exact ⟨by rfl, by rfl, by decide, db1, db2, h1, h2, h3, h4, h6⟩

/-- The number of rows a filter keeps is positive exactly when some row passes it. -/
theorem length_filter_pos_iff_any {α : Type} (p : α → Bool) (l : List α) :
    decide ((l.filter p).length > 0) = l.any p := by
  induction l with
  | nil => rfl
  | cons a rest ih =>
    by_cases h : p a = true
    · simp [List.filter_cons, h]
    · simp only [Bool.not_eq_true] at h
      simp only [List.filter_cons, h, Bool.false_eq_true, if_false, List.any_cons,
        Bool.false_or]
      exact ih

/-- C20: `deleteStack` never raises. It resolves `true` when the store has a stack row of
that identifier, and such a row is then removed; it resolves `false` when the store has
none, and the store is then exactly as before. So the flag is `true` exactly when a stack
row was removed. On a fresh store, deleting `ghost` resolves `false` and changes
nothing. -/
theorem deleteStack_flag :
    (∀ (db : Database) (id : JsString),
      (Database.deleteStack id db).1 = Settled.resolved (db.hasStack id) ∧
      (db.hasStack id = false → (Database.deleteStack id db).2 = db) ∧
      (db.hasStack id = true →
        (Database.deleteStack id db).2.stackRows.length < db.stackRows.length) ∧
      (db.hasStack id = true ↔ (Database.deleteStack id db).2.stackRows ≠ db.stackRows) ∧
      (Database.deleteStack id db).2.hasStack id = false) ∧
    Database.deleteStack (js "ghost") initDatabase = (Settled.resolved false, initDatabase) := by
  refine ⟨?_, by rfl⟩
  intro db id
  have hkeep : db.hasStack id = false →
      db.stackRows.filter (fun row => !decide (row.id = id)) = db.stackRows := by
    intro h
    unfold Database.hasStack at h
    rw [List.any_eq_false] at h
    rw [List.filter_eq_self]
    intro r hr
    simpa using h r hr
  have hshrink : db.hasStack id = true →
      (db.stackRows.filter (fun row => !decide (row.id = id))).length <
        db.stackRows.length := by
    intro h
    unfold Database.hasStack at h
    rw [List.any_eq_true] at h
    obtain ⟨x, hx, hp⟩ := h
    apply List.length_filter_lt_length_iff_exists.mpr
    exact ⟨x, hx, by simpa using hp⟩
  refine ⟨?_, ?_, ?_, ?_, ?_⟩
  · simp only [Database.deleteStack, Database.deleteStackRow, Database.hasStack]
    rw [length_filter_pos_iff_any]
  · intro h
    obtain ⟨stackRows, serviceRows, foreignKeys, inTransaction, escaped⟩ := db
    simp only at hkeep
    simp only [Database.deleteStack, Database.deleteStackRow, h, Bool.and_false,
      Bool.false_eq_true, if_false, hkeep h]
  · intro h
    exact hshrink h
  · constructor
    · intro h heq
      have := hshrink h
      simp only [Database.deleteStack, Database.deleteStackRow] at heq
      rw [heq] at this
      exact Nat.lt_irrefl _ this
    · intro hne
      by_contra hcon
      rw [Bool.not_eq_true] at hcon
      apply hne
      simp only [Database.deleteStack, Database.deleteStackRow]
      exact hkeep hcon
  · simp [Database.deleteStack, Database.deleteStackRow, Database.hasStack]


/-! ## Status queries over the definition store -/

/-- C12: `GET /:serviceId` for a stored service of a stored stack answers 200 and never
passes an error on. The body has the identifier, name and image of the stored row and the
configuration parsed from its stored text. When `getContainerStatus` resolves, the status
is "running" if the running flag is set and the status label it returned otherwise, and
the body carries the status object; when it raises, the status is "error" and the body
carries the failure's message. When the runtime answers the inspection with 404 (the
container is gone), the status is "not-created". -/
theorem getServiceRoute_merge {σ : Type} (rt : Runtime σ) (host : Host) (db : Database)
    (stackId serviceId : JsString) (w : World σ) (stackRow : StackRow) (row : ServiceRow)
    (hstack : db.selectStack stackId = some stackRow)
    (hservice : db.selectService stackId serviceId = some row) :
    ∃ body, (getServiceRoute rt host db stackId serviceId w).1 = Response.json 200 body ∧
      row.stack_id = stackId ∧ row.id = serviceId ∧
      body.id = row.id ∧ body.name = row.name ∧ body.image = row.image ∧
      body.containerConfig = host.parse row.container_config ∧
      (∀ status w1, getContainerStatus rt stackId serviceId w = (Except.ok status, w1) →
        body.status = (if status.running then js "running" else status.status) ∧
        body.containerDetails = some status ∧ body.error = none) ∧
      (∀ e w1, getContainerStatus rt stackId serviceId w = (Except.error e, w1) →
        body.status = js "error" ∧ body.error = some e.message ∧
        body.containerDetails = none) ∧
      (∀ name e, generateContainerName stackId serviceId = Except.ok name →
        (rt.inspect name w.state).1 = Except.error e → e.statusCode = some 404 →
        body.status = js "not-created" ∧ body.error = none) := by
  have hrow : row.stack_id = stackId ∧ row.id = serviceId := by
    unfold Database.selectService at hservice
    have := List.find?_some hservice
    simpa using this
  have hgone : ∀ name e, generateContainerName stackId serviceId = Except.ok name →
      (rt.inspect name w.state).1 = Except.error e → e.statusCode = some 404 →
      ∃ w1, getContainerStatus rt stackId serviceId w =
        (Except.ok { status := js "not-created", running := false, startedAt := none,
                     finishedAt := none, exitCode := none }, w1) := by
    intro name e hname he hcode
    rw [getContainerStatus_of_name rt stackId serviceId name w hname, he]
    simp only []
    rw [if_pos hcode]
    exact ⟨_, rfl⟩
  unfold getServiceRoute
  simp only [Database.getStack, Database.getService, hstack, hservice]
  rcases hs : getContainerStatus rt stackId serviceId w with ⟨e | status, w1⟩
  · refine ⟨_, rfl, hrow.1, hrow.2, rfl, rfl, rfl, rfl, ?_, ?_, ?_⟩
    · intro st w2 h
      cases h
    · intro e2 w2 h
      cases h
      exact ⟨rfl, rfl, rfl⟩
    · intro name e2 hname he hcode
      obtain ⟨w2, h⟩ := hgone name e2 hname he hcode
      rw [hs] at h
      cases h
  · refine ⟨_, rfl, hrow.1, hrow.2, rfl, rfl, rfl, rfl, ?_, ?_, ?_⟩
    · intro st w2 h
      cases h
      exact ⟨rfl, rfl, rfl⟩
    · intro e2 w2 h
      cases h
    · intro name e2 hname he hcode
      obtain ⟨w2, h⟩ := hgone name e2 hname he hcode
      rw [hs] at h
      cases h
      exact ⟨rfl, rfl⟩

set_option maxRecDepth 100000 in
/-- Witness for C12: the service `api` of the stored stack `web`, whose container does not
exist on the reference runtime, is reported as "not-created" with the stored name, image
and configuration. -/
theorem getServiceRoute_merge_witness :
    demoDatabase.selectStack (js "web") =
      some { id := js "web", name := js "web-app", created_at := js "t0",
             updated_at := js "t0" } ∧
    demoDatabase.selectService (js "web") (js "api") =
      some (serviceRowOf refHost (js "t0") (js "web")
        { id := js "api", name := js "api", image := js "nginx",
          containerConfig := some fullService.containerConfig }) ∧
    (getServiceRoute refRuntime refHost demoDatabase (js "web") (js "api")
        (refWorld [] [])).1 =
      Response.json 200
        { id := js "api", name := js "api", image := js "nginx",
          containerConfig := fullService.containerConfig,
          status := js "not-created",
          logs := js "/api/v1/stacks/web/services/api/logs",
          containerDetails :=
            some { status := js "not-created", running := false, startedAt := none,
                   finishedAt := none, exitCode := none },
          error := none } ∧
    ∃ body,
      (getServiceRoute refRuntime refHost demoDatabase (js "web") (js "api")
          (refWorld [] [])).1 = Response.json 200 body ∧
      body.status = js "not-created" ∧ body.error = none := by
  obtain ⟨body, h1, _, _, _, _, _, _, _, _, h2⟩ :=
    getServiceRoute_merge refRuntime refHost demoDatabase (js "web") (js "api")
      (refWorld [] [])
      { id := js "web", name := js "web-app", created_at := js "t0", updated_at := js "t0" }
      (serviceRowOf refHost (js "t0") (js "web")
        { id := js "api", name := js "api", image := js "nginx",
          containerConfig := some fullService.containerConfig })
      (by rfl) (by rfl)
  exact ⟨by rfl, by rfl, by rfl, body, h1,
    h2 (js "web-api") (refError 404 "No such container") (by rfl) (by rfl) (by rfl)⟩


/-- One step of the loop of `GET /:stackId`: the first service gets the status its own
inspection decides, and the rest is annotated in the world that inspection left. -/
theorem annotateServices_cons {σ : Type} (rt : Runtime σ) (stackId : JsString)
    (service : StoredService) (rest : List StoredService) (w : World σ) :
    annotateServices rt stackId (service :: rest) w =
      ((match (getContainerStatus rt stackId service.id w).1 with
          | Except.ok status =>
            { service with
              status := if status.running then js "running" else status.status }
          | Except.error _ => { service with status := js "error" }) ::
          (annotateServices rt stackId rest (getContainerStatus rt stackId service.id w).2).1,
        (annotateServices rt stackId rest (getContainerStatus rt stackId service.id w).2).2) := by
  rcases hs : getContainerStatus rt stackId service.id w with ⟨e | status, w1⟩
  · simp only [annotateServices, hs]
  · simp only [annotateServices, hs]

/-- The loop of `GET /:stackId` returns one service per service. -/
theorem annotateServices_length {σ : Type} (rt : Runtime σ) (stackId : JsString)
    (services : List StoredService) (w : World σ) :
    (annotateServices rt stackId services w).1.length = services.length := by
  induction services generalizing w with
  | nil => simp [annotateServices]
  | cons s rest ih =>
    rw [annotateServices_cons]
    simp only [List.length_cons, ih]

/-- The service of the loop of `GET /:stackId` at position `i` is that of a run on the
single service `services[i]` in the world left by the first `i` services. -/
theorem annotateServices_entry {σ : Type} (rt : Runtime σ) (stackId : JsString)
    (services : List StoredService) (w : World σ) (i : Nat) (hi : i < services.length) :
    (annotateServices rt stackId services w).1[i]? =
      (annotateServices rt stackId [services[i]]
        (annotateServices rt stackId (services.take i) w).2).1[0]? := by
  induction services generalizing w i with
  | nil => simp at hi
  | cons s rest ih =>
    cases i with
    | zero =>
      rw [annotateServices_cons, annotateServices_cons]
      simp [annotateServices]
    | succ j =>
      have hj : j < rest.length := by simpa using hi
      rw [annotateServices_cons]
      simp only [List.getElem?_cons_succ, List.take_succ_cons, List.getElem_cons_succ]
      rw [ih _ j hj, annotateServices_cons rt stackId s (rest.take j)]

set_option maxRecDepth 100000 in
/-- C14: `GET /:stackId` for a stored stack answers 200 with the stack of `getStack`, in
which service `i` is the stored service `i` with only its status replaced, decided by the
inspection of that service alone in the world the earlier inspections left: "running" or
the returned status label when `getContainerStatus` resolves, and "error" when it raises.
In the latter case nothing of the failure is in the response: with the runtime
unreachable, the response for the stored stack `web` is the same whatever the failure
message, while `GET /:serviceId` for its service `api` carries the message. -/
theorem getStackRoute_annotations :
    (∀ {σ : Type} (rt : Runtime σ) (host : Host) (db : Database) (stackId : JsString)
        (w : World σ) (stack : StoredStack),
      Database.getStack host db stackId = Except.ok (some stack) →
      ∃ body, (getStackRoute rt host db stackId w).1 = Response.json 200 body ∧
        body.id = stack.id ∧ body.name = stack.name ∧
        body.createdAt = stack.createdAt ∧ body.updatedAt = stack.updatedAt ∧
        body.services.length = stack.services.length ∧
        ∀ (i : Nat) (hi : i < stack.services.length),
          ∃ entry, body.services[i]? = some entry ∧
            entry.id = stack.services[i].id ∧
            entry.name = stack.services[i].name ∧
            entry.image = stack.services[i].image ∧
            entry.containerConfig = stack.services[i].containerConfig ∧
            (∀ status w1, getContainerStatus rt stackId stack.services[i].id
                  (annotateServices rt stackId (stack.services.take i) w).2 =
                  (Except.ok status, w1) →
                entry = { stack.services[i] with
                  status := if status.running then js "running" else status.status }) ∧
            (∀ e w1, getContainerStatus rt stackId stack.services[i].id
                  (annotateServices rt stackId (stack.services.take i) w).2 =
                  (Except.error e, w1) →
                entry = { stack.services[i] with status := js "error" })) ∧
    (∀ message : String,
      (getStackRoute (downRuntime message) refHost demoDatabase (js "web") downWorld).1 =
        Response.json 200
          { id := js "web", name := js "web-app",
            services :=
              [{ id := js "api", name := js "api", image := js "nginx",
                 containerConfig := fullService.containerConfig,
                 status := js "error",
                 details := some (js "/api/v1/stacks/web/services/api"),
                 logs := js "/api/v1/stacks/web/services/api/logs" },
               { id := js "worker", name := js "worker", image := js "redis",
                 containerConfig := emptyConfig,
                 status := js "error",
                 details := some (js "/api/v1/stacks/web/services/worker"),
                 logs := js "/api/v1/stacks/web/services/worker/logs" }],
            createdAt := js "t0", updatedAt := js "t0" }) ∧
    (getServiceRoute (downRuntime "connect ECONNREFUSED") refHost demoDatabase (js "web")
        (js "api") downWorld).1 =
      Response.json 200
        { id := js "api", name := js "api", image := js "nginx",
          containerConfig := fullService.containerConfig,
          status := js "error",
          logs := js "/api/v1/stacks/web/services/api/logs",
          containerDetails := none,
          error := some (js "connect ECONNREFUSED") } := by
  refine ⟨?_, ?_, by rfl⟩
  · intro σ rt host db stackId w stack hstack
    unfold getStackRoute
    simp only [hstack]
    refine ⟨_, rfl, rfl, rfl, rfl, rfl, annotateServices_length rt stackId _ w, ?_⟩
    intro i hi
    simp only []
    rw [annotateServices_entry rt stackId stack.services w i hi]
    generalize (annotateServices rt stackId (stack.services.take i) w).2 = wi
    generalize stack.services[i] = s
    rw [annotateServices_cons]
    rcases hs : getContainerStatus rt stackId s.id wi with ⟨e | status, w1⟩
    · refine ⟨{ s with status := js "error" }, by simp only [List.getElem?_cons_zero],
        rfl, rfl, rfl, rfl, ?_, ?_⟩
      · intro st w2 h
        cases h
      · intro e2 w2 h
        rfl
    · refine ⟨{ s with status := if status.running then js "running" else status.status },
        by simp only [List.getElem?_cons_zero], rfl, rfl, rfl, rfl, ?_, ?_⟩
      · intro st w2 h
        cases h
        rfl
      · intro e2 w2 h
        cases h
  · intro message
    rfl


/-! ## The naming check guards every adapter operation -/

/-- The naming check fails with the name-too-long error for a joined name of more than 63
characters. -/
theorem generateContainerName_of_gt (stackId serviceId : JsString)
    (h : 63 < (stackId ++ js "-" ++ serviceId).length) :
    generateContainerName stackId serviceId =
      Except.error (nameTooLongError (stackId ++ js "-" ++ serviceId)) := by
  unfold generateContainerName
  simp only [gt_iff_lt, h, if_true]

/-- C21: for a stack identifier and a service identifier whose joined name
`stackId + "-" + serviceId` has more than 63 characters, each of the six adapter
operations (`createContainer` for any service of that identifier, `startContainer`,
`stopContainer`, `removeContainer`, `getContainerStatus`, `getContainerLogs`) raises the
name-too-long error of `generateContainerName` and returns the world it was given: the
state of the runtime is untouched and no request is added to the trace. -/
theorem adapter_operations_check_name_first {σ : Type} (rt : Runtime σ)
    (stackId serviceId : JsString) (w : World σ)
    (hlong : 63 < (stackId ++ js "-" ++ serviceId).length) :
    (∀ service : Service, service.id = serviceId →
      createContainer rt stackId service w =
        (Except.error (nameTooLongError (stackId ++ js "-" ++ serviceId)), w)) ∧
    startContainer rt stackId serviceId w =
      (Except.error (nameTooLongError (stackId ++ js "-" ++ serviceId)), w) ∧
    stopContainer rt stackId serviceId w =
      (Except.error (nameTooLongError (stackId ++ js "-" ++ serviceId)), w) ∧
    removeContainer rt stackId serviceId w =
      (Except.error (nameTooLongError (stackId ++ js "-" ++ serviceId)), w) ∧
    getContainerStatus rt stackId serviceId w =
      (Except.error (nameTooLongError (stackId ++ js "-" ++ serviceId)), w) ∧
    (∀ options : LogOptions, getContainerLogs rt stackId serviceId options w =
      (Except.error (nameTooLongError (stackId ++ js "-" ++ serviceId)), w)) := by
  have hname := generateContainerName_of_gt stackId serviceId hlong
  refine ⟨?_, startContainer_of_tooLong rt stackId serviceId _ w hname,
    stopContainer_of_tooLong rt stackId serviceId _ w hname,
    removeContainer_of_tooLong rt stackId serviceId _ w hname,
    getContainerStatus_of_tooLong rt stackId serviceId _ w hname, ?_⟩
  · intro service hid
    subst hid
    exact createContainer_of_tooLong rt stackId service _ w hname
  · intro options
    exact getContainerLogs_of_tooLong rt stackId serviceId options _ w hname

/-- Witness for C21: 32 times "a" and 31 times "b" give a joined name of 64 characters; on
the reference runtime, which holds the image and a running container, every operation
raises the name-too-long error and the trace stays empty. -/
theorem adapter_operations_check_name_first_witness :
    63 < (repeatChar 'a' 32 ++ js "-" ++ repeatChar 'b' 31).length ∧
    (createContainer refRuntime (repeatChar 'a' 32)
        { id := repeatChar 'b' 31, name := js "b", image := js "nginx",
          containerConfig := fullService.containerConfig }
        (refWorld [js "nginx"] [])).2.trace = [] ∧
    (startContainer refRuntime (repeatChar 'a' 32) (repeatChar 'b' 31)
        (refWorld [js "nginx"] [])).2.trace = [] ∧
    (stopContainer refRuntime (repeatChar 'a' 32) (repeatChar 'b' 31)
        (refWorld [js "nginx"] [])).1 =
      Except.error
        (nameTooLongError (repeatChar 'a' 32 ++ js "-" ++ repeatChar 'b' 31)) ∧
    (removeContainer refRuntime (repeatChar 'a' 32) (repeatChar 'b' 31)
        (refWorld [js "nginx"] [])).2.trace = [] ∧
    (getContainerStatus refRuntime (repeatChar 'a' 32) (repeatChar 'b' 31)
        (refWorld [js "nginx"] [])).1 =
      Except.error
        (nameTooLongError (repeatChar 'a' 32 ++ js "-" ++ repeatChar 'b' 31)) ∧
    (getContainerLogs refRuntime (repeatChar 'a' 32) (repeatChar 'b' 31) { tail := none }
        (refWorld [js "nginx"] [])).2.trace = [] := by
  have h := adapter_operations_check_name_first refRuntime (repeatChar 'a' 32)
    (repeatChar 'b' 31) (refWorld [js "nginx"] []) (by decide)
  refine ⟨by decide, ?_, ?_, ?_, ?_, ?_, ?_⟩
  · rw [h.1 _ rfl]; rfl
  · rw [h.2.1]; rfl
  · rw [h.2.2.1]
  · rw [h.2.2.2.1]; rfl
  · rw [h.2.2.2.2.1]
  · rw [h.2.2.2.2.2 { tail := none }]; rfl


/-! ## The identifier rule of the validators -/

/-- A character class matches exactly the one-unit texts of its units. -/
theorem Pattern.oneOf_matches (units : List Nat) (x : JsString) :
    x ∈ (Pattern.oneOf units).matches' ↔ ∃ c ∈ units, x = [c] := by
  induction units with
  | nil =>
    simp only [Pattern.oneOf, List.foldr_nil, RegularExpression.matches'_zero,
      List.not_mem_nil, false_and, exists_false, iff_false]
    exact Language.not_mem_zero x
  | cons c rest ih =>
    have hunfold : Pattern.oneOf (c :: rest) = RegularExpression.char c + Pattern.oneOf rest :=
      rfl
    rw [hunfold, RegularExpression.matches'_add, Language.mem_add, ih,
      RegularExpression.matches'_char]
    constructor
    · rintro (h | ⟨d, hd, hx⟩)
      · exact ⟨c, List.mem_cons_self _ _, h⟩
      · exact ⟨d, List.mem_cons_of_mem _ hd, hx⟩
    · rintro ⟨d, hd, hx⟩
      rcases List.mem_cons.mp hd with h | h
      · left; rw [hx, h]; rfl
      · right; exact ⟨d, h, hx⟩

/-- The repetition `[...]+` of a class matches exactly the non-empty texts of its units. -/
theorem Pattern.oneOrMore_oneOf_matches (units : List Nat) (x : JsString) :
    x ∈ (Pattern.oneOrMore (Pattern.oneOf units)).matches' ↔
      x ≠ [] ∧ ∀ c ∈ x, c ∈ units := by
  unfold Pattern.oneOrMore
  rw [RegularExpression.matches'_mul, RegularExpression.matches'_star, Language.mem_mul]
  constructor
  · rintro ⟨a, ha, b, hb, rfl⟩
    obtain ⟨c, hc, rfl⟩ := (Pattern.oneOf_matches units a).mp ha
    refine ⟨by simp, ?_⟩
    obtain ⟨L, rfl, hL⟩ := Language.mem_kstar.mp hb
    intro d hd
    rcases List.mem_append.mp hd with h | h
    · rw [List.mem_singleton.mp h]; exact hc
    · obtain ⟨y, hy, hdy⟩ := List.mem_flatten.mp h
      obtain ⟨e, he, rfl⟩ := (Pattern.oneOf_matches units y).mp (hL y hy)
      rw [List.mem_singleton.mp hdy]; exact he
  · rintro ⟨hne, hall⟩
    cases x with
    | nil => exact absurd rfl hne
    | cons c rest =>
      refine ⟨[c], (Pattern.oneOf_matches units [c]).mpr ⟨c, hall c (List.mem_cons_self _ _), rfl⟩,
        rest, ?_, rfl⟩
      refine Language.mem_kstar.mpr ⟨rest.map (fun d => [d]), ?_, ?_⟩
      · clear hne hall
        induction rest with
        | nil => rfl
        | cons d more ih => simp only [List.map_cons, List.flatten_cons, List.singleton_append,
            ← ih]
      · intro y hy
        obtain ⟨d, hd, rfl⟩ := List.mem_map.mp hy
        exact (Pattern.oneOf_matches units [d]).mpr ⟨d, hall d (List.mem_cons_of_mem _ hd), rfl⟩

/-- Joining segments with a separator: the first segment, then each further segment
behind a separator. -/
theorem intercalate_cons_eq (sep a : JsString) (segments : List JsString) :
    List.intercalate sep (a :: segments) =
      a ++ (segments.map (fun segment => sep ++ segment)).flatten := by
  induction segments generalizing a with
  | nil => simp [List.intercalate]
  | cons b rest ih =>
    have h := ih b
    simp only [List.intercalate, List.intersperse, List.flatten_cons, List.map_cons] at h ⊢
    rw [h, List.append_assoc]

/-- The units of the class `[a-z0-9]`. -/
theorem mem_lowerAlnum (c : Nat) :
    c ∈ lowerAlnum ↔ (97 ≤ c ∧ c ≤ 122) ∨ (48 ≤ c ∧ c ≤ 57) := by
  simp only [lowerAlnum, codeUnits, List.mem_append, List.mem_map, List.mem_range]
  constructor
  · rintro (⟨i, hi, rfl⟩ | ⟨i, hi, rfl⟩)
    · left; omega
    · right; omega
  · rintro (h | h)
    · left; exact ⟨c - 97, by omega, by omega⟩
    · right; exact ⟨c - 48, by omega, by omega⟩

/-- The identifier pattern matches exactly the texts made of one or more non-empty
segments of units of `[a-z0-9]`, joined by single hyphens. -/
theorem identifierPattern_test (s : JsString) :
    identifierPattern.test s = true ↔
      ∃ segments : List JsString, segments ≠ [] ∧
        (∀ segment ∈ segments, segment ≠ [] ∧ ∀ c ∈ segment, c ∈ lowerAlnum) ∧
        s = List.intercalate [45] segments := by
  unfold Pattern.test
  rw [RegularExpression.rmatch_iff_matches']
  unfold identifierPattern
  rw [RegularExpression.matches'_mul, RegularExpression.matches'_star, Language.mem_mul]
  constructor
  · rintro ⟨a, ha, b, hb, rfl⟩
    obtain ⟨L, rfl, hL⟩ := Language.mem_kstar.mp hb
    have hsegs : ∀ y ∈ L, ∃ segment, y = [45] ++ segment ∧
        segment ≠ [] ∧ ∀ c ∈ segment, c ∈ lowerAlnum := by
      intro y hy
      have h := hL y hy
      rw [RegularExpression.matches'_mul, Language.mem_mul] at h
      obtain ⟨p, hp, q, hq, rfl⟩ := h
      rw [RegularExpression.matches'_char] at hp
      have hp2 : p = [45] := hp
      exact ⟨q, by rw [hp2], (Pattern.oneOrMore_oneOf_matches lowerAlnum q).mp hq⟩
    refine ⟨a :: L.map (fun y => y.drop 1), by simp, ?_, ?_⟩
    · intro segment hsegment
      rcases List.mem_cons.mp hsegment with h | h
      · rw [h]; exact (Pattern.oneOrMore_oneOf_matches lowerAlnum a).mp ha
      · obtain ⟨y, hy, rfl⟩ := List.mem_map.mp h
        obtain ⟨q, rfl, hq⟩ := hsegs y hy
        simpa using hq
    · rw [intercalate_cons_eq, List.map_map]
      congr 1
      have hmap : L.map ((fun segment => [45] ++ segment) ∘ fun y => y.drop 1) = L := by
        conv_rhs => rw [← List.map_id L]
        apply List.map_congr_left
        intro y hy
        obtain ⟨q, rfl, _⟩ := hsegs y hy
        simp
      rw [hmap]
  · rintro ⟨segments, hne, hall, rfl⟩
    cases segments with
    | nil => exact absurd rfl hne
    | cons a rest =>
      refine ⟨a, (Pattern.oneOrMore_oneOf_matches lowerAlnum a).mpr
        (hall a (List.mem_cons_self _ _)), _, ?_, (intercalate_cons_eq [45] a rest).symm⟩
      refine Language.mem_kstar.mpr ⟨_, rfl, ?_⟩
      intro y hy
      obtain ⟨segment, hsegment, rfl⟩ := List.mem_map.mp hy
      rw [RegularExpression.matches'_mul, Language.mem_mul]
      exact ⟨[45], by rw [RegularExpression.matches'_char]; rfl, segment,
        (Pattern.oneOrMore_oneOf_matches lowerAlnum segment).mpr
          (hall segment (List.mem_cons_of_mem _ hsegment)), rfl⟩


/-- A character of the specification's `[a-z0-9]` is a unit of the class of the pattern. -/
theorem specIdentifierChar_iff (c : Nat) : specIdentifierChar c = true ↔ c ∈ lowerAlnum := by
  rw [mem_lowerAlnum]
  simp [specIdentifierChar]

/-- The segments of the specification's rule, as a joined text: cutting a text at its
hyphens gives non-empty segments of `[a-z0-9]` exactly when the text is one or more such
segments joined by single hyphens. -/
theorem specSegments_iff (s : JsString) :
    (s.splitOn 45).all (fun segment => !segment.isEmpty && segment.all specIdentifierChar) =
        true ↔
      ∃ segments : List JsString, segments ≠ [] ∧
        (∀ segment ∈ segments, segment ≠ [] ∧ ∀ c ∈ segment, c ∈ lowerAlnum) ∧
        s = List.intercalate [45] segments := by
  have hcheck : ∀ segments : List JsString,
      segments.all (fun segment => !segment.isEmpty && segment.all specIdentifierChar) = true ↔
        ∀ segment ∈ segments, segment ≠ [] ∧ ∀ c ∈ segment, c ∈ lowerAlnum := by
    intro segments
    simp only [List.all_eq_true, Bool.and_eq_true, Bool.not_eq_true', List.isEmpty_eq_false,
      specIdentifierChar_iff]
  constructor
  · intro h
    exact ⟨s.splitOn 45, List.splitOnP_ne_nil _ _, (hcheck _).mp h,
      (List.intercalate_splitOn s 45).symm⟩
  · rintro ⟨segments, hne, hall, rfl⟩
    have hfree : ∀ l ∈ segments, (45 : Nat) ∉ l := by
      intro l hl hmem
      have := (mem_lowerAlnum 45).mp ((hall l hl).2 45 hmem)
      omega
    rw [List.splitOn_intercalate segments 45 hfree hne]
    exact (hcheck _).mpr hall

/-- The rule of the specification is the length test and the pattern test of the
validators. -/
theorem specIdentifier_iff (s : JsString) :
    specIdentifier s = true ↔
      1 ≤ s.length ∧ s.length ≤ 31 ∧ identifierPattern.test s = true := by
  unfold specIdentifier
  rw [Bool.and_eq_true, Bool.and_eq_true, decide_eq_true_iff, decide_eq_true_iff,
    specSegments_iff, identifierPattern_test, and_assoc]

/-- What `validateStackName` does with a string. -/
theorem validateStackName_string (s : JsString) :
    validateStackName (JsValue.string s) =
      if specIdentifier s = true then Except.ok ()
      else if s.isEmpty then
        Except.error
          { message := js "Stack name is required and must be a string",
            code := js "INVALID_STACK_NAME" }
      else if s.length < 1 ∨ s.length > 31 then
        Except.error
          { message := js "Stack name must be between 1 and 31 characters",
            code := js "INVALID_STACK_NAME" }
      else
        Except.error
          { message := js "Stack name '" ++ s ++
              js "' contains invalid characters. Use only lowercase letters, numbers, and hyphens.",
            code := js "INVALID_STACK_NAME" } := by
  unfold validateStackName
  by_cases hspec : specIdentifier s = true
  · rw [if_pos hspec]
    obtain ⟨h1, h2, h3⟩ := (specIdentifier_iff s).mp hspec
    have hne : s.isEmpty = false := by
      cases s with
      | nil => simp at h1
      | cons c rest => rfl
    have hlen : ¬ (s.length < 1 ∨ s.length > 31) := by omega
    simp only [hne, Bool.false_eq_true, if_false, hlen, h3, not_true_eq_false]
  · rw [if_neg hspec]
    by_cases hempty : s.isEmpty = true
    · simp only [hempty, if_true]
    · by_cases hlen : s.length < 1 ∨ s.length > 31
      · simp only [hempty, if_false, hlen, if_true]
      · have htest : ¬ identifierPattern.test s = true := by
          intro h
          exact hspec ((specIdentifier_iff s).mpr ⟨by omega, by omega, h⟩)
        simp only [hempty, Bool.false_eq_true, if_false, hlen, htest, not_false_eq_true,
          if_true]

/-- What `validateServiceName` does with a string. -/
theorem validateServiceName_string (s : JsString) (stackId : JsValue) :
    validateServiceName (JsValue.string s) stackId =
      if specIdentifier s = true then
        if (stackId.toText ++ js "-" ++ s).length > 63 then
          Except.error
            { message := js "Combined container name '" ++ (stackId.toText ++ js "-" ++ s) ++
                js "' exceeds 63 characters",
              code := js "CONTAINER_NAME_TOO_LONG" }
        else Except.ok ()
      else if s.isEmpty then
        Except.error
          { message := js "Service name is required and must be a string",
            code := js "INVALID_SERVICE_NAME" }
      else if s.length < 1 ∨ s.length > 31 then
        Except.error
          { message := js "Service name must be between 1 and 31 characters",
            code := js "INVALID_SERVICE_NAME" }
      else
        Except.error
          { message := js "Service name '" ++ s ++
              js "' contains invalid characters. Use only lowercase letters, numbers, and hyphens.",
            code := js "INVALID_SERVICE_NAME" } := by
  unfold validateServiceName
  by_cases hspec : specIdentifier s = true
  · rw [if_pos hspec]
    obtain ⟨h1, h2, h3⟩ := (specIdentifier_iff s).mp hspec
    have hne : s.isEmpty = false := by
      cases s with
      | nil => simp at h1
      | cons c rest => rfl
    have hlen : ¬ (s.length < 1 ∨ s.length > 31) := by omega
    simp only [hne, Bool.false_eq_true, if_false, hlen, h3, not_true_eq_false]
  · rw [if_neg hspec]
    by_cases hempty : s.isEmpty = true
    · simp only [hempty, if_true]
    · by_cases hlen : s.length < 1 ∨ s.length > 31
      · simp only [hempty, if_false, hlen, if_true]
      · have htest : ¬ identifierPattern.test s = true := by
          intro h
          exact hspec ((specIdentifier_iff s).mpr ⟨by omega, by omega, h⟩)
        simp only [hempty, Bool.false_eq_true, if_false, hlen, htest, not_false_eq_true,
          if_true]

/-- The validator `validateStackName` accepts exactly the strings of the rule, and raises
`INVALID_STACK_NAME` for every other value. -/
theorem validateStackName_ok_iff (name : JsValue) :
    validateStackName name = Except.ok () ↔
      ∃ s, name = JsValue.string s ∧ specIdentifier s = true := by
  constructor
  · intro h
    cases name with
    | string s =>
      refine ⟨s, rfl, ?_⟩
      rw [validateStackName_string] at h
      by_contra hspec
      rw [if_neg hspec] at h
      split at h
      · cases h
      · split at h <;> cases h
    | _ => cases h
  · rintro ⟨s, rfl, hspec⟩
    rw [validateStackName_string, if_pos hspec]

/-- Every rejection of `validateStackName` carries the code `INVALID_STACK_NAME`. -/
theorem validateStackName_error_code (name : JsValue) (e : ValidationError)
    (h : validateStackName name = Except.error e) : e.code = js "INVALID_STACK_NAME" := by
  cases name with
  | string s =>
    rw [validateStackName_string] at h
    split at h
    · cases h
    · split at h
      · cases h; rfl
      · split at h <;> (cases h; rfl)
  | _ => cases h; rfl

/-- The validator `validateServiceName` accepts exactly the strings of the rule whose
container name, joined to the stack identifier, has at most 63 characters. -/
theorem validateServiceName_ok_iff (name stackId : JsValue) :
    validateServiceName name stackId = Except.ok () ↔
      ∃ s, name = JsValue.string s ∧ specIdentifier s = true ∧
        (stackId.toText ++ js "-" ++ s).length ≤ 63 := by
  constructor
  · intro h
    cases name with
    | string s =>
      rw [validateServiceName_string] at h
      by_cases hspec : specIdentifier s = true
      · rw [if_pos hspec] at h
        by_cases hlong : (stackId.toText ++ js "-" ++ s).length > 63
        · rw [if_pos hlong] at h; cases h
        · exact ⟨s, rfl, hspec, by omega⟩
      · rw [if_neg hspec] at h
        split at h
        · cases h
        · split at h <;> cases h
    | _ => cases h
  · rintro ⟨s, rfl, hspec, hlen⟩
    have hlong : ¬ (stackId.toText ++ js "-" ++ s).length > 63 := by omega
    rw [validateServiceName_string, if_pos hspec, if_neg hlong]

/-- The validator `validateServiceName` raises `INVALID_SERVICE_NAME` exactly for the
values that are not a string of the rule, and otherwise only
`CONTAINER_NAME_TOO_LONG`. -/
theorem validateServiceName_error_code (name stackId : JsValue) (e : ValidationError)
    (h : validateServiceName name stackId = Except.error e) :
    (e.code = js "INVALID_SERVICE_NAME" ∧
        ¬ ∃ s, name = JsValue.string s ∧ specIdentifier s = true) ∨
      (e.code = js "CONTAINER_NAME_TOO_LONG" ∧
        ∃ s, name = JsValue.string s ∧ specIdentifier s = true ∧
          63 < (stackId.toText ++ js "-" ++ s).length) := by
  cases name with
  | string s =>
    rw [validateServiceName_string] at h
    by_cases hspec : specIdentifier s = true
    · rw [if_pos hspec] at h
      by_cases hlong : (stackId.toText ++ js "-" ++ s).length > 63
      · rw [if_pos hlong] at h
        cases h
        exact Or.inr ⟨rfl, s, rfl, hspec, hlong⟩
      · rw [if_neg hlong] at h; cases h
    · rw [if_neg hspec] at h
      have hno : ¬ ∃ t, JsValue.string s = JsValue.string t ∧ specIdentifier t = true := by
        rintro ⟨t, ht, hspect⟩
        cases ht
        exact hspec hspect
      split at h
      · cases h; exact Or.inl ⟨rfl, hno⟩
      · split at h <;> (cases h; exact Or.inl ⟨rfl, hno⟩)
  | _ =>
    cases h
    refine Or.inl ⟨rfl, ?_⟩
    rintro ⟨t, ht, _⟩
    cases ht




/-- Cutting a text at its hyphens: the first segment is empty exactly when the text is
empty or starts with a hyphen; and the first segment has only characters of `[a-z0-9]`
and the further segments are non-empty with only such characters exactly when the text
has only such characters and hyphens, does not end with a hyphen and has no two adjacent
hyphens. -/
theorem splitOn_hyphen_segments (s : JsString) :
    ∃ first rest, s.splitOn 45 = first :: rest ∧
      (first = [] ↔ s = [] ∨ s.head? = some 45) ∧
      (((∀ c ∈ first, specIdentifierChar c = true) ∧
          ∀ segment ∈ rest, segment ≠ [] ∧ ∀ c ∈ segment, specIdentifierChar c = true) ↔
        (∀ c ∈ s, c = 45 ∨ specIdentifierChar c = true) ∧ s.getLast? ≠ some 45 ∧
          s.Chain' (fun a b => ¬ (a = 45 ∧ b = 45))) := by
  induction s with
  | nil => exact ⟨[], [], rfl, by simp, by simp⟩
  | cons x xs ih =>
    obtain ⟨first, rest, hsplit, hfirst, hiff⟩ := ih
    have hcons : (x :: xs).splitOn 45 =
        if (x == 45) = true then [] :: xs.splitOn 45
        else (xs.splitOn 45).modifyHead (List.cons x) := List.splitOnP_cons _ x xs
    by_cases hx : x = 45
    · subst hx
      refine ⟨[], first :: rest, by rw [hcons, hsplit]; rfl, by simp, ?_⟩
      have hlast : (45 :: xs).getLast? ≠ some 45 ↔ xs ≠ [] ∧ xs.getLast? ≠ some 45 := by
        cases xs with
        | nil => simp
        | cons y ys => simp [List.getLast?_cons_cons]
      have hchain : (45 :: xs).Chain' (fun a b => ¬ (a = 45 ∧ b = 45)) ↔
          xs.head? ≠ some 45 ∧ xs.Chain' (fun a b => ¬ (a = 45 ∧ b = 45)) := by
        cases xs with
        | nil => simp
        | cons y ys => simp [List.chain'_cons]
      have hne : first ≠ [] ↔ xs ≠ [] ∧ xs.head? ≠ some 45 := by
        rw [Ne, hfirst]; tauto
      simp only [List.not_mem_nil, false_imp_iff, implies_true, true_and, List.mem_cons,
        forall_eq_or_imp, true_or, hlast, hchain]
      constructor
      · rintro ⟨⟨hf, hfa⟩, hr⟩
        obtain ⟨h1, h2, h3⟩ := hiff.mp ⟨hfa, hr⟩
        obtain ⟨h4, h5⟩ := hne.mp hf
        exact ⟨h1, ⟨h4, h2⟩, h5, h3⟩
      · rintro ⟨h1, ⟨h4, h2⟩, h5, h3⟩
        obtain ⟨hfa, hr⟩ := hiff.mpr ⟨h1, h2, h3⟩
        exact ⟨⟨hne.mpr ⟨h4, h5⟩, hfa⟩, hr⟩
    · have hbeq : ¬ (x == 45) = true := by simpa using hx
      refine ⟨x :: first, rest, by rw [hcons, if_neg hbeq, hsplit]; rfl, by simp [hx], ?_⟩
      have hlast : (x :: xs).getLast? ≠ some 45 ↔ xs.getLast? ≠ some 45 := by
        cases xs with
        | nil => simp [hx]
        | cons y ys => simp [List.getLast?_cons_cons]
      have hchain : (x :: xs).Chain' (fun a b => ¬ (a = 45 ∧ b = 45)) ↔
          xs.Chain' (fun a b => ¬ (a = 45 ∧ b = 45)) := by
        cases xs with
        | nil => simp
        | cons y ys => simp [List.chain'_cons, hx]
      simp only [List.mem_cons, forall_eq_or_imp, hx, false_or, hlast, hchain]
      constructor
      · rintro ⟨⟨hxa, hfa⟩, hr⟩
        obtain ⟨h1, h2, h3⟩ := hiff.mp ⟨hfa, hr⟩
        exact ⟨⟨hxa, h1⟩, h2, h3⟩
      · rintro ⟨⟨hxa, h1⟩, h2, h3⟩
        obtain ⟨hfa, hr⟩ := hiff.mpr ⟨h1, h2, h3⟩
        exact ⟨⟨hxa, hfa⟩, hr⟩

/-- The rule of the specification, character by character: 1 to 31 characters, each a
hyphen or from `[a-z0-9]`, no hyphen at the start or at the end, and no two adjacent
hyphens. -/
theorem specIdentifier_iff_chars (s : JsString) :
    specIdentifier s = true ↔
      1 ≤ s.length ∧ s.length ≤ 31 ∧
      (∀ c ∈ s, c = 45 ∨ (97 ≤ c ∧ c ≤ 122) ∨ (48 ≤ c ∧ c ≤ 57)) ∧
      s.head? ≠ some 45 ∧ s.getLast? ≠ some 45 ∧
      s.Chain' (fun a b => ¬ (a = 45 ∧ b = 45)) := by
  obtain ⟨first, rest, hsplit, hfirst, hiff⟩ := splitOn_hyphen_segments s
  have hchars : (∀ c ∈ s, c = 45 ∨ (97 ≤ c ∧ c ≤ 122) ∨ (48 ≤ c ∧ c ≤ 57)) ↔
      ∀ c ∈ s, c = 45 ∨ specIdentifierChar c = true := by
    simp only [specIdentifierChar_iff, mem_lowerAlnum]
  unfold specIdentifier
  rw [Bool.and_eq_true, Bool.and_eq_true, decide_eq_true_iff, decide_eq_true_iff, hsplit,
    and_assoc, hchars]
  simp only [List.all_cons, Bool.and_eq_true, Bool.not_eq_true', List.isEmpty_eq_false,
    List.all_eq_true]
  have hne : first ≠ [] ↔ s ≠ [] ∧ s.head? ≠ some 45 := by
    rw [Ne, hfirst]; tauto
  constructor
  · rintro ⟨h1, h2, ⟨hf, hfa⟩, hr⟩
    obtain ⟨h3, h4, h5⟩ := hiff.mp ⟨hfa, fun segment hsegment => hr segment hsegment⟩
    exact ⟨h1, h2, h3, (hne.mp hf).2, h4, h5⟩
  · rintro ⟨h1, h2, h3, h6, h4, h5⟩
    obtain ⟨hfa, hr⟩ := hiff.mpr ⟨h3, h4, h5⟩
    have hs : s ≠ [] := by
      intro h; rw [h] at h1; simp at h1
    exact ⟨h1, h2, ⟨hne.mpr ⟨hs, h6⟩, hfa⟩, fun segment hsegment => hr segment hsegment⟩


set_option maxRecDepth 100000 in
/-- C22: `validateStackName` accepts a value exactly when it is a string that satisfies
the identifier rule (1 to 31 characters; cut at its hyphens, only non-empty segments of
characters from `[a-z0-9]`), and rejects every other value with a validation error, of
code `INVALID_STACK_NAME`. `validateServiceName` applies the same rule: it raises
`INVALID_SERVICE_NAME` exactly for the values that are not such a string, and accepts such
a string when the combined container name has at most 63 characters. The rule is that of
the pattern: a string satisfies it exactly when it has 1 to 31 characters and is one or
more non-empty segments of lower-case letters and digits joined by single hyphens; that
is, when it has 1 to 31 characters, each a hyphen (45) or a lower-case letter or digit, no
hyphen at the start or at the end and no two adjacent hyphens.
Accepted are `web`, `my-app-2` and 31 times `a`; rejected are the empty string, 32 times
`a`, `-web`, `web-`, `my--app`, `Web`, `my_app`, and the values `undefined`, `null` and
the number 5. -/
theorem identifier_rule_spec :
    (∀ name : JsValue,
      (validateStackName name = Except.ok () ↔
        ∃ s, name = JsValue.string s ∧ specIdentifier s = true) ∧
      ((¬ ∃ s, name = JsValue.string s ∧ specIdentifier s = true) →
        ∃ e, validateStackName name = Except.error e ∧ e.code = js "INVALID_STACK_NAME")) ∧
    (∀ name stackId : JsValue,
      ((∃ e, validateServiceName name stackId = Except.error e ∧
          e.code = js "INVALID_SERVICE_NAME") ↔
        ¬ ∃ s, name = JsValue.string s ∧ specIdentifier s = true) ∧
      (validateServiceName name stackId = Except.ok () ↔
        ∃ s, name = JsValue.string s ∧ specIdentifier s = true ∧
          (stackId.toText ++ js "-" ++ s).length ≤ 63)) ∧
    (∀ s : JsString, specIdentifier s = true ↔
      1 ≤ s.length ∧ s.length ≤ 31 ∧
      ∃ segments : List JsString, segments ≠ [] ∧
        (∀ segment ∈ segments, segment ≠ [] ∧
          ∀ c ∈ segment, (97 ≤ c ∧ c ≤ 122) ∨ (48 ≤ c ∧ c ≤ 57)) ∧
        s = List.intercalate (js "-") segments) ∧
    (∀ s : JsString, specIdentifier s = true ↔
      1 ≤ s.length ∧ s.length ≤ 31 ∧
      (∀ c ∈ s, c = 45 ∨ (97 ≤ c ∧ c ≤ 122) ∨ (48 ≤ c ∧ c ≤ 57)) ∧
      s.head? ≠ some 45 ∧ s.getLast? ≠ some 45 ∧
      s.Chain' (fun a b => ¬ (a = 45 ∧ b = 45))) ∧
    validateStackName (JsValue.string (js "web")) = Except.ok () ∧
    validateStackName (JsValue.string (js "my-app-2")) = Except.ok () ∧
    validateStackName (JsValue.string (repeatChar 'a' 31)) = Except.ok () ∧
    validateStackName (JsValue.string (js "")) =
      Except.error
        { message := js "Stack name is required and must be a string",
          code := js "INVALID_STACK_NAME" } ∧
    validateStackName (JsValue.string (repeatChar 'a' 32)) =
      Except.error
        { message := js "Stack name must be between 1 and 31 characters",
          code := js "INVALID_STACK_NAME" } ∧
    (∀ s ∈ [js "-web", js "web-", js "my--app", js "Web", js "my_app"],
      validateStackName (JsValue.string s) =
        Except.error
          { message := js "Stack name '" ++ s ++
              js "' contains invalid characters. Use only lowercase letters, numbers, and hyphens.",
            code := js "INVALID_STACK_NAME" }) ∧
    (∀ name ∈ [JsValue.undefined, JsValue.null, JsValue.number (JsNumber.int 5)],
      validateStackName name =
        Except.error
          { message := js "Stack name is required and must be a string",
            code := js "INVALID_STACK_NAME" }) := by
  refine ⟨?_, ?_, ?_, specIdentifier_iff_chars, by rfl, by rfl, by rfl, by rfl, by rfl, ?_, ?_⟩
  · intro name
    refine ⟨validateStackName_ok_iff name, ?_⟩
    intro hno
    cases h : validateStackName name with
    | ok u => exact absurd ((validateStackName_ok_iff name).mp h) hno
    | error e => exact ⟨e, rfl, validateStackName_error_code name e h⟩
  · intro name stackId
    refine ⟨?_, validateServiceName_ok_iff name stackId⟩
    constructor
    · rintro ⟨e, he, hcode⟩
      rcases validateServiceName_error_code name stackId e he with h | h
      · exact h.2
      · rw [h.1] at hcode
        exact absurd hcode (by decide)
    · intro hno
      cases h : validateServiceName name stackId with
      | ok u =>
        obtain ⟨s, hs, hspec, _⟩ := (validateServiceName_ok_iff name stackId).mp h
        exact absurd ⟨s, hs, hspec⟩ hno
      | error e =>
        rcases validateServiceName_error_code name stackId e h with h2 | h2
        · exact ⟨e, rfl, h2.1⟩
        · obtain ⟨s, hs, hspec, _⟩ := h2.2
          exact absurd ⟨s, hs, hspec⟩ hno
  · intro s
    unfold specIdentifier
    rw [Bool.and_eq_true, Bool.and_eq_true, decide_eq_true_iff, decide_eq_true_iff,
      specSegments_iff, and_assoc]
    simp only [mem_lowerAlnum]
    rfl
  · intro s hs
    simp only [List.mem_cons, List.mem_singleton, List.not_mem_nil, or_false] at hs
    rcases hs with rfl | rfl | rfl | rfl | rfl <;> rfl
  · intro name hname
    simp only [List.mem_cons, List.mem_singleton, List.not_mem_nil, or_false] at hname
    rcases hname with rfl | rfl | rfl <;> rfl


/-! ## Validation of a stack definition -/

/-- A string that satisfies the identifier rule has at most 31 characters. -/
theorem specIdentifier_length (s : JsString) (h : specIdentifier s = true) :
    s.length ≤ 31 :=
  ((specIdentifier_iff s).mp h).2.1

/-- For a stack identifier that `validateStackName` accepted, the only rejection of
`validateServiceName` is `INVALID_SERVICE_NAME`: the combined name cannot be too long. -/
theorem validateServiceName_error_code_of_stack (name : JsValue) (stackId : JsString)
    (e : ValidationError) (hstack : specIdentifier stackId = true)
    (h : validateServiceName name (JsValue.string stackId) = Except.error e) :
    e.code = js "INVALID_SERVICE_NAME" := by
  rcases validateServiceName_error_code name (JsValue.string stackId) e h with h1 | h2
  · exact h1.1
  · obtain ⟨_, s, _, hspec, hlong⟩ := h2
    have h3 := specIdentifier_length s hspec
    have h4 := specIdentifier_length stackId hstack
    simp only [JsValue.toText, List.length_append] at hlong
    have h5 : (js "-").length = 1 := by rfl
    omega

/-- Every rejection of `validateDockerImage` carries the code `INVALID_DOCKER_IMAGE`. -/
theorem validateDockerImage_error_code (image : JsValue) (e : ValidationError)
    (h : validateDockerImage image = Except.error e) : e.code = js "INVALID_DOCKER_IMAGE" := by
  unfold validateDockerImage at h
  split at h
  · split at h
    · cases h; rfl
    · split at h
      · cases h; rfl
      · cases h
  · cases h; rfl

/-- Every rejection of the loop over the ports carries the code
`INVALID_CONTAINER_CONFIG`. -/
theorem validatePortsLoop_error_code (ports : List JsValue) (e : ValidationError)
    (h : validatePortsLoop ports = Except.error e) :
    e.code = js "INVALID_CONTAINER_CONFIG" := by
  induction ports with
  | nil => cases h
  | cons port rest ih =>
    unfold validatePortsLoop at h
    split at h
    · cases h; rfl
    · split at h
      · split at h
        · cases h; rfl
        · split at h
          · cases h; rfl
          · split at h
            · cases h; rfl
            · exact ih h
      · cases h; rfl

/-- Every rejection of the loop over the volumes carries the code
`INVALID_CONTAINER_CONFIG`. -/
theorem validateVolumesLoop_error_code (volumes : List JsValue) (e : ValidationError)
    (h : validateVolumesLoop volumes = Except.error e) :
    e.code = js "INVALID_CONTAINER_CONFIG" := by
  induction volumes with
  | nil => cases h
  | cons volume rest ih =>
    unfold validateVolumesLoop at h
    split at h
    · cases h; rfl
    · split at h
      · cases h; rfl
      · split at h
        · cases h; rfl
        · exact ih h

/-- Every rejection of `validateContainerConfig` carries the code
`INVALID_CONTAINER_CONFIG`. -/
theorem validateContainerConfig_error_code (config : JsValue) (e : ValidationError)
    (h : validateContainerConfig config = Except.error e) :
    e.code = js "INVALID_CONTAINER_CONFIG" := by
  unfold validateContainerConfig at h
  split at h
  · cases h
  · split at h
    · rename_i e2 hports
      cases h
      unfold validatePorts at hports
      split at hports
      · split at hports
        · exact validatePortsLoop_error_code _ _ hports
        · cases hports; rfl
      · cases hports
    · split at h
      · rename_i e2 henv
        cases h
        unfold validateEnvironment at henv
        split at henv
        · split at henv
          · cases henv; rfl
          · cases henv
        · cases henv
      · unfold validateVolumes at h
        split at h
        · split at h
          · exact validateVolumesLoop_error_code _ _ h
          · cases h; rfl
        · cases h

/-- One round of the loop of `validateStackData` that gets through: the service is an
object, both of its names are accepted, neither is in its set, and the loop goes on with
the two names added. -/
theorem validateServicesLoop_cons_ok (stackId service : JsValue)
    (rest serviceIds serviceNames : List JsValue)
    (h : validateServicesLoop stackId (service :: rest) serviceIds serviceNames =
      Except.ok ()) :
    validateServiceName (service.get (js "id")) stackId = Except.ok () ∧
    validateServiceName (service.get (js "name")) stackId = Except.ok () ∧
    serviceIds.any (fun member => member.sameValueZero (service.get (js "id"))) = false ∧
    serviceNames.any (fun member => member.sameValueZero (service.get (js "name"))) = false ∧
    validateServicesLoop stackId rest (serviceIds ++ [service.get (js "id")])
      (serviceNames ++ [service.get (js "name")]) = Except.ok () := by
  unfold validateServicesLoop at h
  split at h
  · cases h
  · split at h
    · cases h
    · rename_i u1 hid
      split at h
      · cases h
      · rename_i u2 hname
        split at h
        · cases h
        · rename_i hids
          split at h
          · cases h
          · rename_i hnames
            split at h
            · cases h
            · split at h
              · cases h
              · exact ⟨hid, hname, by simpa using hids, by simpa using hnames, h⟩

/-- Every rejection of the loop of `validateStackData`, for a stack identifier that
`validateStackName` accepted, carries one of six codes, none of which is
`CONTAINER_NAME_TOO_LONG`. -/
theorem validateServicesLoop_error_code (stackId : JsString)
    (hstack : specIdentifier stackId = true) (services serviceIds serviceNames : List JsValue)
    (e : ValidationError)
    (h : validateServicesLoop (JsValue.string stackId) services serviceIds serviceNames =
      Except.error e) :
    e.code ∈ [js "INVALID_SERVICE_DATA", js "INVALID_SERVICE_NAME", js "DUPLICATE_SERVICE_ID",
      js "DUPLICATE_SERVICE_NAME", js "INVALID_DOCKER_IMAGE", js "INVALID_CONTAINER_CONFIG"] := by
  induction services generalizing serviceIds serviceNames with
  | nil => cases h
  | cons service rest ih =>
    unfold validateServicesLoop at h
    split at h
    · cases h; decide
    · split at h
      · rename_i e2 hid
        cases h
        rw [validateServiceName_error_code_of_stack _ stackId e hstack hid]; decide
      · split at h
        · rename_i e2 hname
          cases h
          rw [validateServiceName_error_code_of_stack _ stackId e hstack hname]; decide
        · split at h
          · cases h; dsimp only; decide
          · split at h
            · cases h; dsimp only; decide
            · split at h
              · rename_i e2 himage
                cases h
                rw [validateDockerImage_error_code _ e himage]; decide
              · split at h
                · rename_i e2 hconfig
                  cases h
                  split at hconfig
                  · rw [validateContainerConfig_error_code _ e hconfig]; decide
                  · cases hconfig
                · exact ih _ _ h

/-- Two strings are the same value for a set exactly when they are equal. -/
theorem JsValue.sameValueZero_string (a b : JsString) :
    (JsValue.string a).sameValueZero (JsValue.string b) = decide (a = b) := by
  simp only [JsValue.sameValueZero]
  by_cases h : a = b
  · simp [h]
  · simp [h]

/-- When the loop of `validateStackData` gets through, the identifiers of the services are
strings that `validateServiceName` accepts, pairwise distinct and none in the set of
identifiers the loop started with; and so are the names, for the set of names. -/
theorem validateServicesLoop_ok (stackId : JsValue)
    (services serviceIds serviceNames : List JsValue)
    (h : validateServicesLoop stackId services serviceIds serviceNames = Except.ok ()) :
    ∃ ids names : List JsString,
      services.map (fun service => service.get (js "id")) = ids.map JsValue.string ∧
      services.map (fun service => service.get (js "name")) = names.map JsValue.string ∧
      ids.Nodup ∧ names.Nodup ∧
      (∀ id ∈ ids, JsValue.string id ∉ serviceIds ∧
        validateServiceName (JsValue.string id) stackId = Except.ok ()) ∧
      (∀ name ∈ names, JsValue.string name ∉ serviceNames ∧
        validateServiceName (JsValue.string name) stackId = Except.ok ()) := by
  induction services generalizing serviceIds serviceNames with
  | nil => exact ⟨[], [], rfl, rfl, List.nodup_nil, List.nodup_nil, by simp, by simp⟩
  | cons service rest ih =>
    obtain ⟨hid, hname, hids, hnames, hrest⟩ :=
      validateServicesLoop_cons_ok stackId service rest serviceIds serviceNames h
    obtain ⟨ids, names, hmapIds, hmapNames, hnodupIds, hnodupNames, hfreshIds, hfreshNames⟩ :=
      ih _ _ hrest
    obtain ⟨id, hidEq, _, _⟩ := (validateServiceName_ok_iff _ _).mp hid
    obtain ⟨name, hnameEq, _, _⟩ := (validateServiceName_ok_iff _ _).mp hname
    have hnotin : ∀ (set : List JsValue) (s : JsString),
        set.any (fun member => member.sameValueZero (JsValue.string s)) = false →
        JsValue.string s ∉ set := by
      intro set s hany hmem
      rw [List.any_eq_false] at hany
      have := hany _ hmem
      rw [JsValue.sameValueZero_string] at this
      simp at this
    refine ⟨id :: ids, name :: names, ?_, ?_, ?_, ?_, ?_, ?_⟩
    · simp only [List.map_cons, hidEq, hmapIds]
    · simp only [List.map_cons, hnameEq, hmapNames]
    · refine List.nodup_cons.mpr ⟨?_, hnodupIds⟩
      intro hmem
      apply (hfreshIds id hmem).1
      rw [hidEq]
      exact List.mem_append_right _ (List.mem_singleton_self _)
    · refine List.nodup_cons.mpr ⟨?_, hnodupNames⟩
      intro hmem
      apply (hfreshNames name hmem).1
      rw [hnameEq]
      exact List.mem_append_right _ (List.mem_singleton_self _)
    · intro x hx
      rcases List.mem_cons.mp hx with rfl | hx2
      · rw [hidEq] at hids hid
        exact ⟨hnotin _ _ hids, hid⟩
      · exact ⟨fun hmem => (hfreshIds x hx2).1 (List.mem_append_left _ hmem),
          (hfreshIds x hx2).2⟩
    · intro x hx
      rcases List.mem_cons.mp hx with rfl | hx2
      · rw [hnameEq] at hnames hname
        exact ⟨hnotin _ _ hnames, hname⟩
      · exact ⟨fun hmem => (hfreshNames x hx2).1 (List.mem_append_left _ hmem),
          (hfreshNames x hx2).2⟩

/-- What an accepted stack definition is: an object whose `id` and `name` are strings of
the identifier rule and whose `services` is a non-empty array that gets through the
loop. -/
theorem validateStackData_ok (data : JsValue) (h : validateStackData data = Except.ok ()) :
    ∃ (stackId stackName : JsString) (services : List JsValue),
      data.get (js "id") = JsValue.string stackId ∧ specIdentifier stackId = true ∧
      data.get (js "name") = JsValue.string stackName ∧ specIdentifier stackName = true ∧
      data.get (js "services") = JsValue.array services ∧ services ≠ [] ∧
      validateServicesLoop (JsValue.string stackId) services [] [] = Except.ok () := by
  unfold validateStackData at h
  split at h
  · cases h
  · split at h
    · cases h
    · rename_i u1 hid
      split at h
      · cases h
      · rename_i u2 hname
        obtain ⟨stackId, hidEq, hidSpec⟩ := (validateStackName_ok_iff _).mp hid
        obtain ⟨stackName, hnameEq, hnameSpec⟩ := (validateStackName_ok_iff _).mp hname
        split at h
        · rename_i services hservices
          split at h
          · cases h
          · rename_i hlen
            rw [hidEq] at h
            exact ⟨stackId, stackName, services, hidEq, hidSpec, hnameEq, hnameSpec,
              hservices, by intro hnil; rw [hnil] at hlen; simp at hlen, h⟩
        · cases h

/-- Every rejection of `validateStackData` carries one of eight codes, none of which is
`CONTAINER_NAME_TOO_LONG`. -/
theorem validateStackData_error_code (data : JsValue) (e : ValidationError)
    (h : validateStackData data = Except.error e) :
    e.code ∈ [js "INVALID_STACK_DATA", js "INVALID_STACK_NAME", js "INVALID_SERVICE_DATA",
      js "INVALID_SERVICE_NAME", js "DUPLICATE_SERVICE_ID", js "DUPLICATE_SERVICE_NAME",
      js "INVALID_DOCKER_IMAGE", js "INVALID_CONTAINER_CONFIG"] := by
  unfold validateStackData at h
  split at h
  · cases h; decide
  · split at h
    · rename_i e2 hid
      cases h
      rw [validateStackName_error_code _ e hid]; decide
    · rename_i u1 hid
      split at h
      · rename_i e2 hname
        cases h
        rw [validateStackName_error_code _ e hname]; decide
      · obtain ⟨stackId, hidEq, hidSpec⟩ := (validateStackName_ok_iff _).mp hid
        split at h
        · split at h
          · cases h; decide
          · rw [hidEq] at h
            have := validateServicesLoop_error_code stackId hidSpec _ _ _ e h
            simp only [List.mem_cons, List.mem_singleton, List.not_mem_nil, or_false] at this ⊢
            tauto
        · cases h; decide


set_option maxRecDepth 100000 in
/-- C23: a stack definition that `validateStackData` accepts has a `services` array with
at least one service, in which the identifiers are strings that are pairwise distinct and
the names are strings that are pairwise distinct. A definition whose `services` array has
two services with the same identifier, or two with the same name, is rejected with a
validation error. The definition `web` with the services `worker` and `api` is accepted;
without services it is rejected (`INVALID_STACK_DATA`); with two services of identifier
`worker` it is rejected with `DUPLICATE_SERVICE_ID`, and with two services of name
`worker` with `DUPLICATE_SERVICE_NAME`. -/
theorem validateStackData_distinct_services :
    (∀ data : JsValue, validateStackData data = Except.ok () →
      ∃ (services : List JsValue) (ids names : List JsString),
        data.get (js "services") = JsValue.array services ∧
        1 ≤ services.length ∧
        services.map (fun service => service.get (js "id")) = ids.map JsValue.string ∧
        ids.Nodup ∧
        services.map (fun service => service.get (js "name")) = names.map JsValue.string ∧
        names.Nodup) ∧
    (∀ (data : JsValue) (services : List JsValue),
      data.get (js "services") = JsValue.array services →
      (¬ (services.map (fun service => service.get (js "id"))).Nodup ∨
        ¬ (services.map (fun service => service.get (js "name"))).Nodup) →
      ∃ e, validateStackData data = Except.error e) ∧
    validateStackData demoDefinition.toJsValue = Except.ok () ∧
    validateStackData (StackDefinition.toJsValue { demoDefinition with services := [] }) =
      Except.error
        { message := js "Stack must contain at least one service",
          code := js "INVALID_STACK_DATA" } ∧
    validateStackData
        (StackDefinition.toJsValue
          { demoDefinition with
            services :=
              [{ id := js "worker", name := js "worker", image := js "redis",
                 containerConfig := none },
               { id := js "worker", name := js "api", image := js "nginx",
                 containerConfig := none }] }) =
      Except.error
        { message := js "Duplicate service ID: 'worker'", code := js "DUPLICATE_SERVICE_ID" } ∧
    validateStackData
        (StackDefinition.toJsValue
          { demoDefinition with
            services :=
              [{ id := js "worker", name := js "worker", image := js "redis",
                 containerConfig := none },
               { id := js "api", name := js "worker", image := js "nginx",
                 containerConfig := none }] }) =
      Except.error
        { message := js "Duplicate service name: 'worker'",
          code := js "DUPLICATE_SERVICE_NAME" } := by
  have hmain : ∀ data : JsValue, validateStackData data = Except.ok () →
      ∃ (services : List JsValue) (ids names : List JsString),
        data.get (js "services") = JsValue.array services ∧
        1 ≤ services.length ∧
        services.map (fun service => service.get (js "id")) = ids.map JsValue.string ∧
        ids.Nodup ∧
        services.map (fun service => service.get (js "name")) = names.map JsValue.string ∧
        names.Nodup := by
    intro data h
    obtain ⟨stackId, stackName, services, _, _, _, _, hservices, hne, hloop⟩ :=
      validateStackData_ok data h
    obtain ⟨ids, names, hids, hnames, hnodupIds, hnodupNames, _, _⟩ :=
      validateServicesLoop_ok _ services [] [] hloop
    refine ⟨services, ids, names, hservices, ?_, hids, hnodupIds, hnames, hnodupNames⟩
    cases services with
    | nil => exact absurd rfl hne
    | cons service rest => simp
  have hinj : Function.Injective JsValue.string := by
    intro a b hab
    cases hab
    rfl
  refine ⟨hmain, ?_, by rfl, by rfl, by rfl, by rfl⟩
  intro data services hservices hdup
  cases h : validateStackData data with
  | error e => exact ⟨e, rfl⟩
  | ok u =>
    exfalso
    obtain ⟨services2, ids, names, hservices2, _, hids, hnodupIds, hnames, hnodupNames⟩ :=
      hmain data h
    rw [hservices] at hservices2
    cases hservices2
    rcases hdup with hd | hd
    · apply hd
      rw [hids]
      exact hnodupIds.map hinj
    · apply hd
      rw [hnames]
      exact hnodupNames.map hinj

/-- The request body of a stack definition: its `id`, and the identifiers of its
services. -/
theorem StackDefinition.toJsValue_get (stackData : StackDefinition) :
    stackData.toJsValue.get (js "id") = JsValue.string stackData.id ∧
    ∃ services : List JsValue,
      stackData.toJsValue.get (js "services") = JsValue.array services ∧
      services.map (fun service => service.get (js "id")) =
        stackData.services.map (fun service => JsValue.string service.id) := by
  refine ⟨by rfl, _, by rfl, ?_⟩
  rw [List.map_map]
  apply List.map_congr_left
  intro service _
  rfl

set_option maxRecDepth 100000 in
/-- C24: for a stack identifier that `validateStackName` accepts and a service identifier
that passes the identifier rule of `validateServiceName` (it is not rejected with
`INVALID_SERVICE_NAME`), the derived container name has at most 63 characters, so
`generateContainerName` returns it and `validateServiceName` accepts the identifier. For
a stack definition that `validateStackData` accepts, `generateContainerName` returns the
derived name for the stack identifier and the identifier of every service; and
`validateStackData` never raises `CONTAINER_NAME_TOO_LONG`, whatever the definition. The
bound is reached by 31 times `a` with 31 times `b` (63 characters); called on its own
with the 32-character stack identifier, `validateServiceName` does raise
`CONTAINER_NAME_TOO_LONG`. -/
theorem validated_names_fit :
    (∀ stackId serviceId : JsString,
      validateStackName (JsValue.string stackId) = Except.ok () →
      (∀ e, validateServiceName (JsValue.string serviceId) (JsValue.string stackId) =
          Except.error e → e.code ≠ js "INVALID_SERVICE_NAME") →
      (stackId ++ js "-" ++ serviceId).length ≤ 63 ∧
      generateContainerName stackId serviceId =
        Except.ok (stackId ++ js "-" ++ serviceId) ∧
      validateServiceName (JsValue.string serviceId) (JsValue.string stackId) =
        Except.ok ()) ∧
    (∀ data : JsValue, validateStackData data = Except.ok () →
      ∃ (stackId : JsString) (services : List JsValue),
        data.get (js "id") = JsValue.string stackId ∧
        data.get (js "services") = JsValue.array services ∧
        ∀ service ∈ services, ∃ serviceId : JsString,
          service.get (js "id") = JsValue.string serviceId ∧
          generateContainerName stackId serviceId =
            Except.ok (stackId ++ js "-" ++ serviceId)) ∧
    (∀ stackData : StackDefinition, validateStackData stackData.toJsValue = Except.ok () →
      ∀ service ∈ stackData.services,
        generateContainerName stackData.id service.id =
          Except.ok (stackData.id ++ js "-" ++ service.id)) ∧
    (∀ (data : JsValue) (e : ValidationError), validateStackData data = Except.error e →
      e.code ≠ js "CONTAINER_NAME_TOO_LONG") ∧
    validateStackName (JsValue.string (repeatChar 'a' 31)) = Except.ok () ∧
    validateServiceName (JsValue.string (repeatChar 'b' 31))
        (JsValue.string (repeatChar 'a' 31)) = Except.ok () ∧
    generateContainerName (repeatChar 'a' 31) (repeatChar 'b' 31) =
      Except.ok (repeatChar 'a' 31 ++ js "-" ++ repeatChar 'b' 31) ∧
    (repeatChar 'a' 31 ++ js "-" ++ repeatChar 'b' 31).length = 63 ∧
    validateServiceName (JsValue.string (repeatChar 'b' 31))
        (JsValue.string (repeatChar 'a' 32)) =
      Except.error
        { message := js "Combined container name '" ++
            (repeatChar 'a' 32 ++ js "-" ++ repeatChar 'b' 31) ++ js "' exceeds 63 characters",
          code := js "CONTAINER_NAME_TOO_LONG" } ∧
    validateStackData demoDefinition.toJsValue = Except.ok () := by
  have hfit : ∀ stackId serviceId : JsString, specIdentifier stackId = true →
      specIdentifier serviceId = true → (stackId ++ js "-" ++ serviceId).length ≤ 63 := by
    intro stackId serviceId h1 h2
    have h3 := specIdentifier_length stackId h1
    have h4 := specIdentifier_length serviceId h2
    have h5 : (js "-").length = 1 := by rfl
    simp only [List.length_append]
    omega
  have hdata : ∀ data : JsValue, validateStackData data = Except.ok () →
      ∃ (stackId : JsString) (services : List JsValue),
        data.get (js "id") = JsValue.string stackId ∧
        data.get (js "services") = JsValue.array services ∧
        ∀ service ∈ services, ∃ serviceId : JsString,
          service.get (js "id") = JsValue.string serviceId ∧
          generateContainerName stackId serviceId =
            Except.ok (stackId ++ js "-" ++ serviceId) := by
    intro data h
    obtain ⟨stackId, stackName, services, hid, hidSpec, _, _, hservices, _, hloop⟩ :=
      validateStackData_ok data h
    obtain ⟨ids, names, hids, _, _, _, hfresh, _⟩ :=
      validateServicesLoop_ok _ services [] [] hloop
    refine ⟨stackId, services, hid, hservices, ?_⟩
    intro service hservice
    have hmem : service.get (js "id") ∈ ids.map JsValue.string := by
      rw [← hids]
      exact List.mem_map.mpr ⟨service, hservice, rfl⟩
    obtain ⟨serviceId, hserviceId, heq⟩ := List.mem_map.mp hmem
    obtain ⟨s, hs, hspec, _⟩ :=
      (validateServiceName_ok_iff _ _).mp (hfresh serviceId hserviceId).2
    cases hs
    exact ⟨serviceId, heq.symm,
      generateContainerName_of_le stackId serviceId (hfit stackId serviceId hidSpec hspec)⟩
  refine ⟨?_, hdata, ?_, ?_, by rfl, by rfl, by rfl, by rfl, by rfl, by rfl⟩
  · intro stackId serviceId hstack hservice
    obtain ⟨s, hs, hstackSpec⟩ := (validateStackName_ok_iff _).mp hstack
    cases hs
    have hserviceSpec : specIdentifier serviceId = true := by
      by_contra hno
      cases h : validateServiceName (JsValue.string serviceId) (JsValue.string stackId) with
      | ok u =>
        obtain ⟨t, ht, hspec, _⟩ := (validateServiceName_ok_iff _ _).mp h
        cases ht
        exact hno hspec
      | error e =>
        rcases validateServiceName_error_code _ _ e h with h1 | h2
        · exact hservice e h h1.1
        · obtain ⟨_, t, ht, hspec, _⟩ := h2
          cases ht
          exact hno hspec
    have hlen := hfit stackId serviceId hstackSpec hserviceSpec
    exact ⟨hlen, generateContainerName_of_le stackId serviceId hlen,
      (validateServiceName_ok_iff _ _).mpr ⟨serviceId, rfl, hserviceSpec, hlen⟩⟩
  · intro stackData h service hservice
    obtain ⟨stackId, services, hid, hservices, hall⟩ := hdata _ h
    obtain ⟨hid2, services2, hservices2, hmap⟩ := StackDefinition.toJsValue_get stackData
    rw [hid2] at hid
    cases hid
    rw [hservices2] at hservices
    cases hservices
    have hmem : JsValue.string service.id ∈
        services.map (fun service => service.get (js "id")) := by
      rw [hmap]
      exact List.mem_map.mpr ⟨service, hservice, rfl⟩
    obtain ⟨item, hitem, hitemId⟩ := List.mem_map.mp hmem
    obtain ⟨serviceId, hserviceId, hname⟩ := hall item hitem
    rw [hserviceId] at hitemId
    cases hitemId
    exact hname
  · intro data e h hcode
    have := validateStackData_error_code data e h
    rw [hcode] at this
    revert this
    decide


/-! ## The text of a number -/

set_option maxRecDepth 100000 in
/-- The text of an integer number value at some inputs: plain decimal below 2^53; from
there on the shortest digits that are read back as the number, followed by zeros (2^60 is
written with its 16 first digits rounded); and the exponent form from 10^21 on. So the
combined container name of the 31 times `b` with the number 2^107 as stack identifier has
22 + 1 + 31 characters, and `validateServiceName` accepts it. -/
theorem numberToString_examples :
    numberToString 0 = js "0" ∧
    numberToString 8080 = js "8080" ∧
    numberToString (2 ^ 53 - 1) = js "9007199254740991" ∧
    numberToString (2 ^ 53 + 1) = js "9007199254740992" ∧
    numberToString (2 ^ 60) = js "1152921504606847000" ∧
    numberToString (10 ^ 21 - 1) = js "1e+21" ∧
    numberToString (10 ^ 21) = js "1e+21" ∧
    numberToString (2 ^ 107) = js "1.6225927682921336e+32" ∧
    (JsNumber.int (-(2 ^ 107))).toText = js "-1.6225927682921336e+32" ∧
    validateServiceName (JsValue.string (repeatChar 'b' 31))
        (JsValue.number (JsNumber.int (2 ^ 107))) = Except.ok () := by
  refine ⟨by rfl, by rfl, by rfl, by rfl, by rfl, by rfl, by rfl, by rfl, by rfl, by rfl⟩

end StackApp
